import Mathlib

/-!
# HeatPump: packet codec and session state

A shallow embedding of `src/HeatPump.cpp` (Mitsubishi heat pump serial driver).

Conventions of the embedding

* A `byte` is a `Nat` below 256; every store of a wider value into a byte is written
  with an explicit `% 256` (`toByte`).
* A C array is a `List`; every array access is checked: reading or writing outside the
  array (in particular at index `-1`) makes the enclosing function return `none`.
* A `for (i = 0; i < len; i++)` loop is a structural recursion on the number of
  iterations that remain, so every function is total.
* `HeatPump.h` is not among the sources.  Its constant tables are collected in the
  structure `Tables`, which is a parameter of every function that uses them.
-/

namespace HeatPump

/-! ## Checked array access -/

/-- Read `a[i]` for a signed index; `none` outside the array. -/
def readAt {α : Type} (a : List α) (i : Int) : Option α :=
  if 0 ≤ i then a[i.toNat]? else none

/-- Write `a[i] = v`; `none` outside the array. -/
def writeAt {α : Type} (a : List α) (i : Nat) (v : α) : Option (List α) :=
  if i < a.length then some (a.set i v) else none

/-- Conversion of an `int` to `byte` (truncation to the low 8 bits). -/
def toByte (x : Int) : Nat := (x % 256).toNat

/-! ## Data model -/

/-- The struct `heatpumpSettings`: five string tokens and an integer temperature. -/
structure heatpumpSettings where
  power : String
  mode : String
  temperature : Int
  fan : String
  vane : String
  wideVane : String
deriving DecidableEq, Repr

/-- The `operator==` of `heatpumpSettings`. -/
def operatorEq (lhs rhs : heatpumpSettings) : Bool :=
  lhs.power == rhs.power &&
  lhs.mode == rhs.mode &&
  lhs.temperature == rhs.temperature &&
  lhs.fan == rhs.fan &&
  lhs.vane == rhs.vane &&
  lhs.wideVane == rhs.wideVane

/-- The `operator!=` of `heatpumpSettings`. -/
def operatorNe (lhs rhs : heatpumpSettings) : Bool :=
  lhs.power != rhs.power ||
  lhs.mode != rhs.mode ||
  lhs.temperature != rhs.temperature ||
  lhs.fan != rhs.fan ||
  lhs.vane != rhs.vane ||
  lhs.wideVane != rhs.wideVane

/-- Modelled from the spec: the conversion of a `String` token to `bool`, which belongs to
the `String` class and not to the sources; "a snapshot is empty/unset iff every dimension
is unset", and the unset token is the empty `String` that construction leaves. -/
def tokenIsSet (t : String) : Bool := t != ""

/-- The `operator!` of `heatpumpSettings`; `!settings.temperature` is `temperature == 0`. -/
def operatorNot (settings : heatpumpSettings) : Bool :=
  !tokenIsSet settings.power &&
  !tokenIsSet settings.mode &&
  settings.temperature == 0 &&
  !tokenIsSet settings.fan &&
  !tokenIsSet settings.vane &&
  !tokenIsSet settings.wideVane

/-- Modelled from the spec: the four result codes of `readPacket`
(`RCVD_PKT_*`, declared in the absent `HeatPump.h`), "the four-way classification
(`Settings`, `RoomTemp`, `UpdateAck`, `Fail`)". -/
inductive PacketType where
  | RCVD_PKT_FAIL
  | RCVD_PKT_SETTINGS
  | RCVD_PKT_ROOM_TEMP
  | RCVD_PKT_UPDATE_SUCCESS
deriving DecidableEq, Repr

/-- Modelled from the spec: `PACKET_LEN` of the absent `HeatPump.h`, "update frame total
length 22 bytes", "info-request frame total length 22 bytes". -/
def PACKET_LEN : Nat := 22

/-- Modelled from the spec: `INFOHEADER_LEN` of the absent `HeatPump.h`, "a fixed 5-byte
header"; `readPacket` itself fills `header[1..4]` and copies the payload to offset 5. -/
def INFOHEADER_LEN : Nat := 5

/-- The constant tables declared in `HeatPump.h`, which is not among the sources.
They are a parameter of the embedding. -/
structure Tables where
  HEADER_LEN : Nat
  HEADER : List Nat
  INFOHEADER : List Nat
  INFOMODE : List Nat
  POWER : List Nat
  POWER_MAP : List String
  MODE : List Nat
  MODE_MAP : List String
  TEMP : List Nat
  TEMP_MAP : List Int
  FAN : List Nat
  FAN_MAP : List String
  VANE : List Nat
  VANE_MAP : List String
  WIDEVANE : List Nat
  WIDEVANE_MAP : List String
  ROOM_TEMP : List Nat
  ROOM_TEMP_MAP : List Int
  PACKET_SENT_INTERVAL_MS : Nat
  RQST_PKT_SETTINGS : Nat
  RQST_PKT_ROOM_TEMP : Nat

/-- Every entry of a byte array is a byte. -/
def allBytes (l : List Nat) : Prop := ∀ b ∈ l, b < 256

instance (l : List Nat) : Decidable (allBytes l) := by
  unfold allBytes; infer_instance

/-- Shape of the tables that the code relies on: the array lengths that the call sites
pass as literals (2, 5, 16, 6, 7, 7, 32), a header that ends before the first
dimension byte at offset 8, and `byte` entries. -/
structure Tables.WF (K : Tables) : Prop where
  header_len : K.HEADER.length = K.HEADER_LEN
  header_le : K.HEADER_LEN ≤ 8
  infoheader_len : K.INFOHEADER.length = INFOHEADER_LEN
  infomode_len : 2 ≤ K.INFOMODE.length
  power_len : K.POWER.length = 2
  power_map_len : K.POWER_MAP.length = 2
  mode_len : K.MODE.length = 5
  mode_map_len : K.MODE_MAP.length = 5
  temp_len : K.TEMP.length = 16
  temp_map_len : K.TEMP_MAP.length = 16
  fan_len : K.FAN.length = 6
  fan_map_len : K.FAN_MAP.length = 6
  vane_len : K.VANE.length = 7
  vane_map_len : K.VANE_MAP.length = 7
  widevane_len : K.WIDEVANE.length = 7
  widevane_map_len : K.WIDEVANE_MAP.length = 7
  room_temp_len : K.ROOM_TEMP.length = 32
  room_temp_map_len : K.ROOM_TEMP_MAP.length = 32
  header_bytes : allBytes K.HEADER
  infoheader_bytes : allBytes K.INFOHEADER
  infomode_bytes : allBytes K.INFOMODE
  power_bytes : allBytes K.POWER
  mode_bytes : allBytes K.MODE
  temp_bytes : allBytes K.TEMP
  fan_bytes : allBytes K.FAN
  vane_bytes : allBytes K.VANE
  widevane_bytes : allBytes K.WIDEVANE

/-- The six tokens of a snapshot all occur in their tables. -/
def inTables (K : Tables) (s : heatpumpSettings) : Prop :=
  s.power ∈ K.POWER_MAP ∧ s.mode ∈ K.MODE_MAP ∧ s.temperature ∈ K.TEMP_MAP ∧
  s.fan ∈ K.FAN_MAP ∧ s.vane ∈ K.VANE_MAP ∧ s.wideVane ∈ K.WIDEVANE_MAP

instance (K : Tables) (s : heatpumpSettings) : Decidable (inTables K s) := by
  unfold inTables; infer_instance

/-! ## Value-map lookups -/

/-- Loop of `lookupByteMapIndex`: `n` iterations remain, `i` is the loop index. -/
def lookupByteMapIndexLoop {α : Type} [DecidableEq α] (valuesMap : List α) (lookupValue : α) :
    Nat → Nat → Option Int
  | 0, _ => some (-1)
  | n + 1, i =>
    match valuesMap[i]? with
    | none => none
    | some v => if v = lookupValue then some (i : Int) else
        lookupByteMapIndexLoop valuesMap lookupValue n (i + 1)

/-- The function `HeatPump::lookupByteMapIndex`; the `int` and the `String` overload have
this body, with `α` the type of the values. -/
def lookupByteMapIndex {α : Type} [DecidableEq α] (valuesMap : List α) (len : Nat)
    (lookupValue : α) : Option Int :=
  lookupByteMapIndexLoop valuesMap lookupValue len 0

/-- Loop of `lookupByteMapValue`; `none` of the inner option means the loop ended
without a `return`. -/
def lookupByteMapValueLoop {α : Type} (valuesMap : List α) (byteMap : List Nat) (byteValue : Nat) :
    Nat → Nat → Option (Option α)
  | 0, _ => some none
  | n + 1, i =>
    match byteMap[i]? with
    | none => none
    | some b =>
      if b = byteValue then
        match valuesMap[i]? with
        | none => none
        | some v => some (some v)
      else lookupByteMapValueLoop valuesMap byteMap byteValue n (i + 1)

/-- The function `HeatPump::lookupByteMapValue`; the `int` and the `String` overload have
this body, with `α` the type of the values. -/
def lookupByteMapValue {α : Type} (valuesMap : List α) (byteMap : List Nat) (len : Nat)
    (byteValue : Nat) : Option α :=
  match lookupByteMapValueLoop valuesMap byteMap byteValue len 0 with
  | none => none
  | some (some v) => some v
  | some none => valuesMap[0]?

/-! ## Checksum -/

/-- Loop of `checkSum`: `sum` is a `byte`, so `sum += bytes[i]` wraps modulo 256. -/
def checkSumLoop (bytes : List Nat) : Nat → Nat → Nat → Option Nat
  | 0, _, sum => some sum
  | n + 1, i, sum =>
    match bytes[i]? with
    | none => none
    | some b => checkSumLoop bytes n (i + 1) ((sum + b) % 256)

/-- The function `HeatPump::checkSum`: `(0xfc - sum) & 0xff` on the promoted `int`. -/
def checkSum (bytes : List Nat) (len : Nat) : Option Nat :=
  match checkSumLoop bytes len 0 0 with
  | none => none
  | some sum => some (toByte (0xfc - (sum : Int)))

/-- The checksum as the specification words it: `(0xFC - sum(B)) mod 256`. -/
def specChecksum (B : List Nat) : Nat := ((0xFC - (B.sum : Int)) % 256).toNat

/-! ## Frame builders -/

/-- Loop `for (i = 0; i < n; i++) packet[i] = src[i];`. -/
def copyLoop (src : List Nat) : Nat → Nat → List Nat → Option (List Nat)
  | 0, _, packet => some packet
  | n + 1, i, packet =>
    match src[i]? with
    | none => none
    | some b =>
      match writeAt packet i b with
      | none => none
      | some packet => copyLoop src n (i + 1) packet

/-- Loop `for (i = 0; i < n; i++) packet[i + off] = 0x00;`. -/
def padLoop (off : Nat) : Nat → Nat → List Nat → Option (List Nat)
  | 0, _, packet => some packet
  | n + 1, i, packet =>
    match writeAt packet (i + off) 0x00 with
    | none => none
    | some packet => padLoop off n (i + 1) packet

/-- The statement `packet[off] = CODES[lookupByteMapIndex(MAP, len, value)];` of
`createPacket`: the index that the lookup returns (possibly `-1`) is used unguarded. -/
def assignCode {α : Type} [DecidableEq α] (packet : List Nat) (off : Nat) (codes : List Nat)
    (valuesMap : List α) (len : Nat) (value : α) : Option (List Nat) :=
  match lookupByteMapIndex valuesMap len value with
  | none => none
  | some i =>
    match readAt codes i with
    | none => none
    | some b => writeAt packet off b

/-- The function `HeatPump::createPacket`; `packet` is the caller's buffer, the result is
the buffer after the call. -/
def createPacket (K : Tables) (packet : List Nat) (settings : heatpumpSettings) :
    Option (List Nat) :=
  match copyLoop K.HEADER K.HEADER_LEN 0 packet with
  | none => none
  | some packet =>
  match assignCode packet 8 K.POWER K.POWER_MAP 2 settings.power with
  | none => none
  | some packet =>
  match assignCode packet 9 K.MODE K.MODE_MAP 5 settings.mode with
  | none => none
  | some packet =>
  match assignCode packet 10 K.TEMP K.TEMP_MAP 16 settings.temperature with
  | none => none
  | some packet =>
  match assignCode packet 11 K.FAN K.FAN_MAP 6 settings.fan with
  | none => none
  | some packet =>
  match assignCode packet 12 K.VANE K.VANE_MAP 7 settings.vane with
  | none => none
  | some packet =>
  match writeAt packet 13 0x00 with
  | none => none
  | some packet =>
  match writeAt packet 14 0x00 with
  | none => none
  | some packet =>
  match assignCode packet 15 K.WIDEVANE K.WIDEVANE_MAP 7 settings.wideVane with
  | none => none
  | some packet =>
  -- pad the packet out
  match padLoop 16 5 0 packet with
  | none => none
  | some packet =>
  -- add the checksum
  match checkSum packet 21 with
  | none => none
  | some chkSum => writeAt packet 21 chkSum

/-! ## Session state -/

/-- An invocation of one of the three registered observers. -/
inductive Event where
  /-- The call `packetCallback(packet, length, tag)`. -/
  | packet (bytes : List Nat) (length : Nat) (tag : String)
  /-- The call `settingsChangedCallback()`, with `currentSettings` as it is at the call. -/
  | settingsChanged (current : heatpumpSettings)
  /-- The call `roomTempChangedCallback(currentRoomTemp)`. -/
  | roomTempChanged (temp : Int)
deriving DecidableEq, Repr

/-- The fields of a `HeatPump` object together with its environment: `millis` is the value
that the Arduino call `millis()` returns now (an `unsigned long`, 32 bits), `serialIn`
holds the bytes waiting in the receive buffer of `_HardSerial`, `serialOut` the bytes
written to it, `events` the observer calls made so far (oldest first).  A callback field
is `true` when a callback is registered. -/
structure State where
  millis : Nat
  lastSend : Nat
  infoMode : Bool
  currentSettings : heatpumpSettings
  wantedSettings : heatpumpSettings
  currentRoomTemp : Int
  settingsChangedCallback : Bool
  packetCallback : Bool
  roomTempChangedCallback : Bool
  serialIn : List Nat
  serialOut : List Nat
  events : List Event
deriving DecidableEq, Repr

/-- The unset snapshot that construction leaves: empty tokens, and a zero temperature
(a `HeatPump` object of static storage is zero-initialised). -/
def unsetSettings : heatpumpSettings :=
  { power := "", mode := "", temperature := 0, fan := "", vane := "", wideVane := "" }

/-- The constructor `HeatPump::HeatPump`, for an object of static storage (fields that the
constructor does not assign are zero), at clock value `now`, whose transport holds
`input`. -/
def construct (now : Nat) (input : List Nat) : State :=
  { millis := now
    lastSend := 0
    infoMode := false
    currentSettings := unsetSettings
    wantedSettings := unsetSettings
    currentRoomTemp := 0
    settingsChangedCallback := false
    packetCallback := false
    roomTempChangedCallback := false
    serialIn := input
    serialOut := []
    events := [] }

/-- The function `HeatPump::createInfoPacket`; `if(packetType)` tests the byte against 0. -/
def createInfoPacket (K : Tables) (hp : State) (packet : List Nat) (packetType : Nat) :
    Option (List Nat × State) :=
  -- add the header to the packet
  match copyLoop K.INFOHEADER INFOHEADER_LEN 0 packet with
  | none => none
  | some packet =>
  -- set the mode - settings or room temperature
  match (if packetType ≠ 0 then
      match readAt K.INFOMODE packetType with
      | none => none
      | some b =>
        match writeAt packet 5 b with
        | none => none
        | some packet => some (packet, hp)
    else
      match readAt K.INFOMODE (if hp.infoMode then 1 else 0) with
      | none => none
      | some b =>
        match writeAt packet 5 b with
        | none => none
        | some packet => some (packet, { hp with infoMode := !hp.infoMode })) with
  | none => none
  | some (packet, hp) =>
  -- pad the packet out
  match padLoop 6 15 0 packet with
  | none => none
  | some packet =>
  -- add the checksum
  match checkSum packet 21 with
  | none => none
  | some chkSum =>
    match writeAt packet 21 chkSum with
    | none => none
    | some packet => some (packet, hp)

/-! ## Setters -/

/-- The expression `lookupByteMapIndex(MAP, len, setting) > -1 ? setting : MAP[0]` that all
setters evaluate. -/
def checkedToken {α : Type} [DecidableEq α] (valuesMap : List α) (len : Nat) (setting : α) :
    Option α :=
  match lookupByteMapIndex valuesMap len setting with
  | none => none
  | some i => if i > -1 then some setting else valuesMap[0]?

/-- The function `HeatPump::setPowerSetting(String)`. -/
def setPowerSetting (K : Tables) (hp : State) (setting : String) : Option State :=
  match checkedToken K.POWER_MAP 2 setting with
  | none => none
  | some v => some { hp with wantedSettings := { hp.wantedSettings with power := v } }

/-- The function `HeatPump::setPowerSetting(bool)`. -/
def setPowerSettingBool (K : Tables) (hp : State) (setting : Bool) : Option State :=
  match K.POWER_MAP[if setting then 1 else 0]? with
  | none => none
  | some token =>
    match checkedToken K.POWER_MAP 2 token with
    | none => none
    | some v => some { hp with wantedSettings := { hp.wantedSettings with power := v } }

/-- The function `HeatPump::setModeSetting`. -/
def setModeSetting (K : Tables) (hp : State) (setting : String) : Option State :=
  match checkedToken K.MODE_MAP 5 setting with
  | none => none
  | some v => some { hp with wantedSettings := { hp.wantedSettings with mode := v } }

/-- The function `HeatPump::setTemperature`. -/
def setTemperature (K : Tables) (hp : State) (setting : Int) : Option State :=
  match checkedToken K.TEMP_MAP 16 setting with
  | none => none
  | some v => some { hp with wantedSettings := { hp.wantedSettings with temperature := v } }

/-- The function `HeatPump::setFanSpeed`. -/
def setFanSpeed (K : Tables) (hp : State) (setting : String) : Option State :=
  match checkedToken K.FAN_MAP 6 setting with
  | none => none
  | some v => some { hp with wantedSettings := { hp.wantedSettings with fan := v } }

/-- The function `HeatPump::setVaneSetting`. -/
def setVaneSetting (K : Tables) (hp : State) (setting : String) : Option State :=
  match checkedToken K.VANE_MAP 7 setting with
  | none => none
  | some v => some { hp with wantedSettings := { hp.wantedSettings with vane := v } }

/-- The function `HeatPump::setWideVaneSetting`. -/
def setWideVaneSetting (K : Tables) (hp : State) (setting : String) : Option State :=
  match checkedToken K.WIDEVANE_MAP 7 setting with
  | none => none
  | some v => some { hp with wantedSettings := { hp.wantedSettings with wideVane := v } }

/-- The function `HeatPump::setSettings`. -/
def setSettings (K : Tables) (hp : State) (settings : heatpumpSettings) : Option State :=
  match setPowerSetting K hp settings.power with
  | none => none
  | some hp =>
  match setModeSetting K hp settings.mode with
  | none => none
  | some hp =>
  match setTemperature K hp settings.temperature with
  | none => none
  | some hp =>
  match setFanSpeed K hp settings.fan with
  | none => none
  | some hp =>
  match setVaneSetting K hp settings.vane with
  | none => none
  | some hp => setWideVaneSetting K hp settings.wideVane

/-- The function `HeatPump::getSettings`. -/
def getSettings (hp : State) : heatpumpSettings := hp.currentSettings

/-- The function `HeatPump::getRoomTemperature`. -/
def getRoomTemperature (hp : State) : Int := hp.currentRoomTemp

/-! ## Clock and transport -/

/-- Wrap of `unsigned long` arithmetic (32 bits, the type of `millis()`). -/
def toU32 (x : Int) : Nat := (x % 4294967296).toNat

/-- The Arduino call `delay(ms)`: the clock advances by `ms`.  In the embedding the clock
advances in `delay` only. -/
def delay (ms : Nat) (hp : State) : State :=
  { hp with millis := toU32 ((hp.millis : Int) + (ms : Int)) }

/-- The function `HeatPump::canSend`: `(millis() - PACKET_SENT_INTERVAL_MS) > lastSend`,
computed in `unsigned long`. -/
def canSend (K : Tables) (hp : State) : Bool :=
  decide (toU32 ((hp.millis : Int) - (K.PACKET_SENT_INTERVAL_MS : Int)) > hp.lastSend)

/-- The loop `while(!canSend()) { delay(10); }`; `none` when the gate has not opened
after `fuel` rounds. -/
def waitCanSend (K : Tables) : Nat → State → Option State
  | 0, hp => if canSend K hp then some hp else none
  | fuel + 1, hp => if canSend K hp then some hp else waitCanSend K fuel (delay 10 hp)

/-- Loop `for (i = 0; i < length; i++) _HardSerial->write(packet[i]);`. -/
def writeLoop (packet : List Nat) : Nat → Nat → List Nat → Option (List Nat)
  | 0, _, out => some out
  | n + 1, i, out =>
    match packet[i]? with
    | none => none
    | some b => writeLoop packet n (i + 1) (out ++ [b])

/-- The function `HeatPump::writePacket`. -/
def writePacket (hp : State) (packet : List Nat) (length : Nat) : Option State :=
  match writeLoop packet length 0 hp.serialOut with
  | none => none
  | some out =>
    some { hp with
      serialOut := out
      events :=
        if hp.packetCallback then hp.events ++ [Event.packet packet length "packetSent"]
        else hp.events
      lastSend := hp.millis }

/-! ## Reading a response -/

/-- The call `_HardSerial->read()`: the next waiting byte, or `-1` when none waits. -/
def serialRead (input : List Nat) : Int × List Nat :=
  match input with
  | [] => (-1, [])
  | b :: rest => ((b : Int), rest)

/-- The loop `while (available() > 0 && !foundStart)` of `readPacket`: returns
`header[0]`, `foundStart` and the bytes still waiting. -/
def scanStart (header0 : Nat) : List Nat → Nat × Bool × List Nat
  | [] => (header0, false, [])
  | b :: rest =>
    if toByte b = 0xFC then (toByte b, true, rest) else scanStart (toByte b) rest

/-- Loop `for (i = from; i < from + n; i++) buf[i] = _HardSerial->read();`. -/
def readLoop : Nat → Nat → List Nat → List Nat → Option (List Nat × List Nat)
  | 0, _, buf, input => some (buf, input)
  | n + 1, i, buf, input =>
    match writeAt buf i (toByte (serialRead input).1) with
    | none => none
    | some buf => readLoop n (i + 1) buf (serialRead input).2

/-- Loop `for (i = 0; i < n; i++) dataSum += a[i];` (`dataSum` is an `int`). -/
def sumLoop (a : List Nat) : Nat → Nat → Int → Option Int
  | 0, _, dataSum => some dataSum
  | n + 1, i, dataSum =>
    match a[i]? with
    | none => none
    | some b => sumLoop a n (i + 1) (dataSum + (b : Int))

/-- Loop `for (i = 0; i < n; i++) packet[i + off] = src[i];`. -/
def copyOffLoop (src : List Nat) (off : Nat) : Nat → Nat → List Nat → Option (List Nat)
  | 0, _, packet => some packet
  | n + 1, i, packet =>
    match src[i]? with
    | none => none
    | some b =>
      match writeAt packet (i + off) b with
      | none => none
      | some packet => copyOffLoop src off n (i + 1) packet

/-- The block of `readPacket` that reports the received frame to the raw-packet observer.
The local `byte packet[37]`, which the source leaves uninitialised, starts as 37 zero
bytes. -/
def reportReceived (hp : State) (header data : List Nat) (dataLength : Nat) : Option State :=
  if hp.packetCallback then
    match copyLoop header INFOHEADER_LEN 0 (List.replicate 37 0) with
    | none => none
    | some packet =>
      -- must be dataLength+1 to pick up checksum byte
      match copyOffLoop data 5 (dataLength + 1) 0 packet with
      | none => none
      | some packet =>
        some { hp with events := hp.events ++ [Event.packet packet PACKET_LEN "packetRecv"] }
  else some hp

/-- The six assignments to `receivedSettings` in `readPacket`. -/
def decodeSettings (K : Tables) (data : List Nat) : Option heatpumpSettings :=
  match data[3]?, data[4]?, data[5]?, data[6]?, data[7]?, data[10]? with
  | some d3, some d4, some d5, some d6, some d7, some d10 =>
    match lookupByteMapValue K.POWER_MAP K.POWER 2 d3,
          lookupByteMapValue K.MODE_MAP K.MODE 5 d4,
          lookupByteMapValue K.TEMP_MAP K.TEMP 16 d5,
          lookupByteMapValue K.FAN_MAP K.FAN 6 d6,
          lookupByteMapValue K.VANE_MAP K.VANE 7 d7,
          lookupByteMapValue K.WIDEVANE_MAP K.WIDEVANE 7 d10 with
    | some power, some mode, some temperature, some fan, some vane, some wideVane =>
      some { power := power, mode := mode, temperature := temperature, fan := fan,
             vane := vane, wideVane := wideVane }
    | _, _, _, _, _, _ => none
  | _, _, _, _, _, _ => none

/-- The branch of `readPacket` for a settings response, once `receivedSettings` is
decoded. -/
def storeSettings (hp : State) (receivedSettings : heatpumpSettings) : State :=
  let hp :=
    if hp.settingsChangedCallback && operatorNe receivedSettings hp.currentSettings then
      { hp with
        currentSettings := receivedSettings
        events := hp.events ++ [Event.settingsChanged receivedSettings] }
    else { hp with currentSettings := receivedSettings }
  -- if wantedSettings is null, set it to receivedSettings
  if operatorNot hp.wantedSettings then { hp with wantedSettings := receivedSettings }
  else hp

/-- The branch of `readPacket` for a room temperature response. -/
def storeRoomTemp (hp : State) (receivedRoomTemp : Int) : State :=
  if hp.roomTempChangedCallback && hp.currentRoomTemp != receivedRoomTemp then
    { hp with
      currentRoomTemp := receivedRoomTemp
      events := hp.events ++ [Event.roomTempChanged receivedRoomTemp] }
  else { hp with currentRoomTemp := receivedRoomTemp }

/-- The part of `readPacket` after `if(data[dataLength] == checksum)`. -/
def classify (K : Tables) (hp : State) (header data : List Nat) (dataLength : Nat) :
    Option (PacketType × State) :=
  match reportReceived hp header data dataLength with
  | none => none
  | some hp =>
  match header[1]?, data[0]?, data[3]? with
  | some h1, some d0, some d3 =>
    if h1 = 0x62 ∧ d0 = 0x02 then
      match decodeSettings K data with
      | none => none
      | some receivedSettings =>
        some (PacketType.RCVD_PKT_SETTINGS, storeSettings hp receivedSettings)
    else if h1 = 0x62 ∧ d0 = 0x03 then
      match lookupByteMapValue K.ROOM_TEMP_MAP K.ROOM_TEMP 32 d3 with
      | none => none
      | some receivedRoomTemp =>
        some (PacketType.RCVD_PKT_ROOM_TEMP, storeRoomTemp hp receivedRoomTemp)
    else if h1 = 0x61 then some (PacketType.RCVD_PKT_UPDATE_SUCCESS, hp)
    else some (PacketType.RCVD_PKT_FAIL, hp)
  | _, _, _ => none

/-- The part of `readPacket` after the start byte is found: header, payload, checksum. -/
def readFrame (K : Tables) (hp : State) (header data : List Nat) :
    Option (PacketType × State) :=
  -- read header
  match readLoop 4 1 header hp.serialIn with
  | none => none
  | some (header, input) =>
  let hp := { hp with serialIn := input }
  -- check header
  match header[0]?, header[2]?, header[3]?, header[4]? with
  | some h0, some h2, some h3, some dataLength =>
    if h0 = 0xFC ∧ h2 = 0x01 ∧ h3 = 0x30 then
      match readLoop dataLength 0 data hp.serialIn with
      | none => none
      | some (data, input) =>
      -- read checksum byte
      match writeAt data dataLength (toByte (serialRead input).1) with
      | none => none
      | some data =>
      let hp := { hp with serialIn := (serialRead input).2 }
      match sumLoop header INFOHEADER_LEN 0 0 with
      | none => none
      | some dataSum =>
      match sumLoop data dataLength 0 dataSum with
      | none => none
      | some dataSum =>
      match data[dataLength]? with
      | none => none
      | some last =>
        if last = toByte (0xfc - dataSum) then classify K hp header data dataLength
        else some (PacketType.RCVD_PKT_FAIL, hp)
    else some (PacketType.RCVD_PKT_FAIL, hp)
  | _, _, _, _ => none

/-- The function `HeatPump::readPacket`: the classification and the object afterwards. -/
def readPacket (K : Tables) (hp : State) : Option (PacketType × State) :=
  if hp.serialIn.length > 0 then
    -- read until we get start byte 0xfc
    match writeAt (List.replicate INFOHEADER_LEN 0) 0 (scanStart 0 hp.serialIn).1 with
    | none => none
    | some header =>
      if (scanStart 0 hp.serialIn).2.1 then
        readFrame K (delay 100 { hp with serialIn := (scanStart 0 hp.serialIn).2.2 }) header
          (List.replicate PACKET_LEN 0)
      else
        some (PacketType.RCVD_PKT_FAIL, { hp with serialIn := (scanStart 0 hp.serialIn).2.2 })
  else some (PacketType.RCVD_PKT_FAIL, hp)

/-! ## Session operations -/

/-- A zeroed frame buffer, as `byte packet[PACKET_LEN] = {}` in `update` and `sync`. -/
def zeroPacket : List Nat := List.replicate PACKET_LEN 0

/-- The `if(canSend())` block of `sync`. -/
def syncSend (K : Tables) (hp : State) (packetType : Nat) : Option State :=
  if canSend K hp then
    match createInfoPacket K hp zeroPacket packetType with
    | none => none
    | some (packet, hp) => writePacket hp packet PACKET_LEN
  else some hp

/-- The function `HeatPump::sync`. -/
def sync (K : Tables) (hp : State) (packetType : Nat) : Option State :=
  match syncSend K hp packetType with
  | none => none
  | some hp =>
    match readPacket K hp with
    | none => none
    | some (_, hp) => some hp

/-- The function `HeatPump::update`: the returned `bool` and the object afterwards. -/
def update (K : Tables) (fuel : Nat) (hp : State) : Option (Bool × State) :=
  match waitCanSend K fuel hp with
  | none => none
  | some hp =>
  match createPacket K zeroPacket hp.wantedSettings with
  | none => none
  | some packet =>
  match writePacket hp packet PACKET_LEN with
  | none => none
  | some hp =>
  match readPacket K (delay 1000 hp) with
  | none => none
  | some (packetType, hp) =>
    if packetType = PacketType.RCVD_PKT_UPDATE_SUCCESS then
      -- call sync() to get the latest settings from the heatpump
      match sync K hp K.RQST_PKT_SETTINGS with
      | none => none
      | some hp => some (true, hp)
    else some (false, hp)

/-- The function `HeatPump::sendCustomPacket`; `data` is the caller's array and `len` the
length that the caller passes.  The local `byte packet[len]` starts as zero bytes. -/
def sendCustomPacket (K : Tables) (fuel : Nat) (hp : State) (data : List Nat) (len : Nat) :
    Option State :=
  match waitCanSend K fuel hp with
  | none => none
  | some hp =>
  -- +2, for FC and CHKSUM
  let len := len + 2
  match writeAt (List.replicate len 0) 0 0xfc with
  | none => none
  | some packet =>
  match copyOffLoop data 1 (len - 1) 0 packet with
  | none => none
  | some packet =>
  match checkSum packet (len - 1) with
  | none => none
  | some chkSum =>
  match writeAt packet len chkSum with
  | none => none
  | some packet =>
  match writePacket hp packet len with
  | none => none
  | some hp => some (delay 1000 hp)

/-! ## A concrete instance of the tables -/

/-- One instance of the tables: the tokens are those of the specification's end-to-end
scenario (`"ON"`, `"HEAT"`, `21`, `"AUTO"`, `"<>"`), the byte codes and headers those of
the heat pump's serial protocol (requests carry the type bytes `0x41` and `0x42`), and the
request kinds are the positions of their selectors in `INFOMODE`. -/
def sampleTables : Tables :=
  { HEADER_LEN := 8
    HEADER := [0xfc, 0x41, 0x01, 0x30, 0x10, 0x01, 0x9f, 0x00]
    INFOHEADER := [0xfc, 0x42, 0x01, 0x30, 0x10]
    INFOMODE := [0x02, 0x03]
    POWER := [0x00, 0x01]
    POWER_MAP := ["OFF", "ON"]
    MODE := [0x01, 0x02, 0x03, 0x07, 0x08]
    MODE_MAP := ["HEAT", "DRY", "COOL", "FAN", "AUTO"]
    TEMP := [0x00, 0x01, 0x02, 0x03, 0x04, 0x05, 0x06, 0x07, 0x08, 0x09, 0x0a, 0x0b, 0x0c,
      0x0d, 0x0e, 0x0f]
    TEMP_MAP := [31, 30, 29, 28, 27, 26, 25, 24, 23, 22, 21, 20, 19, 18, 17, 16]
    FAN := [0x00, 0x01, 0x02, 0x03, 0x05, 0x06]
    FAN_MAP := ["AUTO", "QUIET", "1", "2", "3", "4"]
    VANE := [0x00, 0x01, 0x02, 0x03, 0x04, 0x05, 0x07]
    VANE_MAP := ["AUTO", "1", "2", "3", "4", "5", "SWING"]
    WIDEVANE := [0x01, 0x02, 0x03, 0x04, 0x05, 0x08, 0x0c]
    WIDEVANE_MAP := ["<<", "<", "|", ">", ">>", "<>", "SWING"]
    ROOM_TEMP := [0x00, 0x01, 0x02, 0x03, 0x04, 0x05, 0x06, 0x07, 0x08, 0x09, 0x0a, 0x0b,
      0x0c, 0x0d, 0x0e, 0x0f, 0x10, 0x11, 0x12, 0x13, 0x14, 0x15, 0x16, 0x17, 0x18, 0x19,
      0x1a, 0x1b, 0x1c, 0x1d, 0x1e, 0x1f]
    ROOM_TEMP_MAP := [10, 11, 12, 13, 14, 15, 16, 17, 18, 19, 20, 21, 22, 23, 24, 25, 26,
      27, 28, 29, 30, 31, 32, 33, 34, 35, 36, 37, 38, 39, 40, 41]
    PACKET_SENT_INTERVAL_MS := 1000
    RQST_PKT_SETTINGS := 0
    RQST_PKT_ROOM_TEMP := 1 }

/-- The snapshot of the specification's end-to-end scenario. -/
def sampleSettings : heatpumpSettings :=
  { power := "ON", mode := "HEAT", temperature := 21, fan := "AUTO", vane := "AUTO",
    wideVane := "<>" }

/-! ## Specification-side definitions -/

/-- The token that a setter stores, as the specification words it: the given token if it
occurs in the dimension's table, the table's first token otherwise. -/
def specStoredToken {α : Type} [DecidableEq α] (tokens : List α) (token : α) : Option α :=
  if token ∈ tokens then some token else tokens[0]?

/-- An invocation of one of the two change callbacks (`settingsChangedCallback`,
`roomTempChangedCallback`), as opposed to the raw-packet observer. -/
def isChangeEvent : Event → Bool
  | Event.packet _ _ _ => false
  | Event.settingsChanged _ => true
  | Event.roomTempChanged _ => true

/-- The invocations of the change callbacks made so far, oldest first. -/
def changeEvents (hp : State) : List Event := hp.events.filter isChangeEvent

/-- The object `hp'` is `hp` after zero or more reports to the raw-packet observer:
nothing but the record of observer calls differs, and the calls added are none of a
change callback. -/
def sameUpToReports (hp hp' : State) : Prop :=
  ∃ es, (∀ e ∈ es, isChangeEvent e = false) ∧ hp' = { hp with events := hp.events ++ es }

/-- A settings response that carries the byte codes of `sampleSettings`: the header
`FC 62 01 30 10`, sixteen payload bytes and the checksum. -/
def sampleSettingsResponse : List Nat :=
  [0xfc, 0x62, 0x01, 0x30, 0x10,
    0x02, 0x00, 0x00, 0x01, 0x01, 0x0a, 0x00, 0x00, 0x00, 0x00, 0x08, 0x00, 0x00, 0x00, 0x00,
    0x00, 0x47]

/-- A room temperature response: the header `FC 62 01 30 10`, sixteen payload bytes of
which the first is the selector `0x03` and the fourth the code `0x0b`, and the
checksum. -/
def sampleRoomTempResponse : List Nat :=
  [0xfc, 0x62, 0x01, 0x30, 0x10,
    0x03, 0x00, 0x00, 0x0b, 0x00, 0x00, 0x00, 0x00, 0x00, 0x00, 0x00, 0x00, 0x00, 0x00, 0x00,
    0x00, 0x4f]

/-- A response with the info-response signature that announces a payload of 22 bytes:
the header `FC 62 01 30 16`, 22 payload bytes and the checksum. -/
def sampleLongResponse : List Nat :=
  [0xfc, 0x62, 0x01, 0x30, 0x16,
    0x02, 0x00, 0x00, 0x01, 0x01, 0x0a, 0x00, 0x00, 0x00, 0x00, 0x08, 0x00, 0x00, 0x00, 0x00,
    0x00, 0x00, 0x00, 0x00, 0x00, 0x00, 0x00, 0x41]

/-- An update acknowledgement: the header `FC 61 01 30 10`, sixteen zero payload bytes
and the checksum. -/
def sampleUpdateAck : List Nat :=
  [0xfc, 0x61, 0x01, 0x30, 0x10,
    0x00, 0x00, 0x00, 0x00, 0x00, 0x00, 0x00, 0x00, 0x00, 0x00, 0x00, 0x00, 0x00, 0x00, 0x00,
    0x00, 0x5e]

/-- The session of the specification's end-to-end scenario: `wantedSettings` holds
`sampleSettings`, the clock is past the send interval, and the transport holds an update
acknowledgement followed by a settings response with the same encoded bytes. -/
def sampleSession : State :=
  { construct 2000 (sampleUpdateAck ++ sampleSettingsResponse) with
    wantedSettings := sampleSettings }

/-! # Verification -/

/-! ## Checksum -/

theorem checkSumLoop_eq (bytes : List Nat) :
    ∀ (n i s : Nat), i + n ≤ bytes.length →
      checkSumLoop bytes n i (s % 256) = some ((s + ((bytes.drop i).take n).sum) % 256) := by
  intro n
  induction n with
  | zero => intro i s _; simp [checkSumLoop]
  | succ n ih =>
    intro i s h
    have hi : i < bytes.length := by omega
    rw [checkSumLoop, List.getElem?_eq_getElem hi]
    simp only []
    have e : (s % 256 + bytes[i]) % 256 = (s + bytes[i]) % 256 := by omega
    rw [e, ih (i + 1) (s + bytes[i]) (by omega)]
    rw [List.drop_eq_getElem_cons hi, List.take_succ_cons, List.sum_cons, Nat.add_assoc]

theorem toByte_sub_mod (s : Nat) : toByte (0xfc - ((s % 256 : Nat) : Int)) = toByte (0xfc - (s : Int)) := by
  unfold toByte
  congr 1
  omega

theorem checkSum_take (bytes : List Nat) (len : Nat) (h : len ≤ bytes.length) :
    checkSum bytes len = some (specChecksum (bytes.take len)) := by
  have := checkSumLoop_eq bytes len 0 0 (by omega)
  simp only [Nat.zero_mod, Nat.zero_add, List.drop_zero] at this
  rw [checkSum, this]
  simp only [specChecksum]
  rw [toByte_sub_mod]
  rfl

/-- C1: for every byte sequence `B`, `checkSum(B, len)` with `len` the length of `B` is
`(0xFC - sum of the bytes of B) mod 256`, and the sum of the bytes plus the checksum is
congruent to `0xFC` modulo 256. -/
theorem checkSum_spec (B : List Nat) :
    checkSum B B.length = some (specChecksum B) ∧ (B.sum + specChecksum B) % 256 = 0xFC := by
  refine ⟨?_, ?_⟩
  · rw [checkSum_take B B.length (Nat.le_refl _), List.take_length]
  · unfold specChecksum
    omega

/-! ## Value-map lookups -/

theorem lookupByteMapValueLoop_found {α : Type} (valuesMap : List α) (byteMap : List Nat)
    (byteValue : Nat) (k : Nat) (v : α) (hk : byteMap[k]? = some byteValue)
    (hv : valuesMap[k]? = some v) :
    ∀ (n i : Nat), i ≤ k → k < i + n → (∀ j, i ≤ j → j < k → byteMap[j]? ≠ some byteValue) →
      lookupByteMapValueLoop valuesMap byteMap byteValue n i = some (some v) := by
  intro n
  induction n with
  | zero => intro i h1 h2; omega
  | succ n ih =>
    intro i h1 h2 hmin
    rw [lookupByteMapValueLoop]
    by_cases hik : i = k
    · subst hik
      simp [hk, hv]
    · have hlt : i < k := by omega
      have hklen : k < byteMap.length := by
        by_contra hc
        rw [List.getElem?_eq_none (by omega)] at hk
        exact Option.noConfusion hk
      have hi : i < byteMap.length := by omega
      have hne := hmin i (Nat.le_refl _) hlt
      rw [List.getElem?_eq_getElem hi] at hne ⊢
      have hne2 : byteMap[i] ≠ byteValue := fun h => hne (by rw [h])
      simp only [hne2, if_false]
      exact ih (i + 1) (by omega) (by omega) (fun j hj1 hj2 => hmin j (by omega) hj2)

theorem lookupByteMapValueLoop_none {α : Type} (valuesMap : List α) (byteMap : List Nat)
    (byteValue : Nat) :
    ∀ (n i : Nat), i + n ≤ byteMap.length →
      (∀ j, i ≤ j → j < i + n → byteMap[j]? ≠ some byteValue) →
      lookupByteMapValueLoop valuesMap byteMap byteValue n i = some none := by
  intro n
  induction n with
  | zero => intro i _ _; rfl
  | succ n ih =>
    intro i h hall
    rw [lookupByteMapValueLoop]
    have hi : i < byteMap.length := by omega
    have hne := hall i (Nat.le_refl _) (by omega)
    rw [List.getElem?_eq_getElem hi] at hne ⊢
    have hne2 : byteMap[i] ≠ byteValue := fun h => hne (by rw [h])
    simp only [hne2, if_false]
    exact ih (i + 1) (by omega) (fun j hj1 hj2 => hall j (by omega) (by omega))

theorem lookupByteMapValue_found {α : Type} (valuesMap : List α) (byteMap : List Nat)
    (len byteValue : Nat) (k : Nat) (v : α) (hklen : k < len)
    (hk : byteMap[k]? = some byteValue) (hv : valuesMap[k]? = some v)
    (hmin : ∀ j, j < k → byteMap[j]? ≠ some byteValue) :
    lookupByteMapValue valuesMap byteMap len byteValue = some v := by
  rw [lookupByteMapValue,
    lookupByteMapValueLoop_found valuesMap byteMap byteValue k v hk hv len 0 (Nat.zero_le _)
      (by omega) (fun j _ hj => hmin j hj)]

theorem lookupByteMapValue_default {α : Type} (valuesMap : List α) (byteMap : List Nat)
    (len byteValue : Nat) (hlen : len ≤ byteMap.length)
    (hall : ∀ j, j < len → byteMap[j]? ≠ some byteValue) :
    lookupByteMapValue valuesMap byteMap len byteValue = valuesMap[0]? := by
  rw [lookupByteMapValue,
    lookupByteMapValueLoop_none valuesMap byteMap byteValue len 0 (by omega)
      (fun j _ hj => hall j (by omega))]

/-- The lookup `lookupByteMapValue` returns a value for every byte. -/
theorem lookupByteMapValue_total {α : Type} (tokens : List α) (codes : List Nat) (len b : Nat)
    (hlen : 1 ≤ len) (ht : tokens.length = len) (hc : codes.length = len) :
    ∃ t, lookupByteMapValue tokens codes len b = some t := by
  by_cases hex : ∃ i, i < len ∧ codes[i]? = some b
  · classical
    have hi := Nat.find_spec hex
    have hmin : ∀ j, j < Nat.find hex → codes[j]? ≠ some b := by
      intro j hj hcj
      exact Nat.find_min hex hj ⟨by omega, hcj⟩
    have hti : Nat.find hex < tokens.length := by omega
    exact ⟨tokens[Nat.find hex], lookupByteMapValue_found tokens codes len b (Nat.find hex) _
      hi.1 hi.2 (List.getElem?_eq_getElem hti) hmin⟩
  · have ht0 : 0 < tokens.length := by omega
    exact ⟨tokens[0], by
      rw [lookupByteMapValue_default tokens codes len b (by omega)
        (fun i hi hci => hex ⟨i, hi, hci⟩), List.getElem?_eq_getElem ht0]⟩

/-- Decoding the code at position `k` of a table with pairwise distinct codes gives the
token at position `k`. -/
theorem lookupByteMapValue_code {α : Type} (tokens : List α) (codes : List Nat) (len : Nat)
    (k b : Nat) (t : α) (hk : k < len) (hc : codes.length = len) (hnd : codes.Nodup)
    (hb : codes[k]? = some b) (hkt : tokens[k]? = some t) :
    lookupByteMapValue tokens codes len b = some t := by
  apply lookupByteMapValue_found tokens codes len b k t hk hb hkt
  intro j hj hcj
  have hjc : j < codes.length := by omega
  have hkc : k < codes.length := by omega
  rw [List.getElem?_eq_getElem hjc] at hcj
  rw [List.getElem?_eq_getElem hkc] at hb
  have := (List.Nodup.getElem_inj_iff hnd).mp ((Option.some.inj hcj).trans (Option.some.inj hb).symm)
  omega

/-- C6: decoding never fails and falls back to the default.  For a table of length
`len >= 1` (token array and code array both of that length) and every byte `b`,
`lookupByteMapValue` returns a token; it is `tokens[i]` for the least `i < len` with
`codes[i] == b`, and `tokens[0]` when no such `i` exists. -/
theorem lookupByteMapValue_spec {α : Type} (tokens : List α) (codes : List Nat) (len b : Nat)
    (hlen : 1 ≤ len) (ht : tokens.length = len) (hc : codes.length = len) :
    (∃ t, lookupByteMapValue tokens codes len b = some t) ∧
    (∀ i, i < len → codes[i]? = some b → (∀ j, j < i → codes[j]? ≠ some b) →
      lookupByteMapValue tokens codes len b = tokens[i]?) ∧
    ((∀ i, i < len → codes[i]? ≠ some b) →
      lookupByteMapValue tokens codes len b = tokens[0]?) := by
  have hfound : ∀ i, i < len → codes[i]? = some b → (∀ j, j < i → codes[j]? ≠ some b) →
      lookupByteMapValue tokens codes len b = tokens[i]? := by
    intro i hi hci hmin
    have hti : i < tokens.length := by omega
    rw [List.getElem?_eq_getElem hti]
    exact lookupByteMapValue_found tokens codes len b i tokens[i] hi hci
      (List.getElem?_eq_getElem hti) hmin
  have hdef : (∀ i, i < len → codes[i]? ≠ some b) →
      lookupByteMapValue tokens codes len b = tokens[0]? :=
    fun hall => lookupByteMapValue_default tokens codes len b (by omega) hall
  exact ⟨lookupByteMapValue_total tokens codes len b hlen ht hc, hfound, hdef⟩

/-- Instance of C6 at the fan table: the code `0x05` decodes to `"3"`, the unknown
code `0x04` to the first token `"AUTO"`. -/
theorem lookupByteMapValue_spec_witness :
    (∃ t, lookupByteMapValue sampleTables.FAN_MAP sampleTables.FAN 6 0x04 = some t) ∧
    (∀ i, i < 6 → sampleTables.FAN[i]? = some 0x04 →
      (∀ j, j < i → sampleTables.FAN[j]? ≠ some 0x04) →
      lookupByteMapValue sampleTables.FAN_MAP sampleTables.FAN 6 0x04 =
        sampleTables.FAN_MAP[i]?) ∧
    ((∀ i, i < 6 → sampleTables.FAN[i]? ≠ some 0x04) →
      lookupByteMapValue sampleTables.FAN_MAP sampleTables.FAN 6 0x04 =
        sampleTables.FAN_MAP[0]?) :=
  lookupByteMapValue_spec sampleTables.FAN_MAP sampleTables.FAN 6 0x04 (by decide) (by decide)
    (by decide)

theorem lookupByteMapIndexLoop_found {α : Type} [DecidableEq α] (valuesMap : List α)
    (lookupValue : α) (k : Nat) (hk : valuesMap[k]? = some lookupValue) :
    ∀ (n i : Nat), i ≤ k → k < i + n → (∀ j, i ≤ j → j < k → valuesMap[j]? ≠ some lookupValue) →
      lookupByteMapIndexLoop valuesMap lookupValue n i = some (k : Int) := by
  intro n
  induction n with
  | zero => intro i h1 h2; omega
  | succ n ih =>
    intro i h1 h2 hmin
    rw [lookupByteMapIndexLoop]
    by_cases hik : i = k
    · subst hik
      simp [hk]
    · have hlt : i < k := by omega
      have hklen : k < valuesMap.length := by
        by_contra hc
        rw [List.getElem?_eq_none (by omega)] at hk
        exact Option.noConfusion hk
      have hi : i < valuesMap.length := by omega
      have hne := hmin i (Nat.le_refl _) hlt
      rw [List.getElem?_eq_getElem hi] at hne ⊢
      have hne2 : valuesMap[i] ≠ lookupValue := fun h => hne (by rw [h])
      simp only [hne2, if_false]
      exact ih (i + 1) (by omega) (by omega) (fun j hj1 hj2 => hmin j (by omega) hj2)

theorem lookupByteMapIndexLoop_none {α : Type} [DecidableEq α] (valuesMap : List α)
    (lookupValue : α) :
    ∀ (n i : Nat), i + n ≤ valuesMap.length →
      (∀ j, i ≤ j → j < i + n → valuesMap[j]? ≠ some lookupValue) →
      lookupByteMapIndexLoop valuesMap lookupValue n i = some (-1) := by
  intro n
  induction n with
  | zero => intro i _ _; rfl
  | succ n ih =>
    intro i h hall
    rw [lookupByteMapIndexLoop]
    have hi : i < valuesMap.length := by omega
    have hne := hall i (Nat.le_refl _) (by omega)
    rw [List.getElem?_eq_getElem hi] at hne ⊢
    have hne2 : valuesMap[i] ≠ lookupValue := fun h => hne (by rw [h])
    simp only [hne2, if_false]
    exact ih (i + 1) (by omega) (fun j hj1 hj2 => hall j (by omega) (by omega))

/-- A value that is absent from the table has index `-1`. -/
theorem lookupByteMapIndex_absent {α : Type} [DecidableEq α] (valuesMap : List α) (len : Nat)
    (lookupValue : α) (hlen : valuesMap.length = len) (h : lookupValue ∉ valuesMap) :
    lookupByteMapIndex valuesMap len lookupValue = some (-1) := by
  apply lookupByteMapIndexLoop_none valuesMap lookupValue len 0 (by omega)
  intro j _ _ hj
  exact h (List.getElem?_mem hj)

/-- A value of the table has the least position at which it occurs as its index. -/
theorem lookupByteMapIndex_mem {α : Type} [DecidableEq α] (valuesMap : List α) (len : Nat)
    (lookupValue : α) (hlen : valuesMap.length = len) (h : lookupValue ∈ valuesMap) :
    ∃ k, k < len ∧ valuesMap[k]? = some lookupValue ∧
      (∀ j, j < k → valuesMap[j]? ≠ some lookupValue) ∧
      lookupByteMapIndex valuesMap len lookupValue = some (k : Int) := by
  classical
  have hex : ∃ k, k < len ∧ valuesMap[k]? = some lookupValue := by
    obtain ⟨k, hk, he⟩ := List.getElem_of_mem h
    exact ⟨k, by omega, by rw [List.getElem?_eq_getElem hk, he]⟩
  have hk := Nat.find_spec hex
  have hmin : ∀ j, j < Nat.find hex → valuesMap[j]? ≠ some lookupValue := by
    intro j hj hcj
    exact Nat.find_min hex hj ⟨by omega, hcj⟩
  exact ⟨Nat.find hex, hk.1, hk.2, hmin,
    lookupByteMapIndexLoop_found valuesMap lookupValue (Nat.find hex) hk.2 len 0
      (Nat.zero_le _) (by omega) (fun j _ hj => hmin j hj)⟩

theorem readAt_natCast {α : Type} (a : List α) (k : Nat) : readAt a (k : Int) = a[k]? := by
  simp [readAt]

theorem readAt_neg_one {α : Type} (a : List α) : readAt a (-1) = none := by
  simp [readAt]

/-- C5: encode then decode is the identity on table tokens.  For a table of tokens and
byte codes of the same length `len` whose codes are pairwise distinct, and every token `t`
of the table, `lookupByteMapIndex` finds an index `i`, `codes[i]` exists, and
`lookupByteMapValue(tokens, codes, len, codes[i]) == t`; `α` is `String` for the
string-keyed overloads and `Int` for the int-keyed ones. -/
theorem decode_encode {α : Type} [DecidableEq α] (tokens : List α) (codes : List Nat)
    (len : Nat) (t : α) (ht : tokens.length = len) (hc : codes.length = len)
    (hnd : codes.Nodup) (hmem : t ∈ tokens) :
    ∃ i b, lookupByteMapIndex tokens len t = some i ∧ readAt codes i = some b ∧
      lookupByteMapValue tokens codes len b = some t := by
  obtain ⟨k, hk, hkt, _, hidx⟩ := lookupByteMapIndex_mem tokens len t ht hmem
  have hkc : k < codes.length := by omega
  refine ⟨(k : Int), codes[k], hidx, ?_, ?_⟩
  · rw [readAt_natCast, List.getElem?_eq_getElem hkc]
  · exact lookupByteMapValue_code tokens codes len k codes[k] t hk hc hnd
      (List.getElem?_eq_getElem hkc) hkt

/-- Instance of C5 for both overloads: the string-keyed wide-vane table at `"<>"` and
the int-keyed temperature table at `21`. -/
theorem decode_encode_witness :
    (∃ i b, lookupByteMapIndex sampleTables.WIDEVANE_MAP 7 "<>" = some i ∧
      readAt sampleTables.WIDEVANE i = some b ∧
      lookupByteMapValue sampleTables.WIDEVANE_MAP sampleTables.WIDEVANE 7 b = some "<>") ∧
    (∃ i b, lookupByteMapIndex sampleTables.TEMP_MAP 16 (21 : Int) = some i ∧
      readAt sampleTables.TEMP i = some b ∧
      lookupByteMapValue sampleTables.TEMP_MAP sampleTables.TEMP 16 b = some 21) :=
  ⟨decode_encode sampleTables.WIDEVANE_MAP sampleTables.WIDEVANE 7 "<>" (by decide) (by decide)
      (by decide) (by decide),
    decode_encode sampleTables.TEMP_MAP sampleTables.TEMP 16 21 (by decide) (by decide)
      (by decide) (by decide)⟩

/-! ## Setters -/

theorem checkedToken_eq {α : Type} [DecidableEq α] (valuesMap : List α) (len : Nat)
    (setting : α) (hlen : valuesMap.length = len) :
    checkedToken valuesMap len setting = specStoredToken valuesMap setting := by
  unfold checkedToken specStoredToken
  by_cases h : setting ∈ valuesMap
  · obtain ⟨k, _, _, _, hidx⟩ := lookupByteMapIndex_mem valuesMap len setting hlen h
    rw [hidx]
    have : (k : Int) > -1 := by omega
    simp [h, this]
  · rw [lookupByteMapIndex_absent valuesMap len setting hlen h]
    simp [h]

theorem specStoredToken_mem {α : Type} [DecidableEq α] (tokens : List α) (token : α)
    (h : 0 < tokens.length) :
    ∃ v, specStoredToken tokens token = some v ∧ v ∈ tokens := by
  unfold specStoredToken
  by_cases hm : token ∈ tokens
  · exact ⟨token, by simp [hm], hm⟩
  · exact ⟨tokens[0], by simp [hm, List.getElem?_eq_getElem h], List.getElem_mem h⟩

theorem setSettings_eq (K : Tables) (hK : K.WF) (hp : State) (s : heatpumpSettings) :
    ∃ p m t f v w,
      specStoredToken K.POWER_MAP s.power = some p ∧ p ∈ K.POWER_MAP ∧
      specStoredToken K.MODE_MAP s.mode = some m ∧ m ∈ K.MODE_MAP ∧
      specStoredToken K.TEMP_MAP s.temperature = some t ∧ t ∈ K.TEMP_MAP ∧
      specStoredToken K.FAN_MAP s.fan = some f ∧ f ∈ K.FAN_MAP ∧
      specStoredToken K.VANE_MAP s.vane = some v ∧ v ∈ K.VANE_MAP ∧
      specStoredToken K.WIDEVANE_MAP s.wideVane = some w ∧ w ∈ K.WIDEVANE_MAP ∧
      setSettings K hp s = some { hp with wantedSettings :=
        { power := p, mode := m, temperature := t, fan := f, vane := v, wideVane := w } } := by
  obtain ⟨p, hp1, hp2⟩ := specStoredToken_mem K.POWER_MAP s.power (by rw [hK.power_map_len]; decide)
  obtain ⟨m, hm1, hm2⟩ := specStoredToken_mem K.MODE_MAP s.mode (by rw [hK.mode_map_len]; decide)
  obtain ⟨t, ht1, ht2⟩ :=
    specStoredToken_mem K.TEMP_MAP s.temperature (by rw [hK.temp_map_len]; decide)
  obtain ⟨f, hf1, hf2⟩ := specStoredToken_mem K.FAN_MAP s.fan (by rw [hK.fan_map_len]; decide)
  obtain ⟨v, hv1, hv2⟩ := specStoredToken_mem K.VANE_MAP s.vane (by rw [hK.vane_map_len]; decide)
  obtain ⟨w, hw1, hw2⟩ :=
    specStoredToken_mem K.WIDEVANE_MAP s.wideVane (by rw [hK.widevane_map_len]; decide)
  refine ⟨p, m, t, f, v, w, hp1, hp2, hm1, hm2, ht1, ht2, hf1, hf2, hv1, hv2, hw1, hw2, ?_⟩
  simp only [setSettings, setPowerSetting, setModeSetting, setTemperature, setFanSpeed,
    setVaneSetting, setWideVaneSetting,
    checkedToken_eq _ _ _ hK.power_map_len, checkedToken_eq _ _ _ hK.mode_map_len,
    checkedToken_eq _ _ _ hK.temp_map_len, checkedToken_eq _ _ _ hK.fan_map_len,
    checkedToken_eq _ _ _ hK.vane_map_len, checkedToken_eq _ _ _ hK.widevane_map_len,
    hp1, hm1, ht1, hf1, hv1, hw1]

/-- C8: each of the six setters stores in `wantedSettings` the given token if it occurs in
the dimension's table and the table's first token otherwise (and changes nothing else);
hence after `setSettings(s)`, for any `s` whatsoever, all six dimensions of
`wantedSettings` are tokens of their tables. -/
theorem setters_spec (K : Tables) (hK : K.WF) (hp : State) :
    (∀ s, ∃ v, specStoredToken K.POWER_MAP s = some v ∧ setPowerSetting K hp s =
      some { hp with wantedSettings := { hp.wantedSettings with power := v } }) ∧
    (∀ s, ∃ v, specStoredToken K.MODE_MAP s = some v ∧ setModeSetting K hp s =
      some { hp with wantedSettings := { hp.wantedSettings with mode := v } }) ∧
    (∀ s, ∃ v, specStoredToken K.TEMP_MAP s = some v ∧ setTemperature K hp s =
      some { hp with wantedSettings := { hp.wantedSettings with temperature := v } }) ∧
    (∀ s, ∃ v, specStoredToken K.FAN_MAP s = some v ∧ setFanSpeed K hp s =
      some { hp with wantedSettings := { hp.wantedSettings with fan := v } }) ∧
    (∀ s, ∃ v, specStoredToken K.VANE_MAP s = some v ∧ setVaneSetting K hp s =
      some { hp with wantedSettings := { hp.wantedSettings with vane := v } }) ∧
    (∀ s, ∃ v, specStoredToken K.WIDEVANE_MAP s = some v ∧ setWideVaneSetting K hp s =
      some { hp with wantedSettings := { hp.wantedSettings with wideVane := v } }) ∧
    (∀ s, ∃ hp', setSettings K hp s = some hp' ∧ inTables K hp'.wantedSettings) := by
  refine ⟨?_, ?_, ?_, ?_, ?_, ?_, ?_⟩
  · intro s
    obtain ⟨v, hv, _⟩ := specStoredToken_mem K.POWER_MAP s (by rw [hK.power_map_len]; decide)
    exact ⟨v, hv, by simp only [setPowerSetting, checkedToken_eq _ _ _ hK.power_map_len, hv]⟩
  · intro s
    obtain ⟨v, hv, _⟩ := specStoredToken_mem K.MODE_MAP s (by rw [hK.mode_map_len]; decide)
    exact ⟨v, hv, by simp only [setModeSetting, checkedToken_eq _ _ _ hK.mode_map_len, hv]⟩
  · intro s
    obtain ⟨v, hv, _⟩ := specStoredToken_mem K.TEMP_MAP s (by rw [hK.temp_map_len]; decide)
    exact ⟨v, hv, by simp only [setTemperature, checkedToken_eq _ _ _ hK.temp_map_len, hv]⟩
  · intro s
    obtain ⟨v, hv, _⟩ := specStoredToken_mem K.FAN_MAP s (by rw [hK.fan_map_len]; decide)
    exact ⟨v, hv, by simp only [setFanSpeed, checkedToken_eq _ _ _ hK.fan_map_len, hv]⟩
  · intro s
    obtain ⟨v, hv, _⟩ := specStoredToken_mem K.VANE_MAP s (by rw [hK.vane_map_len]; decide)
    exact ⟨v, hv, by simp only [setVaneSetting, checkedToken_eq _ _ _ hK.vane_map_len, hv]⟩
  · intro s
    obtain ⟨v, hv, _⟩ :=
      specStoredToken_mem K.WIDEVANE_MAP s (by rw [hK.widevane_map_len]; decide)
    exact ⟨v, hv,
      by simp only [setWideVaneSetting, checkedToken_eq _ _ _ hK.widevane_map_len, hv]⟩
  · intro s
    obtain ⟨p, m, t, f, v, w, _, hp2, _, hm2, _, ht2, _, hf2, _, hv2, _, hw2, he⟩ :=
      setSettings_eq K hK hp s
    exact ⟨_, he, hp2, hm2, ht2, hf2, hv2, hw2⟩

theorem sampleTables_wf : sampleTables.WF := by
  constructor <;> decide

/-- Instance of C8: `setSettings` with six tokens that are in no table stores the first
token of every table. -/
theorem setters_spec_witness :
    sampleTables.WF ∧
    ∃ hp', setSettings sampleTables (construct 0 [])
        { power := "?", mode := "?", temperature := 99, fan := "?", vane := "?",
          wideVane := "?" } = some hp' ∧
      inTables sampleTables hp'.wantedSettings :=
  ⟨sampleTables_wf, (setters_spec sampleTables sampleTables_wf (construct 0 [])).2.2.2.2.2.2
    { power := "?", mode := "?", temperature := 99, fan := "?", vane := "?", wideVane := "?" }⟩

/-! ## Loops over buffers -/

theorem writeAt_eq {α : Type} (a : List α) (i : Nat) (v : α) (h : i < a.length) :
    writeAt a i v = some (a.set i v) := by
  simp [writeAt, h]

theorem take_set_succ {α : Type} (a : List α) (i : Nat) (v : α) (h : i < a.length) :
    (a.set i v).take (i + 1) = a.take i ++ [v] := by
  rw [List.set_eq_take_append_cons_drop, if_pos h]
  have hl : (a.take i).length = i := List.length_take_of_le (Nat.le_of_lt h)
  rw [List.take_append_eq_append_take, hl, List.take_of_length_le (by omega)]
  simp

theorem copyLoop_eq (src : List Nat) :
    ∀ (n i : Nat) (packet : List Nat), i + n ≤ src.length → i + n ≤ packet.length →
      copyLoop src n i packet =
        some (packet.take i ++ (src.drop i).take n ++ packet.drop (i + n)) := by
  intro n
  induction n with
  | zero => intro i packet _ _; simp [copyLoop]
  | succ n ih =>
    intro i packet hs hp
    have hi : i < src.length := by omega
    have hi2 : i < packet.length := by omega
    rw [copyLoop, List.getElem?_eq_getElem hi]
    simp only [writeAt_eq packet i _ hi2]
    rw [ih (i + 1) _ (by omega) (by simp; omega)]
    congr 1
    rw [take_set_succ _ _ _ hi2, List.drop_set_of_lt _ _ (by omega),
      List.drop_eq_getElem_cons hi, List.take_succ_cons]
    simp [Nat.add_assoc, Nat.add_comm 1 n]

theorem padLoop_eq (off : Nat) :
    ∀ (n i : Nat) (packet : List Nat), i + off + n ≤ packet.length →
      padLoop off n i packet =
        some (packet.take (i + off) ++ List.replicate n 0 ++ packet.drop (i + off + n)) := by
  intro n
  induction n with
  | zero => intro i packet _; simp [padLoop]
  | succ n ih =>
    intro i packet hp
    have hi : i + off < packet.length := by omega
    rw [padLoop]
    simp only [writeAt_eq packet (i + off) _ hi]
    rw [ih (i + 1) _ (by simp; omega)]
    congr 1
    have e1 : i + 1 + off = i + off + 1 := by omega
    rw [e1, take_set_succ _ _ _ hi, List.drop_set_of_lt _ _ (by omega), List.replicate_succ]
    simp [Nat.add_assoc, Nat.add_comm 1 n]

theorem assignCode_eq {α : Type} [DecidableEq α] (packet : List Nat) (off : Nat)
    (codes : List Nat) (valuesMap : List α) (len : Nat) (value : α) (k b : Nat)
    (hidx : lookupByteMapIndex valuesMap len value = some (k : Int))
    (hb : codes[k]? = some b) (hoff : off < packet.length) :
    assignCode packet off codes valuesMap len value = some (packet.set off b) := by
  rw [assignCode, hidx]
  simp only [readAt_natCast, hb, writeAt_eq packet off b hoff]

/-- An absent token makes `createPacket` read its code table at index `-1`. -/
theorem assignCode_absent {α : Type} [DecidableEq α] (packet : List Nat) (off : Nat)
    (codes : List Nat) (valuesMap : List α) (len : Nat) (value : α)
    (hlen : valuesMap.length = len) (h : value ∉ valuesMap) :
    assignCode packet off codes valuesMap len value = none := by
  rw [assignCode, lookupByteMapIndex_absent valuesMap len value hlen h]
  simp only [readAt_neg_one]

/-- The index and the code of a token of a table. -/
theorem encode_mem {α : Type} [DecidableEq α] (valuesMap : List α) (codes : List Nat)
    (len : Nat) (value : α) (hv : valuesMap.length = len) (hc : codes.length = len)
    (hb : allBytes codes) (h : value ∈ valuesMap) :
    ∃ k b : Nat, lookupByteMapIndex valuesMap len value = some (k : Int) ∧ codes[k]? = some b ∧
      valuesMap[k]? = some value ∧ b < 256 := by
  obtain ⟨k, hk, hkv, _, hidx⟩ := lookupByteMapIndex_mem valuesMap len value hv h
  have hkc : k < codes.length := by omega
  exact ⟨k, codes[k], hidx, List.getElem?_eq_getElem hkc, hkv, hb _ (List.getElem_mem hkc)⟩

/-! ## The update frame -/

/-- The buffer that `createPacket` leaves, written out. -/
theorem createPacket_eq (K : Tables) (hK : K.WF) (packet : List Nat)
    (hlen : packet.length = PACKET_LEN) (s : heatpumpSettings)
    (kp km kt kf kv kw bp bm bt bf bv bw : Nat)
    (hp : lookupByteMapIndex K.POWER_MAP 2 s.power = some (kp : Int)) (hbp : K.POWER[kp]? = some bp)
    (hm : lookupByteMapIndex K.MODE_MAP 5 s.mode = some (km : Int)) (hbm : K.MODE[km]? = some bm)
    (ht : lookupByteMapIndex K.TEMP_MAP 16 s.temperature = some (kt : Int))
    (hbt : K.TEMP[kt]? = some bt)
    (hf : lookupByteMapIndex K.FAN_MAP 6 s.fan = some (kf : Int)) (hbf : K.FAN[kf]? = some bf)
    (hv : lookupByteMapIndex K.VANE_MAP 7 s.vane = some (kv : Int)) (hbv : K.VANE[kv]? = some bv)
    (hw : lookupByteMapIndex K.WIDEVANE_MAP 7 s.wideVane = some (kw : Int))
    (hbw : K.WIDEVANE[kw]? = some bw) :
    ∃ r, createPacket K packet s = some r ∧ r.length = PACKET_LEN ∧
      (∀ j, j < K.HEADER_LEN → r[j]? = K.HEADER[j]?) ∧
      (∀ j, K.HEADER_LEN ≤ j → j < 8 → r[j]? = packet[j]?) ∧
      r[8]? = some bp ∧ r[9]? = some bm ∧ r[10]? = some bt ∧ r[11]? = some bf ∧
      r[12]? = some bv ∧ r[13]? = some 0 ∧ r[14]? = some 0 ∧ r[15]? = some bw ∧
      r[16]? = some 0 ∧ r[17]? = some 0 ∧ r[18]? = some 0 ∧ r[19]? = some 0 ∧
      r[20]? = some 0 ∧ r[21]? = some (specChecksum (r.take 21)) := by
  have hH := hK.header_len
  have hH8 := hK.header_le
  simp only [PACKET_LEN] at hlen
  have hbase : (K.HEADER ++ packet.drop K.HEADER_LEN).length = 22 := by
    simp only [List.length_append, List.length_drop]; omega
  have hcopy : copyLoop K.HEADER K.HEADER_LEN 0 packet =
      some (K.HEADER ++ packet.drop K.HEADER_LEN) := by
    rw [copyLoop_eq K.HEADER K.HEADER_LEN 0 packet (by omega) (by omega)]
    simp [← hH]
  let q := ((((((((K.HEADER ++ packet.drop K.HEADER_LEN).set 8 bp).set 9 bm).set 10 bt).set 11
    bf).set 12 bv).set 13 0).set 14 0).set 15 bw
  have hq : q.length = 22 := by simp only [q, List.length_set]; exact hbase
  let q2 := q.take 16 ++ List.replicate 5 0 ++ q.drop 21
  have hq2 : q2.length = 22 := by
    simp only [q2, List.length_append, List.length_take, List.length_drop,
      List.length_replicate, hq]
    rfl
  have hcreate : createPacket K packet s = some (q2.set 21 (specChecksum (q2.take 21))) := by
    unfold createPacket
    simp only [hcopy]
    rw [assignCode_eq _ 8 _ _ _ _ kp bp hp hbp (by omega)]
    simp only []
    rw [assignCode_eq _ 9 _ _ _ _ km bm hm hbm (by simp only [List.length_set]; omega)]
    simp only []
    rw [assignCode_eq _ 10 _ _ _ _ kt bt ht hbt (by simp only [List.length_set]; omega)]
    simp only []
    rw [assignCode_eq _ 11 _ _ _ _ kf bf hf hbf (by simp only [List.length_set]; omega)]
    simp only []
    rw [assignCode_eq _ 12 _ _ _ _ kv bv hv hbv (by simp only [List.length_set]; omega)]
    simp only []
    rw [writeAt_eq _ 13 _ (by simp only [List.length_set]; omega)]
    simp only []
    rw [writeAt_eq _ 14 _ (by simp only [List.length_set]; omega)]
    simp only []
    rw [assignCode_eq _ 15 _ _ _ _ kw bw hw hbw (by simp only [List.length_set]; omega)]
    simp only []
    rw [padLoop_eq 16 5 0 q (by omega)]
    simp only [Nat.zero_add]
    rw [checkSum_take q2 21 (by omega)]
    simp only []
    rw [writeAt_eq q2 21 _ (by omega)]
  have hlow : ∀ j, j < 16 → (q2.set 21 (specChecksum (q2.take 21)))[j]? = q[j]? := by
    intro j hj
    rw [List.getElem?_set_ne (by omega)]
    simp only [q2, List.append_assoc]
    rw [List.getElem?_append_left (by simp only [List.length_take, hq]; omega),
      List.getElem?_take_of_lt hj]
  have hmid : ∀ j, 16 ≤ j → j < 21 → (q2.set 21 (specChecksum (q2.take 21)))[j]? = some 0 := by
    intro j hj1 hj2
    rw [List.getElem?_set_ne (by omega)]
    simp only [q2, List.append_assoc]
    rw [List.getElem?_append_right (by simp only [List.length_take, hq]; omega),
      List.getElem?_append_left (by simp only [List.length_take, List.length_replicate, hq]; omega)]
    rw [List.getElem?_replicate]
    simp only [List.length_take, hq]
    rw [if_pos (by omega)]
  have hbase8 : ∀ j, j < 8 → q[j]? = (K.HEADER ++ packet.drop K.HEADER_LEN)[j]? := by
    intro j hj
    simp only [q]
    rw [List.getElem?_set_ne (by omega), List.getElem?_set_ne (by omega),
      List.getElem?_set_ne (by omega), List.getElem?_set_ne (by omega),
      List.getElem?_set_ne (by omega), List.getElem?_set_ne (by omega),
      List.getElem?_set_ne (by omega), List.getElem?_set_ne (by omega)]
  refine ⟨_, hcreate, by simp only [List.length_set, hq2, PACKET_LEN], ?_, ?_,
    ?_, ?_, ?_, ?_, ?_, ?_, ?_, ?_, hmid 16 (by omega) (by omega), hmid 17 (by omega) (by omega),
    hmid 18 (by omega) (by omega), hmid 19 (by omega) (by omega),
    hmid 20 (by omega) (by omega), ?_⟩
  · intro j hj
    have hjH : j < K.HEADER.length := by omega
    rw [hlow j (by omega), hbase8 j (by omega), List.getElem?_append_left hjH]
  · intro j hj1 hj2
    have hjH : K.HEADER.length ≤ j := by omega
    rw [hlow j (by omega), hbase8 j (by omega), List.getElem?_append_right hjH,
      List.getElem?_drop]
    congr 1
    omega
  · rw [hlow 8 (by omega)]; simp [q, hbase]
  · rw [hlow 9 (by omega)]; simp [q, hbase]
  · rw [hlow 10 (by omega)]; simp [q, hbase]
  · rw [hlow 11 (by omega)]; simp [q, hbase]
  · rw [hlow 12 (by omega)]; simp [q, hbase]
  · rw [hlow 13 (by omega)]; simp [q, hbase]
  · rw [hlow 14 (by omega)]; simp [q, hbase]
  · rw [hlow 15 (by omega)]; simp [q, hbase]
  · have h21 : 21 < q2.length := by omega
    rw [List.getElem?_set_self h21, List.set_take,
      List.set_eq_of_length_le (by simp only [List.length_take]; omega)]

/-- The update frame of a snapshot whose tokens are in their tables. -/
theorem createPacket_inTables (K : Tables) (hK : K.WF) (packet : List Nat)
    (hlen : packet.length = PACKET_LEN) (s : heatpumpSettings) (hs : inTables K s) :
    ∃ (r : List Nat) (kp km kt kf kv kw bp bm bt bf bv bw : Nat),
      createPacket K packet s = some r ∧ r.length = PACKET_LEN ∧
      (∀ j, j < K.HEADER_LEN → r[j]? = K.HEADER[j]?) ∧
      (∀ j, K.HEADER_LEN ≤ j → j < 8 → r[j]? = packet[j]?) ∧
      (lookupByteMapIndex K.POWER_MAP 2 s.power = some (kp : Int) ∧
        K.POWER_MAP[kp]? = some s.power ∧ K.POWER[kp]? = some bp ∧ r[8]? = some bp) ∧
      (lookupByteMapIndex K.MODE_MAP 5 s.mode = some (km : Int) ∧
        K.MODE_MAP[km]? = some s.mode ∧ K.MODE[km]? = some bm ∧ r[9]? = some bm) ∧
      (lookupByteMapIndex K.TEMP_MAP 16 s.temperature = some (kt : Int) ∧
        K.TEMP_MAP[kt]? = some s.temperature ∧ K.TEMP[kt]? = some bt ∧ r[10]? = some bt) ∧
      (lookupByteMapIndex K.FAN_MAP 6 s.fan = some (kf : Int) ∧
        K.FAN_MAP[kf]? = some s.fan ∧ K.FAN[kf]? = some bf ∧ r[11]? = some bf) ∧
      (lookupByteMapIndex K.VANE_MAP 7 s.vane = some (kv : Int) ∧
        K.VANE_MAP[kv]? = some s.vane ∧ K.VANE[kv]? = some bv ∧ r[12]? = some bv) ∧
      (lookupByteMapIndex K.WIDEVANE_MAP 7 s.wideVane = some (kw : Int) ∧
        K.WIDEVANE_MAP[kw]? = some s.wideVane ∧ K.WIDEVANE[kw]? = some bw ∧
        r[15]? = some bw) ∧
      r[13]? = some 0 ∧ r[14]? = some 0 ∧
      r[16]? = some 0 ∧ r[17]? = some 0 ∧ r[18]? = some 0 ∧ r[19]? = some 0 ∧
      r[20]? = some 0 ∧ r[21]? = some (specChecksum (r.take 21)) := by
  obtain ⟨h1, h2, h3, h4, h5, h6⟩ := hs
  obtain ⟨kp, bp, ip, cp, tp, _⟩ :=
    encode_mem K.POWER_MAP K.POWER 2 s.power hK.power_map_len hK.power_len hK.power_bytes h1
  obtain ⟨km, bm, im, cm, tm, _⟩ :=
    encode_mem K.MODE_MAP K.MODE 5 s.mode hK.mode_map_len hK.mode_len hK.mode_bytes h2
  obtain ⟨kt, bt, it, ct, tt, _⟩ :=
    encode_mem K.TEMP_MAP K.TEMP 16 s.temperature hK.temp_map_len hK.temp_len hK.temp_bytes h3
  obtain ⟨kf, bf, jf, cf, tf, _⟩ :=
    encode_mem K.FAN_MAP K.FAN 6 s.fan hK.fan_map_len hK.fan_len hK.fan_bytes h4
  obtain ⟨kv, bv, iv, cv, tv, _⟩ :=
    encode_mem K.VANE_MAP K.VANE 7 s.vane hK.vane_map_len hK.vane_len hK.vane_bytes h5
  obtain ⟨kw, bw, iw, cw, tw, _⟩ :=
    encode_mem K.WIDEVANE_MAP K.WIDEVANE 7 s.wideVane hK.widevane_map_len hK.widevane_len
      hK.widevane_bytes h6
  obtain ⟨r, hr, hl, a1, a2, a8, a9, a10, a11, a12, a13, a14, a15, a16, a17, a18, a19, a20,
      a21⟩ :=
    createPacket_eq K hK packet hlen s kp km kt kf kv kw bp bm bt bf bv bw ip cp im cm it ct
      jf cf iv cv iw cw
  exact ⟨r, kp, km, kt, kf, kv, kw, bp, bm, bt, bf, bv, bw, hr, hl, a1, a2, ⟨ip, tp, cp, a8⟩,
    ⟨im, tm, cm, a9⟩, ⟨it, tt, ct, a10⟩, ⟨jf, tf, cf, a11⟩, ⟨iv, tv, cv, a12⟩,
    ⟨iw, tw, cw, a15⟩, a13, a14, a16, a17, a18, a19, a20, a21⟩

/-- C9: update frame layout.  For a snapshot whose six tokens are in their tables,
`createPacket` fills a 22-byte frame that starts with the fixed header (whose first byte
is the start byte `0xFC`), carries at offsets 8, 9, 10, 11, 12 and 15 the byte codes
`codes[i]` of power, mode, temperature, fan, vane and wide-vane, `i` being the index of
the token in its table, has zero bytes at offsets 13, 14 and 16..20, and the checksum of
bytes 0..20 at offset 21. -/
theorem createPacket_layout (K : Tables) (hK : K.WF) (hstart : K.HEADER[0]? = some 0xFC)
    (packet : List Nat) (hlen : packet.length = PACKET_LEN) (s : heatpumpSettings)
    (hs : inTables K s) :
    ∃ (r : List Nat) (kp km kt kf kv kw : Nat),
      createPacket K packet s = some r ∧ r.length = 22 ∧
      r.take K.HEADER_LEN = K.HEADER ∧ r[0]? = some 0xFC ∧
      (lookupByteMapIndex K.POWER_MAP 2 s.power = some (kp : Int) ∧
        K.POWER_MAP[kp]? = some s.power ∧ r[8]? = K.POWER[kp]? ∧ (r[8]?).isSome) ∧
      (lookupByteMapIndex K.MODE_MAP 5 s.mode = some (km : Int) ∧
        K.MODE_MAP[km]? = some s.mode ∧ r[9]? = K.MODE[km]? ∧ (r[9]?).isSome) ∧
      (lookupByteMapIndex K.TEMP_MAP 16 s.temperature = some (kt : Int) ∧
        K.TEMP_MAP[kt]? = some s.temperature ∧ r[10]? = K.TEMP[kt]? ∧ (r[10]?).isSome) ∧
      (lookupByteMapIndex K.FAN_MAP 6 s.fan = some (kf : Int) ∧
        K.FAN_MAP[kf]? = some s.fan ∧ r[11]? = K.FAN[kf]? ∧ (r[11]?).isSome) ∧
      (lookupByteMapIndex K.VANE_MAP 7 s.vane = some (kv : Int) ∧
        K.VANE_MAP[kv]? = some s.vane ∧ r[12]? = K.VANE[kv]? ∧ (r[12]?).isSome) ∧
      (lookupByteMapIndex K.WIDEVANE_MAP 7 s.wideVane = some (kw : Int) ∧
        K.WIDEVANE_MAP[kw]? = some s.wideVane ∧ r[15]? = K.WIDEVANE[kw]? ∧
        (r[15]?).isSome) ∧
      r[13]? = some 0 ∧ r[14]? = some 0 ∧
      r[16]? = some 0 ∧ r[17]? = some 0 ∧ r[18]? = some 0 ∧ r[19]? = some 0 ∧
      r[20]? = some 0 ∧ r[21]? = some (specChecksum (r.take 21)) := by
  obtain ⟨r, kp, km, kt, kf, kv, kw, bp, bm, bt, bf, bv, bw, hr, hl, a1, _, ⟨ip, tp, cp, a8⟩,
    ⟨im, tm, cm, a9⟩, ⟨it, tt, ct, a10⟩, ⟨jf, tf, cf, a11⟩, ⟨iv, tv, cv, a12⟩,
    ⟨iw, tw, cw, a15⟩, a13, a14, a16, a17, a18, a19, a20, a21⟩ :=
    createPacket_inTables K hK packet hlen s hs
  have hH := hK.header_len
  have hH8 := hK.header_le
  simp only [PACKET_LEN] at hl
  have h0 : 0 < K.HEADER_LEN := by
    rcases Nat.eq_zero_or_pos K.HEADER_LEN with h | h
    · rw [List.getElem?_eq_none (by omega)] at hstart
      exact Option.noConfusion hstart
    · exact h
  refine ⟨r, kp, km, kt, kf, kv, kw, hr, hl, ?_, by rw [a1 0 h0, hstart],
    ⟨ip, tp, by rw [a8, cp], by rw [a8]; rfl⟩, ⟨im, tm, by rw [a9, cm], by rw [a9]; rfl⟩,
    ⟨it, tt, by rw [a10, ct], by rw [a10]; rfl⟩, ⟨jf, tf, by rw [a11, cf], by rw [a11]; rfl⟩,
    ⟨iv, tv, by rw [a12, cv], by rw [a12]; rfl⟩, ⟨iw, tw, by rw [a15, cw], by rw [a15]; rfl⟩,
    a13, a14, a16, a17, a18, a19, a20, a21⟩
  apply List.ext_getElem?
  intro j
  by_cases hj : j < K.HEADER_LEN
  · rw [List.getElem?_take_of_lt hj, a1 j hj]
  · rw [List.getElem?_eq_none (by simp only [List.length_take]; omega),
      List.getElem?_eq_none (by omega)]

/-- Instance of C9 at the snapshot of the end-to-end scenario. -/
theorem createPacket_layout_witness :
    sampleTables.WF ∧ inTables sampleTables sampleSettings ∧
    ∃ r, createPacket sampleTables zeroPacket sampleSettings = some r ∧ r.length = 22 ∧
      r[0]? = some 0xFC ∧ r[13]? = some 0 ∧ r[21]? = some (specChecksum (r.take 21)) := by
  obtain ⟨r, kp, km, kt, kf, kv, kw, hr, hl, -, h0, -, -, -, -, -, -, h13, -, -, -, -, -, -,
      h21⟩ :=
    createPacket_layout sampleTables sampleTables_wf (by decide) zeroPacket (by decide)
      sampleSettings (by decide)
  exact ⟨sampleTables_wf, by decide, r, hr, hl, h0, h13, h21⟩

/-! ## The info-request frame -/

/-- The steps of `createInfoPacket` once the selector byte `b` is chosen. -/
theorem infoFrame_steps (K : Tables) (hK : K.WF) (packet : List Nat)
    (hlen : packet.length = PACKET_LEN) (b : Nat) :
    copyLoop K.INFOHEADER INFOHEADER_LEN 0 packet = some (K.INFOHEADER ++ packet.drop 5) ∧
    writeAt (K.INFOHEADER ++ packet.drop 5) 5 b =
      some ((K.INFOHEADER ++ packet.drop 5).set 5 b) ∧
    ∃ q2, padLoop 6 15 0 ((K.INFOHEADER ++ packet.drop 5).set 5 b) = some q2 ∧
      checkSum q2 21 = some (specChecksum (K.INFOHEADER ++ b :: List.replicate 15 0)) ∧
      ∀ c, writeAt q2 21 c = some (K.INFOHEADER ++ b :: List.replicate 15 0 ++ [c]) := by
  have hI := hK.infoheader_len
  simp only [INFOHEADER_LEN, PACKET_LEN] at hI hlen ⊢
  have hbase : (K.INFOHEADER ++ packet.drop 5).length = 22 := by
    simp only [List.length_append, List.length_drop]; omega
  refine ⟨?_, writeAt_eq _ 5 b (by omega), ?_⟩
  · rw [copyLoop_eq K.INFOHEADER 5 0 packet (by omega) (by omega)]
    simp [← hI]
  · have hq : ((K.INFOHEADER ++ packet.drop 5).set 5 b).length = 22 := by
      rw [List.length_set]; exact hbase
    have ht6 : ((K.INFOHEADER ++ packet.drop 5).set 5 b).take 6 = K.INFOHEADER ++ [b] := by
      rw [take_set_succ _ 5 b (by omega), List.take_left' hI]
    have hq2 : (K.INFOHEADER ++ [b] ++ List.replicate 15 0).length = 21 := by
      simp only [List.length_append, List.length_replicate, List.length_singleton]; omega
    refine ⟨_, padLoop_eq 6 15 0 _ (by omega), ?_, ?_⟩
    · rw [checkSum_take _ 21 (by simp; omega)]
      simp only [Nat.zero_add, ht6]
      rw [List.take_left' hq2]
      simp
    · intro c
      rw [writeAt_eq _ 21 c (by simp; omega)]
      simp only [Nat.zero_add, ht6]
      rw [List.set_eq_take_append_cons_drop, if_pos (by simp; omega), List.take_left' hq2,
        List.drop_eq_nil_of_le (by simp; omega)]
      simp

theorem createInfoPacket_explicit (K : Tables) (hK : K.WF) (hp : State) (packet : List Nat)
    (hlen : packet.length = PACKET_LEN) (packetType b : Nat) (hne : packetType ≠ 0)
    (hb : K.INFOMODE[packetType]? = some b) :
    createInfoPacket K hp packet packetType =
      some (K.INFOHEADER ++ b :: List.replicate 15 0 ++
        [specChecksum (K.INFOHEADER ++ b :: List.replicate 15 0)], hp) := by
  obtain ⟨h1, h2, q2, h3, h4, h5⟩ := infoFrame_steps K hK packet hlen b
  unfold createInfoPacket
  simp only [h1, hne, ne_eq, not_false_eq_true, if_true, readAt_natCast, hb, h2, h3, h4, h5]

theorem createInfoPacket_roundRobin (K : Tables) (hK : K.WF) (hp : State) (packet : List Nat)
    (hlen : packet.length = PACKET_LEN) (b : Nat)
    (hb : K.INFOMODE[if hp.infoMode then 1 else 0]? = some b) :
    createInfoPacket K hp packet 0 =
      some (K.INFOHEADER ++ b :: List.replicate 15 0 ++
        [specChecksum (K.INFOHEADER ++ b :: List.replicate 15 0)],
        { hp with infoMode := !hp.infoMode }) := by
  obtain ⟨h1, h2, q2, h3, h4, h5⟩ := infoFrame_steps K hK packet hlen b
  have hb2 : readAt K.INFOMODE (if hp.infoMode then 1 else 0) = some b := by
    cases hi : hp.infoMode <;> simp [hi] at hb <;> simp [readAt, hb]
  unfold createInfoPacket
  simp only [h1, ne_eq, not_true_eq_false, if_false, hb2, h2, h3, h4, h5]

theorem frame_checksum_last (F : List Nat) (c : Nat) (hF : F.length = 21) :
    (F ++ [c]).length = 22 ∧ (F ++ [c])[21]? = some c ∧ (F ++ [c]).take 21 = F := by
  refine ⟨by simp [hF], ?_, List.take_left' hF⟩
  rw [List.getElem?_append_right (by omega), hF]
  rfl

theorem infoFrame_length (K : Tables) (hK : K.WF) (b : Nat) :
    (K.INFOHEADER ++ b :: List.replicate 15 0).length = 21 := by
  have hI := hK.infoheader_len
  simp only [INFOHEADER_LEN] at hI
  simp only [List.length_append, List.length_cons, List.length_replicate, hI]

/-- The frame of `createInfoPacket` for any request kind that indexes `INFOMODE`. -/
theorem createInfoPacket_some (K : Tables) (hK : K.WF) (hp : State) (packet : List Nat)
    (hlen : packet.length = PACKET_LEN) (packetType : Nat)
    (hpt : packetType < K.INFOMODE.length) :
    ∃ b hp', createInfoPacket K hp packet packetType =
      some (K.INFOHEADER ++ b :: List.replicate 15 0 ++
        [specChecksum (K.INFOHEADER ++ b :: List.replicate 15 0)], hp') := by
  by_cases hne : packetType = 0
  · subst hne
    have h2 := hK.infomode_len
    have hi : (if hp.infoMode then 1 else 0) < K.INFOMODE.length := by
      cases hp.infoMode <;> simp <;> omega
    exact ⟨_, _, createInfoPacket_roundRobin K hK hp packet hlen _
      (List.getElem?_eq_getElem hi)⟩
  · exact ⟨_, _, createInfoPacket_explicit K hK hp packet hlen packetType _ hne
      (List.getElem?_eq_getElem hpt)⟩

/-- C2: every frame that the two fixed-length builders fill satisfies the frame checksum
invariant.  For a snapshot whose six tokens are in their tables the 22-byte frame of
`createPacket`, and for every request kind (an index into `INFOMODE`) and every state of
the round-robin toggle the 22-byte frame of `createInfoPacket`, has byte 21 equal to
`(0xFC - sum of bytes 0..20) mod 256`. -/
theorem builders_checksum (K : Tables) (hK : K.WF) (packet : List Nat)
    (hlen : packet.length = PACKET_LEN) :
    (∀ s, inTables K s → ∃ r, createPacket K packet s = some r ∧ r.length = 22 ∧
      r[21]? = some (specChecksum (r.take 21))) ∧
    (∀ (hp : State) (packetType : Nat), packetType < K.INFOMODE.length →
      ∃ r hp', createInfoPacket K hp packet packetType = some (r, hp') ∧ r.length = 22 ∧
        r[21]? = some (specChecksum (r.take 21))) := by
  refine ⟨?_, ?_⟩
  · intro s hs
    obtain ⟨r, kp, km, kt, kf, kv, kw, bp, bm, bt, bf, bv, bw, hr, hl, -, -, -, -, -, -, -, -,
      -, -, -, -, -, -, -, h21⟩ := createPacket_inTables K hK packet hlen s hs
    exact ⟨r, hr, hl, h21⟩
  · intro hp packetType hpt
    obtain ⟨b, hp', he⟩ := createInfoPacket_some K hK hp packet hlen packetType hpt
    obtain ⟨h1, h2, h3⟩ := frame_checksum_last (K.INFOHEADER ++ b :: List.replicate 15 0)
      (specChecksum (K.INFOHEADER ++ b :: List.replicate 15 0)) (infoFrame_length K hK b)
    exact ⟨_, hp', he, h1, by rw [h2, h3]⟩

/-- Instance of C2: the update frame of the end-to-end snapshot, and the info frame for
the room temperature kind. -/
theorem builders_checksum_witness :
    sampleTables.WF ∧ zeroPacket.length = PACKET_LEN ∧
    (∃ r, createPacket sampleTables zeroPacket sampleSettings = some r ∧ r.length = 22 ∧
      r[21]? = some (specChecksum (r.take 21))) ∧
    (∃ r hp', createInfoPacket sampleTables (construct 0 []) zeroPacket 1 = some (r, hp') ∧
      r.length = 22 ∧ r[21]? = some (specChecksum (r.take 21))) :=
  ⟨sampleTables_wf, by decide,
    (builders_checksum sampleTables sampleTables_wf zeroPacket (by decide)).1 sampleSettings
      (by decide),
    (builders_checksum sampleTables sampleTables_wf zeroPacket (by decide)).2 (construct 0 [])
      1 (by decide)⟩

theorem infoFrame_selector (K : Tables) (hK : K.WF) (b c : Nat) :
    (K.INFOHEADER ++ b :: List.replicate 15 0 ++ [c])[5]? = some b := by
  have hI := hK.infoheader_len
  simp only [INFOHEADER_LEN] at hI
  rw [List.append_assoc, List.getElem?_append_right (by omega), hI]
  rfl

/-- C14: round-robin info request.  For every state of the toggle, two consecutive calls
of `createInfoPacket` with no explicit request kind (`packetType` 0) fill frames of which
one has the settings selector `INFOMODE[0]` at offset 5 and the other the room
temperature selector `INFOMODE[1]`, so the two bytes differ when the two selectors do;
after the two calls the toggle has its initial value; and from a freshly constructed
object the first such frame requests settings. -/
theorem createInfoPacket_alternates (K : Tables) (hK : K.WF) (hp : State)
    (packet1 packet2 : List Nat) (h1 : packet1.length = PACKET_LEN)
    (h2 : packet2.length = PACKET_LEN) :
    ∃ r1 hp1 r2 hp2, createInfoPacket K hp packet1 0 = some (r1, hp1) ∧
      createInfoPacket K hp1 packet2 0 = some (r2, hp2) ∧
      r1[5]? = K.INFOMODE[if hp.infoMode then 1 else 0]? ∧
      r2[5]? = K.INFOMODE[if hp.infoMode then 0 else 1]? ∧
      (r1[5]?).isSome ∧ (r2[5]?).isSome ∧
      (K.INFOMODE[0]? ≠ K.INFOMODE[1]? → r1[5]? ≠ r2[5]?) ∧
      hp2.infoMode = hp.infoMode ∧
      ∀ now input, ∃ r hp', createInfoPacket K (construct now input) packet1 0 = some (r, hp') ∧
        r[5]? = K.INFOMODE[0]? := by
  have hm := hK.infomode_len
  have h0 : 0 < K.INFOMODE.length := by omega
  have h1' : 1 < K.INFOMODE.length := by omega
  have hfresh : ∀ now input, ∃ r hp',
      createInfoPacket K (construct now input) packet1 0 = some (r, hp') ∧
        r[5]? = K.INFOMODE[0]? := by
    intro now input
    refine ⟨_, _, createInfoPacket_roundRobin K hK (construct now input) packet1 h1
      K.INFOMODE[0] (List.getElem?_eq_getElem h0), ?_⟩
    rw [infoFrame_selector K hK]; simp
  cases hi : hp.infoMode
  · have e1 := createInfoPacket_roundRobin K hK hp packet1 h1 K.INFOMODE[0]
      (by rw [hi]; exact List.getElem?_eq_getElem h0)
    have e2 := createInfoPacket_roundRobin K hK { hp with infoMode := !hp.infoMode } packet2 h2
      K.INFOMODE[1] (by simp only [hi]; exact List.getElem?_eq_getElem h1')
    refine ⟨_, _, _, _, e1, e2, ?_, ?_, ?_, ?_, ?_, ?_, ?_⟩
    · rw [infoFrame_selector K hK]; simp
    · rw [infoFrame_selector K hK]; simp
    · rw [infoFrame_selector K hK]; rfl
    · rw [infoFrame_selector K hK]; rfl
    · intro hne
      rw [infoFrame_selector K hK, infoFrame_selector K hK,
        ← List.getElem?_eq_getElem h0, ← List.getElem?_eq_getElem h1']
      exact hne
    · simp [hi]
    · exact hfresh
  · have e1 := createInfoPacket_roundRobin K hK hp packet1 h1 K.INFOMODE[1]
      (by rw [hi]; exact List.getElem?_eq_getElem h1')
    have e2 := createInfoPacket_roundRobin K hK { hp with infoMode := !hp.infoMode } packet2 h2
      K.INFOMODE[0] (by simp only [hi]; exact List.getElem?_eq_getElem h0)
    refine ⟨_, _, _, _, e1, e2, ?_, ?_, ?_, ?_, ?_, ?_, ?_⟩
    · rw [infoFrame_selector K hK]; simp
    · rw [infoFrame_selector K hK]; simp
    · rw [infoFrame_selector K hK]; rfl
    · rw [infoFrame_selector K hK]; rfl
    · intro hne
      rw [infoFrame_selector K hK, infoFrame_selector K hK,
        ← List.getElem?_eq_getElem h0, ← List.getElem?_eq_getElem h1']
      exact fun h => hne h.symm
    · simp [hi]
    · exact hfresh

/-- Instance of C14 at a freshly constructed object. -/
theorem createInfoPacket_alternates_witness :
    sampleTables.WF ∧ zeroPacket.length = PACKET_LEN ∧
    ∃ r1 hp1 r2 hp2, createInfoPacket sampleTables (construct 0 []) zeroPacket 0 = some (r1, hp1) ∧
      createInfoPacket sampleTables hp1 zeroPacket 0 = some (r2, hp2) ∧
      r1[5]? = some 0x02 ∧ r2[5]? = some 0x03 ∧ hp2.infoMode = false := by
  obtain ⟨r1, hp1, r2, hp2, e1, e2, s1, s2, -, -, -, ht, -⟩ :=
    createInfoPacket_alternates sampleTables sampleTables_wf (construct 0 []) zeroPacket
      zeroPacket (by decide) (by decide)
  exact ⟨sampleTables_wf, by decide, r1, hp1, r2, hp2, e1, e2, s1, s2, ht⟩

/-- C19: an explicitly given request kind is not always honoured.  `createInfoPacket`
tests `if(packetType)`, so the request kind 0, which is the position of the settings
selector in `INFOMODE`, is handled as if no kind were given: with the toggle set,
`createInfoPacket(packet, RQST_PKT_SETTINGS)` writes the room temperature selector
`INFOMODE[1]` at offset 5 and clears the toggle, where the claim expects the settings
selector `INFOMODE[0]` and an unchanged toggle. -/
theorem createInfoPacket_kind_zero :
    ∃ r hp', createInfoPacket sampleTables { construct 0 [] with infoMode := true } zeroPacket
        sampleTables.RQST_PKT_SETTINGS = some (r, hp') ∧
      r[5]? = sampleTables.INFOMODE[1]? ∧
      r[5]? ≠ sampleTables.INFOMODE[sampleTables.RQST_PKT_SETTINGS]? ∧
      hp'.infoMode = false := by
  refine ⟨_, _, createInfoPacket_roundRobin sampleTables sampleTables_wf _ zeroPacket
    (by decide) 0x03 (by decide), by decide, by decide, rfl⟩

/-- A power token that is absent from `POWER_MAP` makes `createPacket` index `POWER` at
`-1`, outside the array. -/
theorem createPacket_absent_power (K : Tables) (hK : K.WF) (packet : List Nat)
    (hlen : packet.length = PACKET_LEN) (s : heatpumpSettings) (h : s.power ∉ K.POWER_MAP) :
    createPacket K packet s = none := by
  have hH := hK.header_len
  have hH8 := hK.header_le
  simp only [PACKET_LEN] at hlen
  unfold createPacket
  rw [copyLoop_eq K.HEADER K.HEADER_LEN 0 packet (by omega) (by omega)]
  simp only [assignCode_absent _ 8 K.POWER K.POWER_MAP 2 s.power hK.power_map_len h]

/-- C7: building an update frame does not fall back to the default.  For a token that is
not in its table `lookupByteMapIndex` returns `-1`, and `createPacket` uses that index
unguarded: `POWER[-1]` lies outside the array (the setters guard the same lookup with
`> -1 ? setting : MAP[0]`).  At an unrecognised power token, and at the unset snapshot
that construction leaves in `wantedSettings`, the checked embedding stops at that read
instead of writing `POWER[0]` at offset 8. -/
theorem createPacket_unknown_token :
    lookupByteMapIndex sampleTables.POWER_MAP 2 "not-a-real-value" = some (-1) ∧
    readAt sampleTables.POWER (-1) = none ∧
    createPacket sampleTables zeroPacket { sampleSettings with power := "not-a-real-value" } =
      none ∧
    createPacket sampleTables zeroPacket (construct 0 []).wantedSettings = none := by
  refine ⟨by decide, by decide, ?_, ?_⟩
  · exact createPacket_absent_power sampleTables sampleTables_wf zeroPacket (by decide) _
      (by decide)
  · exact createPacket_absent_power sampleTables sampleTables_wf zeroPacket (by decide) _
      (by decide)

/-! ## Reading: the loops -/

theorem toByte_natCast (b : Nat) (h : b < 256) : toByte (b : Int) = b := by
  unfold toByte
  omega

theorem scanStart_found (pre rest : List Nat) (hpre : ∀ b ∈ pre, toByte (b : Int) ≠ 0xFC) :
    ∀ h0, scanStart h0 (pre ++ 0xFC :: rest) = (0xFC, true, rest) := by
  induction pre with
  | nil => intro h0; rfl
  | cons b pre ih =>
    intro h0
    have hb := hpre b (List.mem_cons_self _ _)
    rw [List.cons_append, scanStart, if_neg hb]
    exact ih (fun x hx => hpre x (List.mem_cons_of_mem _ hx)) _

theorem scanStart_absent (l : List Nat) (hl : ∀ b ∈ l, toByte (b : Int) ≠ 0xFC) :
    ∀ h0, (scanStart h0 l).2.1 = false := by
  induction l with
  | nil => intro h0; rfl
  | cons b l ih =>
    intro h0
    have hb := hl b (List.mem_cons_self _ _)
    rw [scanStart, if_neg hb]
    exact ih (fun x hx => hl x (List.mem_cons_of_mem _ hx)) _

theorem readLoop_eq :
    ∀ (n i : Nat) (buf xs rest : List Nat), xs.length = n → allBytes xs → i + n ≤ buf.length →
      readLoop n i buf (xs ++ rest) = some (buf.take i ++ xs ++ buf.drop (i + n), rest) := by
  intro n
  induction n with
  | zero =>
    intro i buf xs rest hx _ _
    rw [List.length_eq_zero.mp hx]
    simp [readLoop]
  | succ n ih =>
    intro i buf xs rest hx hb hlen
    cases xs with
    | nil => simp at hx
    | cons x xs =>
      have hxb : x < 256 := hb x (List.mem_cons_self _ _)
      have hi : i < buf.length := by omega
      rw [List.cons_append, readLoop]
      simp only [serialRead, toByte_natCast x hxb, writeAt_eq buf i x hi]
      rw [ih (i + 1) _ xs rest (by simpa using hx)
        (fun y hy => hb y (List.mem_cons_of_mem _ hy)) (by simp; omega)]
      congr 2
      rw [take_set_succ _ _ _ hi, List.drop_set_of_lt _ _ (by omega)]
      simp [Nat.add_assoc, Nat.add_comm 1 n]

theorem sumLoop_eq (a : List Nat) :
    ∀ (n i : Nat) (s : Int), i + n ≤ a.length →
      sumLoop a n i s = some (s + (((a.drop i).take n).sum : Nat)) := by
  intro n
  induction n with
  | zero => intro i s _; simp [sumLoop]
  | succ n ih =>
    intro i s h
    have hi : i < a.length := by omega
    rw [sumLoop, List.getElem?_eq_getElem hi]
    simp only []
    rw [ih (i + 1) _ (by omega), List.drop_eq_getElem_cons hi, List.take_succ_cons,
      List.sum_cons]
    congr 1
    push_cast
    omega

theorem copyOffLoop_some (src : List Nat) (off : Nat) :
    ∀ (n i : Nat) (packet : List Nat), i + n ≤ src.length → i + off + n ≤ packet.length →
      ∃ r, copyOffLoop src off n i packet = some r ∧ r.length = packet.length := by
  intro n
  induction n with
  | zero => intro i packet _ _; exact ⟨packet, rfl, rfl⟩
  | succ n ih =>
    intro i packet hs hp
    have hi : i < src.length := by omega
    have hi2 : i + off < packet.length := by omega
    rw [copyOffLoop, List.getElem?_eq_getElem hi]
    simp only [writeAt_eq packet (i + off) _ hi2]
    obtain ⟨r, hr, hl⟩ := ih (i + 1) (packet.set (i + off) src[i]) (by omega)
      (by simp; omega)
    exact ⟨r, hr, by rw [hl, List.length_set]⟩

/-! ## Reading: classification -/

theorem sameUpToReports_refl (hp : State) : sameUpToReports hp hp :=
  ⟨[], by simp, by simp⟩

theorem reportReceived_cases (hp : State) (header data : List Nat) (dataLength : Nat)
    (hpR : State) (h : reportReceived hp header data dataLength = some hpR) :
    sameUpToReports hp hpR ∧ (hp.packetCallback = false → hpR = hp) := by
  unfold reportReceived at h
  split at h
  · rename_i hcb
    split at h
    · exact Option.noConfusion h
    · split at h
      · exact Option.noConfusion h
      · rename_i p _
        have := Option.some.inj h
        subst this
        refine ⟨⟨[Event.packet p PACKET_LEN "packetRecv"], ?_, rfl⟩, ?_⟩
        · intro e he
          simp only [List.mem_singleton] at he
          subst he
          rfl
        · intro hf
          rw [hf] at hcb
          exact Bool.noConfusion hcb
  · have := Option.some.inj h
    subst this
    exact ⟨sameUpToReports_refl hp, fun _ => rfl⟩

theorem reportReceived_some (hp : State) (header data : List Nat) (dataLength : Nat)
    (hh : INFOHEADER_LEN ≤ header.length) (hd : dataLength + 1 ≤ data.length)
    (hL : dataLength + 6 ≤ 37) :
    ∃ hpR, reportReceived hp header data dataLength = some hpR := by
  unfold reportReceived
  split
  · simp only [INFOHEADER_LEN] at hh ⊢
    rw [copyLoop_eq header 5 0 _ (by omega) (by simp)]
    simp only []
    obtain ⟨r, hr, -⟩ := copyOffLoop_some data 5 (dataLength + 1) 0
      (List.take 0 (List.replicate 37 0) ++ List.take 5 (List.drop 0 header) ++
        List.drop (0 + 5) (List.replicate 37 0)) (by omega) (by simp; omega)
    rw [hr]
    exact ⟨_, rfl⟩
  · exact ⟨hp, rfl⟩

/-- The snapshot that `readPacket` decodes from the payload of a settings response. -/
theorem decodeSettings_some (K : Tables) (hK : K.WF) (data : List Nat)
    (hd : 11 ≤ data.length) :
    ∃ (s : heatpumpSettings) (d3 d4 d5 d6 d7 d10 : Nat),
      data[3]? = some d3 ∧ data[4]? = some d4 ∧ data[5]? = some d5 ∧ data[6]? = some d6 ∧
      data[7]? = some d7 ∧ data[10]? = some d10 ∧
      lookupByteMapValue K.POWER_MAP K.POWER 2 d3 = some s.power ∧
      lookupByteMapValue K.MODE_MAP K.MODE 5 d4 = some s.mode ∧
      lookupByteMapValue K.TEMP_MAP K.TEMP 16 d5 = some s.temperature ∧
      lookupByteMapValue K.FAN_MAP K.FAN 6 d6 = some s.fan ∧
      lookupByteMapValue K.VANE_MAP K.VANE 7 d7 = some s.vane ∧
      lookupByteMapValue K.WIDEVANE_MAP K.WIDEVANE 7 d10 = some s.wideVane ∧
      decodeSettings K data = some s := by
  obtain ⟨p, hp⟩ := lookupByteMapValue_total K.POWER_MAP K.POWER 2 (data[3]) (by decide)
    hK.power_map_len hK.power_len
  obtain ⟨m, hm⟩ := lookupByteMapValue_total K.MODE_MAP K.MODE 5 (data[4]) (by decide)
    hK.mode_map_len hK.mode_len
  obtain ⟨t, ht⟩ := lookupByteMapValue_total K.TEMP_MAP K.TEMP 16 (data[5]) (by decide)
    hK.temp_map_len hK.temp_len
  obtain ⟨f, hf⟩ := lookupByteMapValue_total K.FAN_MAP K.FAN 6 (data[6]) (by decide)
    hK.fan_map_len hK.fan_len
  obtain ⟨v, hv⟩ := lookupByteMapValue_total K.VANE_MAP K.VANE 7 (data[7]) (by decide)
    hK.vane_map_len hK.vane_len
  obtain ⟨w, hw⟩ := lookupByteMapValue_total K.WIDEVANE_MAP K.WIDEVANE 7 (data[10]) (by decide)
    hK.widevane_map_len hK.widevane_len
  refine ⟨{ power := p, mode := m, temperature := t, fan := f, vane := v, wideVane := w },
    data[3], data[4], data[5], data[6], data[7], data[10],
    List.getElem?_eq_getElem _, List.getElem?_eq_getElem _, List.getElem?_eq_getElem _,
    List.getElem?_eq_getElem _, List.getElem?_eq_getElem _, List.getElem?_eq_getElem _,
    hp, hm, ht, hf, hv, hw, ?_⟩
  unfold decodeSettings
  simp only [List.getElem?_eq_getElem (show 3 < data.length by omega),
    List.getElem?_eq_getElem (show 4 < data.length by omega),
    List.getElem?_eq_getElem (show 5 < data.length by omega),
    List.getElem?_eq_getElem (show 6 < data.length by omega),
    List.getElem?_eq_getElem (show 7 < data.length by omega),
    List.getElem?_eq_getElem (show 10 < data.length by omega), hp, hm, ht, hf, hv, hw]

theorem classify_eq (K : Tables) (hK : K.WF) (hp : State) (h1 h2 h3 L : Nat)
    (data : List Nat) (hd : data.length = PACKET_LEN) (hL : L + 1 ≤ PACKET_LEN) :
    ∃ (hpR : State) (s : heatpumpSettings) (t : Int) (d0 d3 : Nat),
      reportReceived hp [0xFC, h1, h2, h3, L] data L = some hpR ∧
      data[0]? = some d0 ∧ data[3]? = some d3 ∧ decodeSettings K data = some s ∧
      lookupByteMapValue K.ROOM_TEMP_MAP K.ROOM_TEMP 32 d3 = some t ∧
      classify K hp [0xFC, h1, h2, h3, L] data L =
        some (if h1 = 0x62 ∧ d0 = 0x02 then
            (PacketType.RCVD_PKT_SETTINGS, storeSettings hpR s)
          else if h1 = 0x62 ∧ d0 = 0x03 then
            (PacketType.RCVD_PKT_ROOM_TEMP, storeRoomTemp hpR t)
          else if h1 = 0x61 then (PacketType.RCVD_PKT_UPDATE_SUCCESS, hpR)
          else (PacketType.RCVD_PKT_FAIL, hpR)) := by
  simp only [PACKET_LEN] at hd hL
  obtain ⟨hpR, hR⟩ := reportReceived_some hp [0xFC, h1, h2, h3, L] data L
    (Nat.le_refl 5) (by omega) (by omega)
  obtain ⟨s, d3, d4, d5, d6, d7, d10, e3, -, -, -, -, -, -, -, -, -, -, -, hs⟩ :=
    decodeSettings_some K hK data (by omega)
  obtain ⟨t, ht⟩ := lookupByteMapValue_total K.ROOM_TEMP_MAP K.ROOM_TEMP 32 d3 (by decide)
    hK.room_temp_map_len hK.room_temp_len
  have h0 : 0 < data.length := by omega
  refine ⟨hpR, s, t, data[0], d3, hR, List.getElem?_eq_getElem h0, e3, hs, ht, ?_⟩
  unfold classify
  simp only [hR, List.getElem?_eq_getElem h0, e3, List.getElem?_cons_succ,
    List.getElem?_cons_zero, hs, ht]
  split_ifs <;> rfl

/-- The frame that `readPacket` finds in the input: the bytes before the first `0xFC`,
the header `0xFC h1 h2 h3 L`, `L` payload bytes, a trailing byte `c`, and what follows. -/
theorem readPacket_eq (K : Tables) (hp : State) (pre payload rest : List Nat)
    (h1 h2 h3 L c : Nat)
    (hin : hp.serialIn = pre ++ 0xFC :: h1 :: h2 :: h3 :: L :: (payload ++ c :: rest))
    (hpre : ∀ b ∈ pre, toByte (b : Int) ≠ 0xFC)
    (hb1 : h1 < 256) (hb2 : h2 < 256) (hb3 : h3 < 256) (hbL : L < 256) (hbc : c < 256)
    (hbp : allBytes payload) (hlen : payload.length = L) (hL : L + 1 ≤ PACKET_LEN) :
    readPacket K hp =
      if h2 = 0x01 ∧ h3 = 0x30 then
        if c = specChecksum (0xFC :: h1 :: h2 :: h3 :: L :: payload) then
          classify K (delay 100 { hp with serialIn := rest }) [0xFC, h1, h2, h3, L]
            (payload ++ c :: List.replicate (PACKET_LEN - (L + 1)) 0) L
        else some (PacketType.RCVD_PKT_FAIL, delay 100 { hp with serialIn := rest })
      else some (PacketType.RCVD_PKT_FAIL,
        delay 100 { hp with serialIn := payload ++ c :: rest }) := by
  simp only [PACKET_LEN] at hL ⊢
  have hscan := scanStart_found pre (h1 :: h2 :: h3 :: L :: (payload ++ c :: rest)) hpre 0
  have hpos : hp.serialIn.length > 0 := by rw [hin]; simp
  have hhead : readLoop 4 1 [0xFC, 0, 0, 0, 0] (h1 :: h2 :: h3 :: L :: (payload ++ c :: rest)) =
      some ([0xFC, h1, h2, h3, L], payload ++ c :: rest) := by
    have := readLoop_eq 4 1 [0xFC, 0, 0, 0, 0] [h1, h2, h3, L] (payload ++ c :: rest) rfl
      (by
        intro b hb
        simp only [List.mem_cons, List.mem_singleton, List.not_mem_nil, or_false] at hb
        rcases hb with rfl | rfl | rfl | rfl <;> assumption)
      (by decide)
    simpa using this
  have hdata : readLoop L 0 (List.replicate 22 0) (payload ++ c :: rest) =
      some (payload ++ List.replicate (22 - L) 0, c :: rest) := by
    rw [readLoop_eq L 0 (List.replicate 22 0) payload (c :: rest) hlen hbp
      (by rw [List.length_replicate]; omega)]
    rw [List.take_zero, List.nil_append, Nat.zero_add, List.drop_replicate]
  have hwr : writeAt (payload ++ List.replicate (22 - L) 0) L (toByte ((c : Nat) : Int)) =
      some (payload ++ c :: List.replicate (22 - (L + 1)) 0) := by
    rw [toByte_natCast c hbc, writeAt_eq _ _ _ (by simp; omega)]
    congr 1
    rw [List.set_append_right _ _ (by omega), hlen, Nat.sub_self]
    have : 22 - L = (22 - (L + 1)) + 1 := by omega
    rw [this, List.replicate_succ, List.set_cons_zero]
  have hsum1 : sumLoop [0xFC, h1, h2, h3, L] 5 0 0 =
      some (((0xFC + h1 + h2 + h3 + L : Nat) : Int)) := by
    rw [sumLoop_eq [0xFC, h1, h2, h3, L] 5 0 0 (Nat.le_refl 5)]
    simp [Nat.add_assoc]
  have hsum2 : ∀ s : Int, sumLoop (payload ++ c :: List.replicate (22 - (L + 1)) 0) L 0 s =
      some (s + (payload.sum : Nat)) := by
    intro s
    rw [sumLoop_eq _ L 0 s (by simp; omega), List.drop_zero, List.take_left' hlen]
  have hlast : (payload ++ c :: List.replicate (22 - (L + 1)) 0)[L]? = some c := by
    rw [List.getElem?_append_right (by omega), hlen, Nat.sub_self]
    simp
  have hchk : toByte (0xfc - (((0xFC + h1 + h2 + h3 + L : Nat) : Int) + (payload.sum : Nat))) =
      specChecksum (0xFC :: h1 :: h2 :: h3 :: L :: payload) := by
    unfold toByte specChecksum
    simp only [List.sum_cons]
    congr 2
    push_cast
    omega
  have hw0 : writeAt (List.replicate 5 0) 0 0xFC = some [0xFC, 0, 0, 0, 0] := rfl
  unfold readPacket
  rw [if_pos hpos, hin, hscan]
  simp only [hw0, if_true, readFrame, delay, hhead, PACKET_LEN, INFOHEADER_LEN,
    List.getElem?_cons_succ, List.getElem?_cons_zero, true_and, hdata, serialRead, hwr, hsum1,
    hsum2, hlast, hchk]

theorem toByte_ne_start (pre : List Nat) (hb : allBytes pre) (hn : 0xFC ∉ pre) :
    ∀ b ∈ pre, toByte (b : Int) ≠ 0xFC := by
  intro b hbm
  rw [toByte_natCast b (hb b hbm)]
  intro he
  exact hn (he ▸ hbm)

/-- The result of `readPacket` on an input that holds a whole frame: `hpR` is the object
after the frame is consumed and reported, `s` the decoded snapshot, `t` the decoded room
temperature, `d0` the byte that the code reads as `data[0]`. -/
theorem readPacket_result (K : Tables) (hK : K.WF) (hp : State) (pre payload rest : List Nat)
    (h1 h2 h3 L c : Nat)
    (hin : hp.serialIn = pre ++ 0xFC :: h1 :: h2 :: h3 :: L :: (payload ++ c :: rest))
    (hpre : ∀ b ∈ pre, toByte (b : Int) ≠ 0xFC)
    (hb1 : h1 < 256) (hb2 : h2 < 256) (hb3 : h3 < 256) (hbL : L < 256) (hbc : c < 256)
    (hbp : allBytes payload) (hlen : payload.length = L) (hL : L + 1 ≤ PACKET_LEN) :
    ∃ (hpR : State) (s : heatpumpSettings) (t : Int) (d0 d3 : Nat),
      sameUpToReports (delay 100 { hp with serialIn := rest }) hpR ∧
      (hp.packetCallback = false → hpR = delay 100 { hp with serialIn := rest }) ∧
      (payload ++ [c])[0]? = some d0 ∧
      (payload ++ c :: List.replicate (PACKET_LEN - (L + 1)) 0)[3]? = some d3 ∧
      decodeSettings K (payload ++ c :: List.replicate (PACKET_LEN - (L + 1)) 0) = some s ∧
      lookupByteMapValue K.ROOM_TEMP_MAP K.ROOM_TEMP 32 d3 = some t ∧
      readPacket K hp = some
        (if h2 = 0x01 ∧ h3 = 0x30 then
          if c = specChecksum (0xFC :: h1 :: h2 :: h3 :: L :: payload) then
            if h1 = 0x62 ∧ d0 = 0x02 then
              (PacketType.RCVD_PKT_SETTINGS, storeSettings hpR s)
            else if h1 = 0x62 ∧ d0 = 0x03 then
              (PacketType.RCVD_PKT_ROOM_TEMP, storeRoomTemp hpR t)
            else if h1 = 0x61 then (PacketType.RCVD_PKT_UPDATE_SUCCESS, hpR)
            else (PacketType.RCVD_PKT_FAIL, hpR)
          else (PacketType.RCVD_PKT_FAIL, delay 100 { hp with serialIn := rest })
        else (PacketType.RCVD_PKT_FAIL,
          delay 100 { hp with serialIn := payload ++ c :: rest })) := by
  have hdl : (payload ++ c :: List.replicate (PACKET_LEN - (L + 1)) 0).length = PACKET_LEN := by
    simp only [List.length_append, List.length_cons, List.length_replicate, hlen]
    omega
  obtain ⟨hpR, s, t, d0, d3, hR, e0, e3, hs, ht, hc⟩ :=
    classify_eq K hK (delay 100 { hp with serialIn := rest }) h1 h2 h3 L _ hdl hL
  obtain ⟨hsame, hcb⟩ := reportReceived_cases _ _ _ _ _ hR
  have e0' : (payload ++ [c])[0]? = some d0 := by
    rw [← e0]
    cases payload <;> simp
  refine ⟨hpR, s, t, d0, d3, hsame, hcb, e0', e3, hs, ht, ?_⟩
  rw [readPacket_eq K hp pre payload rest h1 h2 h3 L c hin hpre hb1 hb2 hb3 hbL hbc hbp hlen hL,
    hc]
  split_ifs <;> rfl

/-- The byte that the code reads as `data[0]` is the first payload byte whenever the
frame has the signature, a valid checksum and the type byte `0x62`: for an empty payload
`data[0]` is the checksum byte, which is then `0x6D`. -/
theorem data0_payload (payload : List Nat) (h1 h2 h3 L c d0 : Nat)
    (hlen : payload.length = L) (h0 : (payload ++ [c])[0]? = some d0)
    (hsig : h2 = 0x01 ∧ h3 = 0x30)
    (hchk : c = specChecksum (0xFC :: h1 :: h2 :: h3 :: L :: payload)) (ht : h1 = 0x62) :
    (payload[0]? = some 0x02 ↔ d0 = 0x02) ∧ (payload[0]? = some 0x03 ↔ d0 = 0x03) := by
  cases payload with
  | nil =>
    obtain ⟨rfl, rfl⟩ := hsig
    subst ht
    simp only [List.length_nil] at hlen
    subst hlen
    have hc : c = 0x6D := by rw [hchk]; decide
    simp only [List.nil_append, List.getElem?_cons_zero, Option.some.injEq] at h0
    subst hc
    subst h0
    simp
  | cons p ps =>
    simp only [List.cons_append, List.getElem?_cons_zero, Option.some.injEq] at h0
    subst h0
    simp

/-- The four-way classification of `readPacket` on an input that holds a whole frame. -/
theorem readPacket_fourway (K : Tables) (hK : K.WF) (hp : State)
    (pre payload rest : List Nat) (h1 h2 h3 L c : Nat)
    (hin : hp.serialIn = pre ++ 0xFC :: h1 :: h2 :: h3 :: L :: (payload ++ c :: rest))
    (hpreB : allBytes pre) (hpreN : 0xFC ∉ pre)
    (hb1 : h1 < 256) (hb2 : h2 < 256) (hb3 : h3 < 256) (hbL : L < 256) (hbc : c < 256)
    (hbp : allBytes payload) (hlen : payload.length = L) (hL : L + 1 ≤ PACKET_LEN) :
    ∃ ty hp', readPacket K hp = some (ty, hp') ∧
      (ty = PacketType.RCVD_PKT_SETTINGS ↔
        (h2 = 0x01 ∧ h3 = 0x30 ∧ c = specChecksum (0xFC :: h1 :: h2 :: h3 :: L :: payload) ∧
          h1 = 0x62 ∧ payload[0]? = some 0x02)) ∧
      (ty = PacketType.RCVD_PKT_ROOM_TEMP ↔
        (h2 = 0x01 ∧ h3 = 0x30 ∧ c = specChecksum (0xFC :: h1 :: h2 :: h3 :: L :: payload) ∧
          h1 = 0x62 ∧ payload[0]? = some 0x03)) ∧
      (ty = PacketType.RCVD_PKT_UPDATE_SUCCESS ↔
        (h2 = 0x01 ∧ h3 = 0x30 ∧ c = specChecksum (0xFC :: h1 :: h2 :: h3 :: L :: payload) ∧
          h1 = 0x61)) ∧
      (ty = PacketType.RCVD_PKT_FAIL ↔
        ¬ (h2 = 0x01 ∧ h3 = 0x30 ∧
            c = specChecksum (0xFC :: h1 :: h2 :: h3 :: L :: payload)) ∨
          (h1 ≠ 0x61 ∧ ¬ (h1 = 0x62 ∧ (payload[0]? = some 0x02 ∨ payload[0]? = some 0x03)))) := by
  obtain ⟨hpR, s, t, d0, d3, -, -, e0, -, -, -, hres⟩ :=
    readPacket_result K hK hp pre payload rest h1 h2 h3 L c hin
      (toByte_ne_start pre hpreB hpreN) hb1 hb2 hb3 hbL hbc hbp hlen hL
  by_cases hsig : h2 = 0x01 ∧ h3 = 0x30
  · by_cases hchk : c = specChecksum (0xFC :: h1 :: h2 :: h3 :: L :: payload)
    · rw [if_pos hsig, if_pos hchk] at hres
      by_cases ht : h1 = 0x62
      · obtain ⟨p2, p3⟩ := data0_payload payload h1 h2 h3 L c d0 hlen e0 hsig hchk ht
        have n61 : ¬ h1 = 0x61 := by omega
        by_cases hd2 : d0 = 0x02
        · rw [if_pos ⟨ht, hd2⟩] at hres
          have n3 : ¬ d0 = 0x03 := by omega
          refine ⟨_, _, hres, ?_, ?_, ?_, ?_⟩ <;>
            simp only [eq_self_iff_true, reduceCtorEq, true_iff, false_iff] <;> tauto
        · by_cases hd3 : d0 = 0x03
          · rw [if_neg (fun h => hd2 h.2), if_pos ⟨ht, hd3⟩] at hres
            refine ⟨_, _, hres, ?_, ?_, ?_, ?_⟩ <;>
              simp only [eq_self_iff_true, reduceCtorEq, true_iff, false_iff] <;> tauto
          · rw [if_neg (fun h => hd2 h.2), if_neg (fun h => hd3 h.2), if_neg n61] at hres
            refine ⟨_, _, hres, ?_, ?_, ?_, ?_⟩ <;>
              simp only [eq_self_iff_true, reduceCtorEq, true_iff, false_iff] <;> tauto
      · rw [if_neg (fun h => ht h.1), if_neg (fun h => ht h.1)] at hres
        by_cases ha : h1 = 0x61
        · rw [if_pos ha] at hres
          refine ⟨_, _, hres, ?_, ?_, ?_, ?_⟩ <;>
            simp only [eq_self_iff_true, reduceCtorEq, true_iff, false_iff] <;> tauto
        · rw [if_neg ha] at hres
          refine ⟨_, _, hres, ?_, ?_, ?_, ?_⟩ <;>
            simp only [eq_self_iff_true, reduceCtorEq, true_iff, false_iff] <;> tauto
    · rw [if_pos hsig, if_neg hchk] at hres
      refine ⟨_, _, hres, ?_, ?_, ?_, ?_⟩ <;>
        simp only [eq_self_iff_true, reduceCtorEq, true_iff, false_iff] <;> tauto
  · rw [if_neg hsig] at hres
    refine ⟨_, _, hres, ?_, ?_, ?_, ?_⟩ <;>
      simp only [eq_self_iff_true, reduceCtorEq, true_iff, false_iff] <;> tauto

/-- C3: `readPacket` classifies exactly as specified.  On an input whose first `0xFC`
byte is followed by the header bytes `h1 h2 h3 L`, `L` payload bytes (`L` small enough
for the data buffer) and a trailing byte `c`, `readPacket` returns; the result is
`Settings` iff `h2 == 0x01`, `h3 == 0x30`, `c` is `(0xFC - sum of the 5 header bytes and
the L payload bytes) mod 256`, `h1 == 0x62` and `payload[0] == 0x02`; `RoomTemp` iff the
same holds with `payload[0] == 0x03`; `UpdateAck` iff signature and checksum hold and
`h1 == 0x61`; and `Fail` in every other case. -/
theorem readPacket_classifies (K : Tables) (hK : K.WF) (hp : State)
    (pre payload rest : List Nat) (h1 h2 h3 L c : Nat)
    (hin : hp.serialIn = pre ++ 0xFC :: h1 :: h2 :: h3 :: L :: (payload ++ c :: rest))
    (hpreB : allBytes pre) (hpreN : 0xFC ∉ pre)
    (hb1 : h1 < 256) (hb2 : h2 < 256) (hb3 : h3 < 256) (hbL : L < 256) (hbc : c < 256)
    (hbp : allBytes payload) (hlen : payload.length = L) (hL : L + 1 ≤ PACKET_LEN) :
    ∃ ty hp', readPacket K hp = some (ty, hp') ∧
      (ty = PacketType.RCVD_PKT_SETTINGS ↔
        (h2 = 0x01 ∧ h3 = 0x30 ∧ c = specChecksum (0xFC :: h1 :: h2 :: h3 :: L :: payload) ∧
          h1 = 0x62 ∧ payload[0]? = some 0x02)) ∧
      (ty = PacketType.RCVD_PKT_ROOM_TEMP ↔
        (h2 = 0x01 ∧ h3 = 0x30 ∧ c = specChecksum (0xFC :: h1 :: h2 :: h3 :: L :: payload) ∧
          h1 = 0x62 ∧ payload[0]? = some 0x03)) ∧
      (ty = PacketType.RCVD_PKT_UPDATE_SUCCESS ↔
        (h2 = 0x01 ∧ h3 = 0x30 ∧ c = specChecksum (0xFC :: h1 :: h2 :: h3 :: L :: payload) ∧
          h1 = 0x61)) ∧
      (ty = PacketType.RCVD_PKT_FAIL ↔
        ¬ (h2 = 0x01 ∧ h3 = 0x30 ∧
            c = specChecksum (0xFC :: h1 :: h2 :: h3 :: L :: payload)) ∨
          (h1 ≠ 0x61 ∧ ¬ (h1 = 0x62 ∧ (payload[0]? = some 0x02 ∨ payload[0]? = some 0x03)))) :=
  readPacket_fourway K hK hp pre payload rest h1 h2 h3 L c hin hpreB hpreN hb1 hb2 hb3 hbL hbc
    hbp hlen hL

/-- Instance of C3: the settings response of the end-to-end scenario is classified
`Settings`. -/
theorem readPacket_classifies_witness :
    ∃ ty hp', readPacket sampleTables (construct 0 sampleSettingsResponse) = some (ty, hp') ∧
      ty = PacketType.RCVD_PKT_SETTINGS := by
  obtain ⟨ty, hp', h, hS, -⟩ :=
    readPacket_classifies sampleTables sampleTables_wf (construct 0 sampleSettingsResponse) []
      [0x02, 0x00, 0x00, 0x01, 0x01, 0x0a, 0x00, 0x00, 0x00, 0x00, 0x08, 0x00, 0x00, 0x00,
        0x00, 0x00] [] 0x62 0x01 0x30 0x10 0x47 rfl (by decide) (by decide) (by decide)
      (by decide) (by decide) (by decide) (by decide) (by decide) rfl (by decide)
  exact ⟨ty, hp', h, hS.mpr ⟨rfl, rfl, by decide, rfl, rfl⟩⟩

/-! ## Reading: effect on the session state -/

theorem sameUpToReports_fields (hp hp' : State) (h : sameUpToReports hp hp') :
    hp'.currentSettings = hp.currentSettings ∧ hp'.wantedSettings = hp.wantedSettings ∧
    hp'.currentRoomTemp = hp.currentRoomTemp ∧
    hp'.settingsChangedCallback = hp.settingsChangedCallback ∧
    hp'.roomTempChangedCallback = hp.roomTempChangedCallback ∧
    hp'.lastSend = hp.lastSend ∧ hp'.infoMode = hp.infoMode ∧ hp'.millis = hp.millis ∧
    hp'.serialIn = hp.serialIn ∧ hp'.serialOut = hp.serialOut ∧
    changeEvents hp' = changeEvents hp := by
  obtain ⟨es, hes, rfl⟩ := h
  refine ⟨rfl, rfl, rfl, rfl, rfl, rfl, rfl, rfl, rfl, rfl, ?_⟩
  have hnil : es.filter isChangeEvent = [] :=
    List.filter_eq_nil_iff.mpr (fun e he => by simp [hes e he])
  simp only [changeEvents, List.filter_append, hnil, List.append_nil]

theorem storeSettings_fields (hp : State) (s : heatpumpSettings) :
    (storeSettings hp s).currentSettings = s ∧
    (storeSettings hp s).wantedSettings =
      (if operatorNot hp.wantedSettings then s else hp.wantedSettings) ∧
    (storeSettings hp s).currentRoomTemp = hp.currentRoomTemp ∧
    changeEvents (storeSettings hp s) = changeEvents hp ++
      (if hp.settingsChangedCallback && operatorNe s hp.currentSettings then
        [Event.settingsChanged s] else []) ∧
    (storeSettings hp s).serialOut = hp.serialOut ∧
    (storeSettings hp s).lastSend = hp.lastSend ∧
    (storeSettings hp s).infoMode = hp.infoMode ∧
    (storeSettings hp s).millis = hp.millis := by
  unfold storeSettings changeEvents
  cases h1 : (hp.settingsChangedCallback && operatorNe s hp.currentSettings) <;>
    cases h2 : operatorNot hp.wantedSettings <;>
    simp [h1, h2, List.filter_append, isChangeEvent]

theorem storeRoomTemp_fields (hp : State) (t : Int) :
    (storeRoomTemp hp t).currentSettings = hp.currentSettings ∧
    (storeRoomTemp hp t).wantedSettings = hp.wantedSettings ∧
    (storeRoomTemp hp t).currentRoomTemp = t ∧
    changeEvents (storeRoomTemp hp t) = changeEvents hp ++
      (if hp.roomTempChangedCallback && hp.currentRoomTemp != t then
        [Event.roomTempChanged t] else []) ∧
    (storeRoomTemp hp t).serialOut = hp.serialOut ∧
    (storeRoomTemp hp t).lastSend = hp.lastSend ∧
    (storeRoomTemp hp t).infoMode = hp.infoMode ∧
    (storeRoomTemp hp t).millis = hp.millis := by
  unfold storeRoomTemp changeEvents
  cases h1 : (hp.roomTempChangedCallback && hp.currentRoomTemp != t) <;>
    simp [h1, List.filter_append, isChangeEvent]

/-- The operator `!=` of `heatpumpSettings` is the negation of `==`. -/
theorem operatorNe_eq_not (a b : heatpumpSettings) : operatorNe a b = !operatorEq a b := by
  unfold operatorNe operatorEq
  simp only [bne, Bool.not_and]

/-- The operator `==` of `heatpumpSettings` holds exactly for equal snapshots. -/
theorem operatorEq_iff (a b : heatpumpSettings) : operatorEq a b = true ↔ a = b := by
  cases a
  cases b
  simp [operatorEq, and_assoc]

theorem operatorNe_iff (a b : heatpumpSettings) : operatorNe a b = true ↔ a ≠ b := by
  rw [operatorNe_eq_not]
  have h := operatorEq_iff a b
  cases hc : operatorEq a b
  · rw [hc] at h
    simp only [Bool.not_false, true_iff]
    intro e
    exact Bool.noConfusion (h.mpr e)
  · rw [hc] at h
    simp only [Bool.not_true, Bool.false_eq_true, false_iff, ne_eq, not_not]
    exact h.mp rfl

theorem lt_length_of_getElem? {α : Type} (a : List α) (k : Nat) (v : α)
    (h : a[k]? = some v) : k < a.length := by
  by_contra hc
  rw [List.getElem?_eq_none (by omega)] at h
  exact Option.noConfusion h

theorem specChecksum_lt (B : List Nat) : specChecksum B < 256 := by
  unfold specChecksum
  omega

theorem decodeSettings_eq (K : Tables) (data : List Nat) (s : heatpumpSettings)
    (d3 d4 d5 d6 d7 d10 : Nat)
    (e3 : data[3]? = some d3) (e4 : data[4]? = some d4) (e5 : data[5]? = some d5)
    (e6 : data[6]? = some d6) (e7 : data[7]? = some d7) (e10 : data[10]? = some d10)
    (hp : lookupByteMapValue K.POWER_MAP K.POWER 2 d3 = some s.power)
    (hm : lookupByteMapValue K.MODE_MAP K.MODE 5 d4 = some s.mode)
    (ht : lookupByteMapValue K.TEMP_MAP K.TEMP 16 d5 = some s.temperature)
    (hf : lookupByteMapValue K.FAN_MAP K.FAN 6 d6 = some s.fan)
    (hv : lookupByteMapValue K.VANE_MAP K.VANE 7 d7 = some s.vane)
    (hw : lookupByteMapValue K.WIDEVANE_MAP K.WIDEVANE 7 d10 = some s.wideVane) :
    decodeSettings K data = some s := by
  unfold decodeSettings
  simp only [e3, e4, e5, e6, e7, e10, hp, hm, ht, hf, hv, hw]

/-- The result of `readPacket` on a settings response with valid signature and
checksum. -/
theorem readPacket_settings (K : Tables) (hK : K.WF) (hp : State) (pre payload rest : List Nat)
    (L c : Nat)
    (hin : hp.serialIn = pre ++ 0xFC :: 0x62 :: 0x01 :: 0x30 :: L :: (payload ++ c :: rest))
    (hpreB : allBytes pre) (hpreN : 0xFC ∉ pre) (hbp : allBytes payload)
    (hlen : payload.length = L) (hL : L + 1 ≤ PACKET_LEN)
    (hchk : c = specChecksum (0xFC :: 0x62 :: 0x01 :: 0x30 :: L :: payload))
    (h0 : payload[0]? = some 0x02) :
    ∃ (hpR : State) (s : heatpumpSettings),
      sameUpToReports (delay 100 { hp with serialIn := rest }) hpR ∧
      (hp.packetCallback = false → hpR = delay 100 { hp with serialIn := rest }) ∧
      decodeSettings K (payload ++ c :: List.replicate (PACKET_LEN - (L + 1)) 0) = some s ∧
      readPacket K hp = some (PacketType.RCVD_PKT_SETTINGS, storeSettings hpR s) := by
  have hbc : c < 256 := by rw [hchk]; exact specChecksum_lt _
  have hbL : L < 256 := by simp only [PACKET_LEN] at hL; omega
  obtain ⟨hpR, s, t, d0, d3, hsame, hcb, e0, -, hs, -, hres⟩ :=
    readPacket_result K hK hp pre payload rest 0x62 0x01 0x30 L c hin
      (toByte_ne_start pre hpreB hpreN) (by decide) (by decide) (by decide) hbL hbc hbp hlen hL
  have hd0 : d0 = 0x02 := by
    cases payload with
    | nil => simp at h0
    | cons p ps =>
      simp only [List.cons_append, List.getElem?_cons_zero, Option.some.injEq] at e0 h0
      omega
  refine ⟨hpR, s, hsame, hcb, hs, ?_⟩
  rw [hres, if_pos ⟨rfl, rfl⟩, if_pos hchk, if_pos ⟨rfl, hd0⟩]

/-- C10: settings round trip between the update frame and the settings response.  For a
snapshot `s` whose six tokens are in their tables (the codes of every table pairwise
distinct), when `readPacket` parses a settings response with valid signature and checksum
whose payload bytes 3, 4, 5, 6, 7 and 10 equal bytes 8, 9, 10, 11, 12 and 15 of the frame
that `createPacket` fills for `s`, it returns `Settings` and afterwards `currentSettings`,
which is what `getSettings()` returns, equals `s`, whether or not a settings-changed
callback is registered. -/
theorem settings_round_trip (K : Tables) (hK : K.WF)
    (hndp : K.POWER.Nodup) (hndm : K.MODE.Nodup) (hndt : K.TEMP.Nodup) (hndf : K.FAN.Nodup)
    (hndv : K.VANE.Nodup) (hndw : K.WIDEVANE.Nodup)
    (s : heatpumpSettings) (hs : inTables K s) (packet frame : List Nat)
    (hpl : packet.length = PACKET_LEN) (hframe : createPacket K packet s = some frame)
    (hp : State) (pre payload rest : List Nat) (L c : Nat)
    (hin : hp.serialIn = pre ++ 0xFC :: 0x62 :: 0x01 :: 0x30 :: L :: (payload ++ c :: rest))
    (hpreB : allBytes pre) (hpreN : 0xFC ∉ pre) (hbp : allBytes payload)
    (hlen : payload.length = L) (hL : L + 1 ≤ PACKET_LEN)
    (hchk : c = specChecksum (0xFC :: 0x62 :: 0x01 :: 0x30 :: L :: payload))
    (h0 : payload[0]? = some 0x02)
    (p3 : payload[3]? = frame[8]?) (p4 : payload[4]? = frame[9]?)
    (p5 : payload[5]? = frame[10]?) (p6 : payload[6]? = frame[11]?)
    (p7 : payload[7]? = frame[12]?) (p10 : payload[10]? = frame[15]?) :
    ∃ hp', readPacket K hp = some (PacketType.RCVD_PKT_SETTINGS, hp') ∧
      hp'.currentSettings = s ∧ getSettings hp' = s := by
  obtain ⟨r, kp, km, kt, kf, kv, kw, bp, bm, bt, bf, bv, bw, hr, -, -, -, ⟨-, tp, cp, a8⟩,
    ⟨-, tm, cm, a9⟩, ⟨-, tt, ct, a10⟩, ⟨-, tf, cf, a11⟩, ⟨-, tv, cv, a12⟩, ⟨-, tw, cw, a15⟩,
    -⟩ := createPacket_inTables K hK packet hpl s hs
  have hfr : frame = r := Option.some.inj (hframe.symm.trans hr)
  subst hfr
  rw [a8] at p3
  rw [a9] at p4
  rw [a10] at p5
  rw [a11] at p6
  rw [a12] at p7
  rw [a15] at p10
  obtain ⟨hpR, s', -, -, hs', hres⟩ :=
    readPacket_settings K hK hp pre payload rest L c hin hpreB hpreN hbp hlen hL hchk h0
  have hd : ∀ (j v : Nat), payload[j]? = some v →
      (payload ++ c :: List.replicate (PACKET_LEN - (L + 1)) 0)[j]? = some v := by
    intro j v hj
    rw [List.getElem?_append_left (lt_length_of_getElem? payload j v hj), hj]
  have hdec := decodeSettings_eq K _ s bp bm bt bf bv bw (hd 3 bp p3) (hd 4 bm p4) (hd 5 bt p5)
    (hd 6 bf p6) (hd 7 bv p7) (hd 10 bw p10)
    (lookupByteMapValue_code K.POWER_MAP K.POWER 2 kp bp s.power
      (by have := lt_length_of_getElem? _ _ _ cp; have := hK.power_len; omega)
      hK.power_len hndp cp tp)
    (lookupByteMapValue_code K.MODE_MAP K.MODE 5 km bm s.mode
      (by have := lt_length_of_getElem? _ _ _ cm; have := hK.mode_len; omega)
      hK.mode_len hndm cm tm)
    (lookupByteMapValue_code K.TEMP_MAP K.TEMP 16 kt bt s.temperature
      (by have := lt_length_of_getElem? _ _ _ ct; have := hK.temp_len; omega)
      hK.temp_len hndt ct tt)
    (lookupByteMapValue_code K.FAN_MAP K.FAN 6 kf bf s.fan
      (by have := lt_length_of_getElem? _ _ _ cf; have := hK.fan_len; omega)
      hK.fan_len hndf cf tf)
    (lookupByteMapValue_code K.VANE_MAP K.VANE 7 kv bv s.vane
      (by have := lt_length_of_getElem? _ _ _ cv; have := hK.vane_len; omega)
      hK.vane_len hndv cv tv)
    (lookupByteMapValue_code K.WIDEVANE_MAP K.WIDEVANE 7 kw bw s.wideVane
      (by have := lt_length_of_getElem? _ _ _ cw; have := hK.widevane_len; omega)
      hK.widevane_len hndw cw tw)
  have hss : s' = s := Option.some.inj (hs'.symm.trans hdec)
  subst hss
  exact ⟨_, hres, (storeSettings_fields hpR s').1, (storeSettings_fields hpR s').1⟩

/-- Instance of C10: the end-to-end scenario, with a settings-changed callback
registered. -/
theorem settings_round_trip_witness :
    ∃ hp', readPacket sampleTables
        { construct 0 sampleSettingsResponse with settingsChangedCallback := true } =
          some (PacketType.RCVD_PKT_SETTINGS, hp') ∧
      hp'.currentSettings = sampleSettings ∧ getSettings hp' = sampleSettings :=
  settings_round_trip sampleTables sampleTables_wf (by decide) (by decide) (by decide)
    (by decide) (by decide) (by decide) sampleSettings (by decide) zeroPacket
    [0xfc, 0x41, 0x01, 0x30, 0x10, 0x01, 0x9f, 0x00, 0x01, 0x01, 0x0a, 0x00, 0x00, 0x00,
      0x00, 0x08, 0x00, 0x00, 0x00, 0x00, 0x00, 0xca]
    (by decide) (by decide)
    { construct 0 sampleSettingsResponse with settingsChangedCallback := true } []
    [0x02, 0x00, 0x00, 0x01, 0x01, 0x0a, 0x00, 0x00, 0x00, 0x00, 0x08, 0x00, 0x00, 0x00,
      0x00, 0x00] [] 0x10 0x47 rfl (by decide) (by decide) (by decide) rfl (by decide)
    (by decide) (by decide) (by decide) (by decide) (by decide) (by decide) (by decide)
    (by decide)

theorem delay_fields (ms : Nat) (hp : State) (input : List Nat) :
    (delay ms { hp with serialIn := input }).currentSettings = hp.currentSettings ∧
    (delay ms { hp with serialIn := input }).wantedSettings = hp.wantedSettings ∧
    (delay ms { hp with serialIn := input }).currentRoomTemp = hp.currentRoomTemp ∧
    (delay ms { hp with serialIn := input }).settingsChangedCallback =
      hp.settingsChangedCallback ∧
    (delay ms { hp with serialIn := input }).roomTempChangedCallback =
      hp.roomTempChangedCallback ∧
    (delay ms { hp with serialIn := input }).lastSend = hp.lastSend ∧
    (delay ms { hp with serialIn := input }).infoMode = hp.infoMode ∧
    (delay ms { hp with serialIn := input }).serialOut = hp.serialOut ∧
    changeEvents (delay ms { hp with serialIn := input }) = changeEvents hp :=
  ⟨rfl, rfl, rfl, rfl, rfl, rfl, rfl, rfl, rfl⟩

/-- The effect of `readPacket` on the session state when it parses a settings response
with valid signature and checksum: `decoded` is the snapshot that the payload decodes
to. -/
theorem readPacket_settings_effect (K : Tables) (hK : K.WF) (hp : State)
    (pre payload rest : List Nat) (L c : Nat)
    (hin : hp.serialIn = pre ++ 0xFC :: 0x62 :: 0x01 :: 0x30 :: L :: (payload ++ c :: rest))
    (hpreB : allBytes pre) (hpreN : 0xFC ∉ pre) (hbp : allBytes payload)
    (hlen : payload.length = L) (hL : L + 1 ≤ PACKET_LEN)
    (hchk : c = specChecksum (0xFC :: 0x62 :: 0x01 :: 0x30 :: L :: payload))
    (h0 : payload[0]? = some 0x02) :
    ∃ (hp' : State) (decoded : heatpumpSettings),
      decodeSettings K (payload ++ c :: List.replicate (PACKET_LEN - (L + 1)) 0) =
        some decoded ∧
      readPacket K hp = some (PacketType.RCVD_PKT_SETTINGS, hp') ∧
      hp'.currentSettings = decoded ∧
      hp'.wantedSettings =
        (if operatorNot hp.wantedSettings then decoded else hp.wantedSettings) ∧
      hp'.currentRoomTemp = hp.currentRoomTemp ∧
      changeEvents hp' = changeEvents hp ++
        (if hp.settingsChangedCallback && operatorNe decoded hp.currentSettings then
          [Event.settingsChanged decoded] else []) := by
  obtain ⟨hpR, s, hsame, -, hs, hres⟩ :=
    readPacket_settings K hK hp pre payload rest L c hin hpreB hpreN hbp hlen hL hchk h0
  obtain ⟨r1, r2, r3, r4, -, -, -, -, -, -, r11⟩ := sameUpToReports_fields _ _ hsame
  obtain ⟨d1, d2, d3, d4, -, -, -, -, d9⟩ := delay_fields 100 hp rest
  obtain ⟨s1, s2, s3, s4, -⟩ := storeSettings_fields hpR s
  refine ⟨_, s, hs, hres, s1, ?_, ?_, ?_⟩
  · rw [s2, r2, d2]
  · rw [s3, r3, d3]
  · rw [s4, r11, d9, r4, d4, r1, d1]

/-- C11: settings-changed notification.  With a settings-changed callback registered, a
`readPacket` call that parses a settings response invokes the callback exactly once if
the decoded snapshot differs from the previous `currentSettings` (`operator!=`, the
negation of `operator==`, true exactly when one of the six dimensions differs) and does
not invoke it if all six dimensions match; the callback is invoked when
`currentSettings` already is the decoded snapshot. -/
theorem settings_changed_notification (K : Tables) (hK : K.WF) (hp : State)
    (pre payload rest : List Nat) (L c : Nat)
    (hin : hp.serialIn = pre ++ 0xFC :: 0x62 :: 0x01 :: 0x30 :: L :: (payload ++ c :: rest))
    (hpreB : allBytes pre) (hpreN : 0xFC ∉ pre) (hbp : allBytes payload)
    (hlen : payload.length = L) (hL : L + 1 ≤ PACKET_LEN)
    (hchk : c = specChecksum (0xFC :: 0x62 :: 0x01 :: 0x30 :: L :: payload))
    (h0 : payload[0]? = some 0x02) (hcb : hp.settingsChangedCallback = true) :
    ∃ (hp' : State) (decoded : heatpumpSettings),
      decodeSettings K (payload ++ c :: List.replicate (PACKET_LEN - (L + 1)) 0) =
        some decoded ∧
      readPacket K hp = some (PacketType.RCVD_PKT_SETTINGS, hp') ∧
      hp'.currentSettings = decoded ∧
      (operatorNe decoded hp.currentSettings = true →
        changeEvents hp' = changeEvents hp ++ [Event.settingsChanged hp'.currentSettings]) ∧
      (operatorNe decoded hp.currentSettings = false → changeEvents hp' = changeEvents hp) ∧
      operatorNe decoded hp.currentSettings = (!operatorEq decoded hp.currentSettings) ∧
      (operatorNe decoded hp.currentSettings = true ↔
        (decoded.power ≠ hp.currentSettings.power ∨ decoded.mode ≠ hp.currentSettings.mode ∨
          decoded.temperature ≠ hp.currentSettings.temperature ∨
          decoded.fan ≠ hp.currentSettings.fan ∨ decoded.vane ≠ hp.currentSettings.vane ∨
          decoded.wideVane ≠ hp.currentSettings.wideVane)) := by
  obtain ⟨hp', decoded, hd, hres, hc, -, -, he⟩ :=
    readPacket_settings_effect K hK hp pre payload rest L c hin hpreB hpreN hbp hlen hL hchk h0
  refine ⟨hp', decoded, hd, hres, hc, ?_, ?_, operatorNe_eq_not _ _, ?_⟩
  · intro hne
    rw [he, hcb, hne, hc]
    rfl
  · intro hne
    rw [he, hcb, hne]
    simp
  · simp [operatorNe, or_assoc]

/-- Instance of C11: a fresh object with the callback registered receives the settings
response of the end-to-end scenario, which differs from the unset snapshot; the callback
is invoked once. -/
theorem settings_changed_notification_witness :
    ∃ hp', readPacket sampleTables
        { construct 0 sampleSettingsResponse with settingsChangedCallback := true } =
          some (PacketType.RCVD_PKT_SETTINGS, hp') ∧
      changeEvents hp' = [Event.settingsChanged sampleSettings] := by
  obtain ⟨hp', decoded, hd, hres, hc, h1, -, -, -⟩ :=
    settings_changed_notification sampleTables sampleTables_wf
      { construct 0 sampleSettingsResponse with settingsChangedCallback := true } []
      [0x02, 0x00, 0x00, 0x01, 0x01, 0x0a, 0x00, 0x00, 0x00, 0x00, 0x08, 0x00, 0x00, 0x00,
        0x00, 0x00] [] 0x10 0x47 rfl (by decide) (by decide) (by decide) rfl (by decide)
      (by decide) (by decide) rfl
  have hdec : decoded = sampleSettings := Option.some.inj (hd.symm.trans (by decide))
  subst hdec
  refine ⟨hp', hres, ?_⟩
  rw [h1 (by decide), hc]
  rfl

/-- C12: lazy initialisation of `wantedSettings`.  When `readPacket` parses a settings
response, `wantedSettings` becomes the decoded snapshot if it was empty (`operator!`
true: every one of its six dimensions unset) and is left as it was otherwise; in
particular, when `wantedSettings` still is the unset snapshot of construction,
afterwards `wantedSettings == currentSettings`. -/
theorem wanted_lazy_init (K : Tables) (hK : K.WF) (hp : State)
    (pre payload rest : List Nat) (L c : Nat)
    (hin : hp.serialIn = pre ++ 0xFC :: 0x62 :: 0x01 :: 0x30 :: L :: (payload ++ c :: rest))
    (hpreB : allBytes pre) (hpreN : 0xFC ∉ pre) (hbp : allBytes payload)
    (hlen : payload.length = L) (hL : L + 1 ≤ PACKET_LEN)
    (hchk : c = specChecksum (0xFC :: 0x62 :: 0x01 :: 0x30 :: L :: payload))
    (h0 : payload[0]? = some 0x02) :
    ∃ (hp' : State) (decoded : heatpumpSettings),
      decodeSettings K (payload ++ c :: List.replicate (PACKET_LEN - (L + 1)) 0) =
        some decoded ∧
      readPacket K hp = some (PacketType.RCVD_PKT_SETTINGS, hp') ∧
      hp'.currentSettings = decoded ∧
      (operatorNot hp.wantedSettings = true → hp'.wantedSettings = decoded) ∧
      (operatorNot hp.wantedSettings = false → hp'.wantedSettings = hp.wantedSettings) ∧
      (operatorNot hp.wantedSettings = true ↔
        (tokenIsSet hp.wantedSettings.power = false ∧
          tokenIsSet hp.wantedSettings.mode = false ∧ hp.wantedSettings.temperature = 0 ∧
          tokenIsSet hp.wantedSettings.fan = false ∧ tokenIsSet hp.wantedSettings.vane = false ∧
          tokenIsSet hp.wantedSettings.wideVane = false)) ∧
      (hp.wantedSettings = unsetSettings →
        operatorEq hp'.wantedSettings hp'.currentSettings = true) := by
  obtain ⟨hp', decoded, hd, hres, hc, hw, -, -⟩ :=
    readPacket_settings_effect K hK hp pre payload rest L c hin hpreB hpreN hbp hlen hL hchk h0
  refine ⟨hp', decoded, hd, hres, hc, ?_, ?_, ?_, ?_⟩
  · intro h
    rw [hw, h]
    rfl
  · intro h
    rw [hw, h]
    rfl
  · simp [operatorNot, and_assoc]
  · intro h
    rw [hw, h, hc]
    exact (operatorEq_iff _ _).mpr rfl

/-- Instance of C12: a fresh object, on which no setter was called, receives the
settings response of the end-to-end scenario. -/
theorem wanted_lazy_init_witness :
    ∃ hp', readPacket sampleTables (construct 0 sampleSettingsResponse) =
        some (PacketType.RCVD_PKT_SETTINGS, hp') ∧
      operatorEq hp'.wantedSettings hp'.currentSettings = true := by
  obtain ⟨hp', decoded, -, hres, -, -, -, -, h⟩ :=
    wanted_lazy_init sampleTables sampleTables_wf (construct 0 sampleSettingsResponse) []
      [0x02, 0x00, 0x00, 0x01, 0x01, 0x0a, 0x00, 0x00, 0x00, 0x00, 0x08, 0x00, 0x00, 0x00,
        0x00, 0x00] [] 0x10 0x47 rfl (by decide) (by decide) (by decide) rfl (by decide)
      (by decide) (by decide)
  exact ⟨hp', hres, h rfl⟩

/-! ## Reading: frame conditions -/

theorem classify_cases (K : Tables) (hp : State) (header data : List Nat) (dataLength : Nat)
    (ty : PacketType) (hp' : State)
    (h : classify K hp header data dataLength = some (ty, hp')) :
    ∃ hpR, sameUpToReports hp hpR ∧
      ((ty = PacketType.RCVD_PKT_SETTINGS ∧ ∃ s, hp' = storeSettings hpR s) ∨
        (ty = PacketType.RCVD_PKT_ROOM_TEMP ∧ ∃ t, hp' = storeRoomTemp hpR t) ∨
        ((ty = PacketType.RCVD_PKT_UPDATE_SUCCESS ∨ ty = PacketType.RCVD_PKT_FAIL) ∧
          hp' = hpR)) := by
  unfold classify at h
  split at h
  · exact Option.noConfusion h
  · rename_i hpR hR
    refine ⟨hpR, (reportReceived_cases _ _ _ _ _ hR).1, ?_⟩
    split at h
    · split_ifs at h
      · split at h
        · exact Option.noConfusion h
        · simp only [Option.some.injEq, Prod.mk.injEq] at h
          exact Or.inl ⟨h.1.symm, _, h.2.symm⟩
      · split at h
        · exact Option.noConfusion h
        · simp only [Option.some.injEq, Prod.mk.injEq] at h
          exact Or.inr (Or.inl ⟨h.1.symm, _, h.2.symm⟩)
      · simp only [Option.some.injEq, Prod.mk.injEq] at h
        exact Or.inr (Or.inr ⟨Or.inl h.1.symm, h.2.symm⟩)
      · simp only [Option.some.injEq, Prod.mk.injEq] at h
        exact Or.inr (Or.inr ⟨Or.inr h.1.symm, h.2.symm⟩)
    · exact Option.noConfusion h

theorem readFrame_cases (K : Tables) (hp : State) (header data : List Nat)
    (ty : PacketType) (hp' : State) (h : readFrame K hp header data = some (ty, hp')) :
    ∃ input hpR, sameUpToReports { hp with serialIn := input } hpR ∧
      ((ty = PacketType.RCVD_PKT_SETTINGS ∧ ∃ s, hp' = storeSettings hpR s) ∨
        (ty = PacketType.RCVD_PKT_ROOM_TEMP ∧ ∃ t, hp' = storeRoomTemp hpR t) ∨
        ((ty = PacketType.RCVD_PKT_UPDATE_SUCCESS ∨ ty = PacketType.RCVD_PKT_FAIL) ∧
          hp' = hpR)) := by
  unfold readFrame at h
  split at h
  · exact Option.noConfusion h
  · simp only [] at h
    split at h
    · split_ifs at h
      · split at h
        · exact Option.noConfusion h
        · split at h
          · exact Option.noConfusion h
          · split at h
            · exact Option.noConfusion h
            · split at h
              · exact Option.noConfusion h
              · split at h
                · exact Option.noConfusion h
                · split_ifs at h
                  · obtain ⟨hpR, hs, hc⟩ := classify_cases _ _ _ _ _ _ _ h
                    exact ⟨_, hpR, hs, hc⟩
                  · simp only [Option.some.injEq, Prod.mk.injEq] at h
                    exact ⟨_, _, sameUpToReports_refl _,
                      Or.inr (Or.inr ⟨Or.inr h.1.symm, h.2.symm⟩)⟩
      · simp only [Option.some.injEq, Prod.mk.injEq] at h
        exact ⟨_, _, sameUpToReports_refl _, Or.inr (Or.inr ⟨Or.inr h.1.symm, h.2.symm⟩)⟩
    · exact Option.noConfusion h

/-- The shape of every result of `readPacket`: `hpR` is the object after the input is
consumed and the frame, if any, is reported to the raw-packet observer. -/
theorem readPacket_cases (K : Tables) (hp : State) (ty : PacketType) (hp' : State)
    (h : readPacket K hp = some (ty, hp')) :
    ∃ input ms hpR, sameUpToReports { hp with serialIn := input, millis := ms } hpR ∧
      ((ty = PacketType.RCVD_PKT_SETTINGS ∧ ∃ s, hp' = storeSettings hpR s) ∨
        (ty = PacketType.RCVD_PKT_ROOM_TEMP ∧ ∃ t, hp' = storeRoomTemp hpR t) ∨
        ((ty = PacketType.RCVD_PKT_UPDATE_SUCCESS ∨ ty = PacketType.RCVD_PKT_FAIL) ∧
          hp' = hpR)) := by
  unfold readPacket at h
  split at h
  · split at h
    · exact Option.noConfusion h
    · split at h
      · obtain ⟨input, hpR, hs, hc⟩ := readFrame_cases _ _ _ _ _ _ h
        exact ⟨input, _, hpR, hs, hc⟩
      · simp only [Option.some.injEq, Prod.mk.injEq] at h
        exact ⟨_, hp.millis, _, sameUpToReports_refl _,
          Or.inr (Or.inr ⟨Or.inr h.1.symm, h.2.symm⟩)⟩
  · simp only [Option.some.injEq, Prod.mk.injEq] at h
    exact ⟨hp.serialIn, hp.millis, _, sameUpToReports_refl _,
      Or.inr (Or.inr ⟨Or.inr h.1.symm, h.2.symm⟩)⟩

theorem setPowerSetting_frame (K : Tables) (hp hp' : State) (s : String)
    (h : setPowerSetting K hp s = some hp') :
    hp'.currentSettings = hp.currentSettings ∧ hp'.currentRoomTemp = hp.currentRoomTemp := by
  unfold setPowerSetting at h
  split at h
  · exact Option.noConfusion h
  · have := Option.some.inj h
    subst this
    exact ⟨rfl, rfl⟩

theorem setModeSetting_frame (K : Tables) (hp hp' : State) (s : String)
    (h : setModeSetting K hp s = some hp') :
    hp'.currentSettings = hp.currentSettings ∧ hp'.currentRoomTemp = hp.currentRoomTemp := by
  unfold setModeSetting at h
  split at h
  · exact Option.noConfusion h
  · have := Option.some.inj h
    subst this
    exact ⟨rfl, rfl⟩

theorem setTemperature_frame (K : Tables) (hp hp' : State) (s : Int)
    (h : setTemperature K hp s = some hp') :
    hp'.currentSettings = hp.currentSettings ∧ hp'.currentRoomTemp = hp.currentRoomTemp := by
  unfold setTemperature at h
  split at h
  · exact Option.noConfusion h
  · have := Option.some.inj h
    subst this
    exact ⟨rfl, rfl⟩

theorem setFanSpeed_frame (K : Tables) (hp hp' : State) (s : String)
    (h : setFanSpeed K hp s = some hp') :
    hp'.currentSettings = hp.currentSettings ∧ hp'.currentRoomTemp = hp.currentRoomTemp := by
  unfold setFanSpeed at h
  split at h
  · exact Option.noConfusion h
  · have := Option.some.inj h
    subst this
    exact ⟨rfl, rfl⟩

theorem setVaneSetting_frame (K : Tables) (hp hp' : State) (s : String)
    (h : setVaneSetting K hp s = some hp') :
    hp'.currentSettings = hp.currentSettings ∧ hp'.currentRoomTemp = hp.currentRoomTemp := by
  unfold setVaneSetting at h
  split at h
  · exact Option.noConfusion h
  · have := Option.some.inj h
    subst this
    exact ⟨rfl, rfl⟩

theorem setWideVaneSetting_frame (K : Tables) (hp hp' : State) (s : String)
    (h : setWideVaneSetting K hp s = some hp') :
    hp'.currentSettings = hp.currentSettings ∧ hp'.currentRoomTemp = hp.currentRoomTemp := by
  unfold setWideVaneSetting at h
  split at h
  · exact Option.noConfusion h
  · have := Option.some.inj h
    subst this
    exact ⟨rfl, rfl⟩

theorem setSettings_frame (K : Tables) (hp hp' : State) (s : heatpumpSettings)
    (h : setSettings K hp s = some hp') :
    hp'.currentSettings = hp.currentSettings ∧ hp'.currentRoomTemp = hp.currentRoomTemp := by
  unfold setSettings at h
  split at h
  · exact Option.noConfusion h
  · rename_i hp1 e1
    split at h
    · exact Option.noConfusion h
    · rename_i hp2 e2
      split at h
      · exact Option.noConfusion h
      · rename_i hp3 e3
        split at h
        · exact Option.noConfusion h
        · rename_i hp4 e4
          split at h
          · exact Option.noConfusion h
          · rename_i hp5 e5
            obtain ⟨a1, b1⟩ := setPowerSetting_frame K _ _ _ e1
            obtain ⟨a2, b2⟩ := setModeSetting_frame K _ _ _ e2
            obtain ⟨a3, b3⟩ := setTemperature_frame K _ _ _ e3
            obtain ⟨a4, b4⟩ := setFanSpeed_frame K _ _ _ e4
            obtain ⟨a5, b5⟩ := setVaneSetting_frame K _ _ _ e5
            obtain ⟨a6, b6⟩ := setWideVaneSetting_frame K _ _ _ h
            exact ⟨by rw [a6, a5, a4, a3, a2, a1], by rw [b6, b5, b4, b3, b2, b1]⟩

/-- C18: frame of the session state.  Every setter, and `setSettings`, leaves
`currentSettings` and the room temperature unchanged; every `readPacket` call that does
not return `Settings` leaves `currentSettings` and `wantedSettings` unchanged; a call that
returns `RoomTemp` changes, of the three, only the room temperature; a call that returns
`UpdateAck` or `Fail` changes none of the three and invokes neither change callback. -/
theorem session_frame (K : Tables) (hp : State) :
    (∀ s hp', setPowerSetting K hp s = some hp' →
      hp'.currentSettings = hp.currentSettings ∧ hp'.currentRoomTemp = hp.currentRoomTemp) ∧
    (∀ s hp', setModeSetting K hp s = some hp' →
      hp'.currentSettings = hp.currentSettings ∧ hp'.currentRoomTemp = hp.currentRoomTemp) ∧
    (∀ s hp', setTemperature K hp s = some hp' →
      hp'.currentSettings = hp.currentSettings ∧ hp'.currentRoomTemp = hp.currentRoomTemp) ∧
    (∀ s hp', setFanSpeed K hp s = some hp' →
      hp'.currentSettings = hp.currentSettings ∧ hp'.currentRoomTemp = hp.currentRoomTemp) ∧
    (∀ s hp', setVaneSetting K hp s = some hp' →
      hp'.currentSettings = hp.currentSettings ∧ hp'.currentRoomTemp = hp.currentRoomTemp) ∧
    (∀ s hp', setWideVaneSetting K hp s = some hp' →
      hp'.currentSettings = hp.currentSettings ∧ hp'.currentRoomTemp = hp.currentRoomTemp) ∧
    (∀ s hp', setSettings K hp s = some hp' →
      hp'.currentSettings = hp.currentSettings ∧ hp'.currentRoomTemp = hp.currentRoomTemp) ∧
    (∀ ty hp', readPacket K hp = some (ty, hp') →
      (ty ≠ PacketType.RCVD_PKT_SETTINGS →
        hp'.currentSettings = hp.currentSettings ∧ hp'.wantedSettings = hp.wantedSettings) ∧
      (ty = PacketType.RCVD_PKT_UPDATE_SUCCESS ∨ ty = PacketType.RCVD_PKT_FAIL →
        hp'.currentRoomTemp = hp.currentRoomTemp ∧ changeEvents hp' = changeEvents hp)) := by
  refine ⟨fun s hp' => setPowerSetting_frame K hp hp' s, fun s hp' => setModeSetting_frame K hp hp' s,
    fun s hp' => setTemperature_frame K hp hp' s, fun s hp' => setFanSpeed_frame K hp hp' s,
    fun s hp' => setVaneSetting_frame K hp hp' s,
    fun s hp' => setWideVaneSetting_frame K hp hp' s,
    fun s hp' => setSettings_frame K hp hp' s, ?_⟩
  intro ty hp' h
  obtain ⟨input, ms, hpR, hsame, hc⟩ := readPacket_cases K hp ty hp' h
  obtain ⟨r1, r2, r3, -, -, -, -, -, -, -, r11⟩ := sameUpToReports_fields _ _ hsame
  have e1 : hpR.currentSettings = hp.currentSettings := r1
  have e2 : hpR.wantedSettings = hp.wantedSettings := r2
  have e3 : hpR.currentRoomTemp = hp.currentRoomTemp := r3
  have e4 : changeEvents hpR = changeEvents hp := r11
  rcases hc with ⟨rfl, -⟩ | ⟨rfl, t, rfl⟩ | ⟨hty, rfl⟩
  · exact ⟨fun hne => absurd rfl hne, fun hor => by rcases hor with h | h <;> cases h⟩
  · obtain ⟨s1, s2, -⟩ := storeRoomTemp_fields hpR t
    exact ⟨fun _ => ⟨by rw [s1, e1], by rw [s2, e2]⟩,
      fun hor => by rcases hor with h | h <;> cases h⟩
  · exact ⟨fun _ => ⟨e1, e2⟩, fun _ => ⟨e3, e4⟩⟩

/-- The room temperature response is classified `RoomTemp`. -/
theorem readPacket_sampleRoomTemp (hp : State) (h : hp.serialIn = sampleRoomTempResponse) :
    ∃ hp', readPacket sampleTables hp = some (PacketType.RCVD_PKT_ROOM_TEMP, hp') := by
  obtain ⟨hpR, s, t, d0, d3, -, -, e0, -, -, -, hres⟩ :=
    readPacket_result sampleTables sampleTables_wf hp []
      [0x03, 0x00, 0x00, 0x0b, 0x00, 0x00, 0x00, 0x00, 0x00, 0x00, 0x00, 0x00, 0x00, 0x00,
        0x00, 0x00] [] 0x62 0x01 0x30 0x10 0x4f h (by decide) (by decide) (by decide)
      (by decide) (by decide) (by decide) (by decide) rfl (by decide)
  simp only [List.cons_append, List.getElem?_cons_zero, Option.some.injEq] at e0
  subst e0
  exact ⟨_, hres⟩

/-- Instance of C18: a room temperature response leaves `currentSettings` and
`wantedSettings` as they were. -/
theorem session_frame_witness :
    ∃ hp', readPacket sampleTables (construct 0 sampleRoomTempResponse) =
        some (PacketType.RCVD_PKT_ROOM_TEMP, hp') ∧
      hp'.currentSettings = unsetSettings ∧ hp'.wantedSettings = unsetSettings := by
  obtain ⟨hp', h⟩ := readPacket_sampleRoomTemp (construct 0 sampleRoomTempResponse) rfl
  exact ⟨hp', h,
    ((session_frame sampleTables (construct 0 sampleRoomTempResponse)).2.2.2.2.2.2.2 _ hp' h).1
      (by decide)⟩

/-! ## Reading: buffer bounds -/

/-- C20: buffer bounds while parsing do not hold up to `L = 32`.  The data buffer is
`byte data[PACKET_LEN]`, 22 bytes, although the comment at the packet buffer counts on
`data[32]`: for a response with the info-response signature that announces `L = 22`
payload bytes, the 22 payload bytes fill `data[0..21]` and the store of the trailing
checksum byte, `data[dataLength]`, has index 22, outside the buffer; the checked
embedding stops there.  (For `L <= 21` every index is in range, see
`readPacket_result`.) -/
theorem readPacket_long_payload :
    sampleLongResponse.length = 5 + 22 + 1 ∧ sampleLongResponse[4]? = some 22 ∧
    readLoop 22 0 (List.replicate PACKET_LEN 0) (sampleLongResponse.drop 5) =
      some (sampleLongResponse.drop 5 |>.take 22, [0x41]) ∧
    writeAt (sampleLongResponse.drop 5 |>.take 22) 22 0x41 = none ∧
    readPacket sampleTables (construct 0 sampleLongResponse) = none := by
  refine ⟨by decide, by decide, by decide, by decide, by decide⟩

/-! ## Parsing the frames of the builders -/

theorem frame22_split (r : List Nat) (h : r.length = 22) (c : Nat) (hc : r[21]? = some c) :
    r = r.take 5 ++ ((r.drop 5).take 16 ++ [c]) ∧
    r.take 21 = r.take 5 ++ (r.drop 5).take 16 ∧ ((r.drop 5).take 16).length = 16 ∧
    ((r.drop 5).take 16)[0]? = r[5]? := by
  have h21 : 21 < r.length := by omega
  have hd : r.drop 21 = [c] := by
    rw [List.drop_eq_getElem_cons h21, List.drop_eq_nil_of_le (by omega)]
    rw [List.getElem?_eq_getElem h21] at hc
    rw [Option.some.inj hc]
  have ht : r.take 21 = r.take 5 ++ (r.drop 5).take 16 := List.take_add r 5 16
  refine ⟨?_, ht, by simp [h], ?_⟩
  · rw [← List.append_assoc, ← ht, ← hd, List.take_append_drop]
  · rw [List.getElem?_take_of_lt (by omega), List.getElem?_drop]

theorem allBytes_of_getElem? (r : List Nat)
    (h : ∀ (j v : Nat), r[j]? = some v → v < 256) : allBytes r := by
  intro b hb
  obtain ⟨j, hj⟩ := List.mem_iff_getElem?.mp hb
  exact h j b hj

/-- The bytes of the update frame are bytes when those of the caller's buffer are. -/
theorem createPacket_bytes (K : Tables) (hK : K.WF) (packet : List Nat)
    (hlen : packet.length = PACKET_LEN) (hpb : allBytes packet) (s : heatpumpSettings)
    (hs : inTables K s) (r : List Nat) (hr : createPacket K packet s = some r) :
    allBytes r := by
  obtain ⟨r', kp, km, kt, kf, kv, kw, bp, bm, bt, bf, bv, bw, hr', hl, a1, a2,
    ⟨-, -, cp, a8⟩, ⟨-, -, cm, a9⟩, ⟨-, -, ct, a10⟩, ⟨-, -, cf, a11⟩, ⟨-, -, cv, a12⟩,
    ⟨-, -, cw, a15⟩, a13, a14, a16, a17, a18, a19, a20, a21⟩ :=
    createPacket_inTables K hK packet hlen s hs
  have hrr : r = r' := Option.some.inj (hr.symm.trans hr')
  subst hrr
  simp only [PACKET_LEN] at hl
  have hH8 := hK.header_le
  apply allBytes_of_getElem?
  intro j v hj
  have hj22 : j < 22 := by have := lt_length_of_getElem? r j v hj; omega
  by_cases hj8 : j < 8
  · by_cases hjH : j < K.HEADER_LEN
    · rw [a1 j hjH] at hj
      exact hK.header_bytes v (List.getElem?_mem hj)
    · rw [a2 j (by omega) hj8] at hj
      exact hpb v (List.getElem?_mem hj)
  · have hcases : j = 8 ∨ j = 9 ∨ j = 10 ∨ j = 11 ∨ j = 12 ∨ j = 13 ∨ j = 14 ∨ j = 15 ∨
        j = 16 ∨ j = 17 ∨ j = 18 ∨ j = 19 ∨ j = 20 ∨ j = 21 := by omega
    rcases hcases with rfl | rfl | rfl | rfl | rfl | rfl | rfl | rfl | rfl | rfl | rfl | rfl |
      rfl | rfl
    · rw [a8] at hj; rw [← Option.some.inj hj]
      exact hK.power_bytes bp (List.getElem?_mem cp)
    · rw [a9] at hj; rw [← Option.some.inj hj]
      exact hK.mode_bytes bm (List.getElem?_mem cm)
    · rw [a10] at hj; rw [← Option.some.inj hj]
      exact hK.temp_bytes bt (List.getElem?_mem ct)
    · rw [a11] at hj; rw [← Option.some.inj hj]
      exact hK.fan_bytes bf (List.getElem?_mem cf)
    · rw [a12] at hj; rw [← Option.some.inj hj]
      exact hK.vane_bytes bv (List.getElem?_mem cv)
    · rw [a13] at hj; rw [← Option.some.inj hj]; decide
    · rw [a14] at hj; rw [← Option.some.inj hj]; decide
    · rw [a15] at hj; rw [← Option.some.inj hj]
      exact hK.widevane_bytes bw (List.getElem?_mem cw)
    · rw [a16] at hj; rw [← Option.some.inj hj]; decide
    · rw [a17] at hj; rw [← Option.some.inj hj]; decide
    · rw [a18] at hj; rw [← Option.some.inj hj]; decide
    · rw [a19] at hj; rw [← Option.some.inj hj]; decide
    · rw [a20] at hj; rw [← Option.some.inj hj]; decide
    · rw [a21] at hj; rw [← Option.some.inj hj]
      exact specChecksum_lt _

/-- The classification of a 22-byte frame with the header `FC t 01 30 10` and a valid
checksum in its last byte. -/
theorem readPacket_frame22 (K : Tables) (hK : K.WF) (hp : State) (r : List Nat) (t : Nat)
    (hl : r.length = 22) (hb : allBytes r) (hh : r.take 5 = [0xFC, t, 0x01, 0x30, 0x10])
    (hc : r[21]? = some (specChecksum (r.take 21))) (hin : hp.serialIn = r) :
    ∃ ty hp', readPacket K hp = some (ty, hp') ∧
      (ty ≠ PacketType.RCVD_PKT_FAIL ↔
        (t = 0x61 ∨ (t = 0x62 ∧ (r[5]? = some 0x02 ∨ r[5]? = some 0x03)))) := by
  obtain ⟨e1, e2, e3, e4⟩ := frame22_split r hl _ hc
  have hpay : allBytes ((r.drop 5).take 16) :=
    fun b hbm => hb b (List.mem_of_mem_drop (List.mem_of_mem_take hbm))
  have ht : t < 256 := by
    apply hb
    have : t ∈ r.take 5 := by rw [hh]; simp
    exact List.mem_of_mem_take this
  rw [hh] at e1 e2
  obtain ⟨ty, hp', hres, -, -, -, hF⟩ :=
    readPacket_fourway K hK hp [] ((r.drop 5).take 16) [] t 0x01 0x30 0x10
      (specChecksum (r.take 21)) (by rw [hin]; exact e1) (by decide) (by decide) ht (by decide)
      (by decide) (by decide) (specChecksum_lt _) hpay e3 (by decide)
  have hchk : specChecksum (r.take 21) =
      specChecksum (0xFC :: t :: 0x01 :: 0x30 :: 0x10 :: (r.drop 5).take 16) := by
    rw [e2]; rfl
  refine ⟨ty, hp', hres, ?_⟩
  rw [e4] at hF
  rw [Ne, hF]
  constructor
  · intro h
    by_contra hn
    apply h
    right
    constructor
    · intro h61
      exact hn (Or.inl h61)
    · intro h62
      exact hn (Or.inr h62)
  · intro h hor
    rcases hor with hor | ⟨hn61, hn62⟩
    · exact hor ⟨rfl, rfl, hchk⟩
    · rcases h with h | h
      · exact hn61 h
      · exact hn62 h

theorem createInfoPacket_frame (K : Tables) (hK : K.WF) (hp : State) (packet : List Nat)
    (hlen : packet.length = PACKET_LEN) (packetType : Nat)
    (hpt : packetType < K.INFOMODE.length) :
    ∃ b hp', b ∈ K.INFOMODE ∧ createInfoPacket K hp packet packetType =
      some (K.INFOHEADER ++ b :: List.replicate 15 0 ++
        [specChecksum (K.INFOHEADER ++ b :: List.replicate 15 0)], hp') := by
  by_cases hne : packetType = 0
  · subst hne
    have h2 := hK.infomode_len
    have hi : (if hp.infoMode then 1 else 0) < K.INFOMODE.length := by
      cases hp.infoMode <;> simp <;> omega
    exact ⟨_, _, List.getElem_mem hi, createInfoPacket_roundRobin K hK hp packet hlen _
      (List.getElem?_eq_getElem hi)⟩
  · exact ⟨_, _, List.getElem_mem hpt, createInfoPacket_explicit K hK hp packet hlen packetType
      _ hne (List.getElem?_eq_getElem hpt)⟩

/-- C4, as the code has it: `readPacket` accepts the frames of the builders only when
they carry a response type byte.  For headers of the form `FC t 01 30 10` (start byte,
type byte, signature, payload length 16), `readPacket` on the 22 bytes that `createPacket`
fills for a snapshot in the tables, or that `createInfoPacket` fills for a request kind,
finds the signature and the checksum valid and returns; the result is other than `Fail`
if and only if the type byte is `0x61`, or is `0x62` with byte 5 of the frame `0x02` or
`0x03`. -/
theorem builders_frames_classified (K : Tables) (hK : K.WF) (t u : Nat)
    (hH : K.HEADER.take 5 = [0xFC, t, 0x01, 0x30, 0x10])
    (hI : K.INFOHEADER = [0xFC, u, 0x01, 0x30, 0x10])
    (packet : List Nat) (hpl : packet.length = PACKET_LEN) (hpb : allBytes packet)
    (hp : State) :
    (∀ s r, inTables K s → createPacket K packet s = some r →
      ∃ ty hp', readPacket K { hp with serialIn := r } = some (ty, hp') ∧
        (ty ≠ PacketType.RCVD_PKT_FAIL ↔
          (t = 0x61 ∨ (t = 0x62 ∧ (r[5]? = some 0x02 ∨ r[5]? = some 0x03))))) ∧
    (∀ (hq : State) (packetType : Nat) r hq', packetType < K.INFOMODE.length →
      createInfoPacket K hq packet packetType = some (r, hq') →
      ∃ ty hp', readPacket K { hp with serialIn := r } = some (ty, hp') ∧
        (ty ≠ PacketType.RCVD_PKT_FAIL ↔
          (u = 0x61 ∨ (u = 0x62 ∧ (r[5]? = some 0x02 ∨ r[5]? = some 0x03))))) := by
  refine ⟨?_, ?_⟩
  · intro s r hs hr
    have hb := createPacket_bytes K hK packet hpl hpb s hs r hr
    obtain ⟨r', kp, km, kt, kf, kv, kw, bp, bm, bt, bf, bv, bw, hr', hl, a1, -, -, -, -, -, -,
      -, -, -, -, -, -, -, -, a21⟩ := createPacket_inTables K hK packet hpl s hs
    have hrr : r = r' := Option.some.inj (hr.symm.trans hr')
    subst hrr
    simp only [PACKET_LEN] at hl
    have hH5 : 5 ≤ K.HEADER_LEN := by
      have := congrArg List.length hH
      simp only [List.length_take, List.length_cons, List.length_nil] at this
      have := hK.header_len
      omega
    have hh : r.take 5 = [0xFC, t, 0x01, 0x30, 0x10] := by
      rw [← hH]
      apply List.ext_getElem?
      intro j
      by_cases hj : j < 5
      · rw [List.getElem?_take_of_lt hj, List.getElem?_take_of_lt hj, a1 j (by omega)]
      · rw [List.getElem?_eq_none (by simp only [List.length_take]; omega),
          List.getElem?_eq_none (by simp only [List.length_take]; omega)]
    exact readPacket_frame22 K hK _ r t hl hb hh a21 rfl
  · intro hq packetType r hq' hpt hr
    obtain ⟨b, hq2, hbm, he⟩ := createInfoPacket_frame K hK hq packet hpl packetType hpt
    have hrr := Prod.mk.inj (Option.some.inj (hr.symm.trans he))
    obtain ⟨f1, f2, f3⟩ := frame_checksum_last (K.INFOHEADER ++ b :: List.replicate 15 0)
      (specChecksum (K.INFOHEADER ++ b :: List.replicate 15 0)) (infoFrame_length K hK b)
    have hb : allBytes r := by
      rw [hrr.1]
      intro x hx
      simp only [List.mem_append, List.mem_cons, List.mem_singleton, List.not_mem_nil,
        or_false] at hx
      rcases hx with (hx | hx | hx) | hx
      · exact hK.infoheader_bytes x hx
      · rw [hx]; exact hK.infomode_bytes b hbm
      · rw [(List.mem_replicate.mp hx).2]; decide
      · rw [hx]; exact specChecksum_lt _
    have hh : r.take 5 = [0xFC, u, 0x01, 0x30, 0x10] := by
      rw [hrr.1, List.append_assoc, List.take_left' (by rw [hI]; rfl), hI]
    exact readPacket_frame22 K hK _ r u (by rw [hrr.1]; exact f1) hb hh
      (by rw [hrr.1, f2, f3]) rfl

/-- Instance of C4 as amended, and its failure as stated: the update frame of the
end-to-end snapshot and the info frame for the room temperature kind carry the request
type bytes `0x41` and `0x42`; `readPacket` returns `Fail` on both. -/
theorem builders_frames_classified_witness :
    (∃ r ty hp', createPacket sampleTables zeroPacket sampleSettings = some r ∧
      readPacket sampleTables { construct 0 [] with serialIn := r } = some (ty, hp') ∧
      ty = PacketType.RCVD_PKT_FAIL) ∧
    (∃ r hq' ty hp', createInfoPacket sampleTables (construct 0 []) zeroPacket
        sampleTables.RQST_PKT_ROOM_TEMP = some (r, hq') ∧
      readPacket sampleTables { construct 0 [] with serialIn := r } = some (ty, hp') ∧
      ty = PacketType.RCVD_PKT_FAIL) := by
  have h := builders_frames_classified sampleTables sampleTables_wf 0x41 0x42 rfl rfl
    zeroPacket (by decide) (by decide) (construct 0 [])
  refine ⟨?_, ?_⟩
  · obtain ⟨ty, hp', hres, hiff⟩ := h.1 sampleSettings
      [0xfc, 0x41, 0x01, 0x30, 0x10, 0x01, 0x9f, 0x00, 0x01, 0x01, 0x0a, 0x00, 0x00, 0x00,
        0x00, 0x08, 0x00, 0x00, 0x00, 0x00, 0x00, 0xca] (by decide) (by decide)
    refine ⟨_, ty, hp', by decide, hres, ?_⟩
    by_contra hne
    have := hiff.mp hne
    omega
  · obtain ⟨ty, hp', hres, hiff⟩ := h.2 (construct 0 []) sampleTables.RQST_PKT_ROOM_TEMP
      [0xfc, 0x42, 0x01, 0x30, 0x10, 0x03, 0x00, 0x00, 0x00, 0x00, 0x00, 0x00, 0x00, 0x00,
        0x00, 0x00, 0x00, 0x00, 0x00, 0x00, 0x00, 0x7a] (construct 0 []) (by decide)
      (by decide)
    refine ⟨_, construct 0 [], ty, hp', by decide, hres, ?_⟩
    by_contra hne
    have := hiff.mp hne
    omega

/-- C4 fails as stated: the snapshot of the end-to-end scenario has its six tokens in
the tables, and `readPacket`, fed the 22 bytes that `createPacket` fills for it, returns
`Fail`, because the frame carries the request type byte `0x41`. -/
theorem createPacket_frame_rejected :
    inTables sampleTables sampleSettings ∧
    createPacket sampleTables zeroPacket sampleSettings =
      some [0xfc, 0x41, 0x01, 0x30, 0x10, 0x01, 0x9f, 0x00, 0x01, 0x01, 0x0a, 0x00, 0x00, 0x00,
        0x00, 0x08, 0x00, 0x00, 0x00, 0x00, 0x00, 0xca] ∧
    readPacket sampleTables (construct 0
      [0xfc, 0x41, 0x01, 0x30, 0x10, 0x01, 0x9f, 0x00, 0x01, 0x01, 0x0a, 0x00, 0x00, 0x00,
        0x00, 0x08, 0x00, 0x00, 0x00, 0x00, 0x00, 0xca]) =
      some (PacketType.RCVD_PKT_FAIL, delay 100 (construct 0 [])) := by
  refine ⟨by decide, by decide, by decide⟩

/-! ## Reading: the start-byte scan -/

theorem scanStart_absent_rest :
    ∀ (l : List Nat) (h0 : Nat), (∀ b ∈ l, toByte (b : Int) ≠ 0xFC) →
      (scanStart h0 l).2.2 = [] := by
  intro l
  induction l with
  | nil => intro h0 _; rfl
  | cons b l ih =>
    intro h0 hl
    rw [scanStart, if_neg (hl b (List.mem_cons_self _ _))]
    exact ih _ (fun x hx => hl x (List.mem_cons_of_mem _ hx))

/-- C13: start-byte scan.  For every byte sequence `p` that contains no `0xFC` and every
input that begins with `0xFC`, `readPacket` on `p` followed by that input has the same
outcome (the classification and the whole object afterwards, so also `currentSettings`,
`wantedSettings` and the room temperature) as on the input alone; and on every non-empty
input that contains no `0xFC` at all `readPacket` returns `Fail`. -/
theorem readPacket_scan (K : Tables) (hp : State) (p f : List Nat) (hpB : allBytes p)
    (hpN : 0xFC ∉ p) :
    readPacket K { hp with serialIn := p ++ 0xFC :: f } =
      readPacket K { hp with serialIn := 0xFC :: f } ∧
    (p ≠ [] → readPacket K { hp with serialIn := p } =
      some (PacketType.RCVD_PKT_FAIL, { hp with serialIn := [] })) := by
  have hne := toByte_ne_start p hpB hpN
  refine ⟨?_, ?_⟩
  · have h1 := scanStart_found p f hne 0
    have h2 := scanStart_found [] f (by simp) 0
    simp only [List.nil_append] at h2
    unfold readPacket
    simp only [h1, h2, List.length_append, List.length_cons]
    rw [if_pos (by omega), if_pos (by omega)]
  · intro hp0
    have hfound := scanStart_absent p hne 0
    have hpos : 0 < p.length := List.length_pos.mpr hp0
    unfold readPacket
    simp only [hfound, scanStart_absent_rest p 0 hne, gt_iff_lt, hpos, if_true,
      Bool.false_eq_true, if_false]
    rw [writeAt_eq _ 0 _ (by simp [INFOHEADER_LEN])]

/-- Instance of C13: two stray bytes before the settings response of the end-to-end
scenario. -/
theorem readPacket_scan_witness :
    readPacket sampleTables
        { construct 0 [] with serialIn := [0x00, 0x7f] ++ 0xFC :: sampleSettingsResponse.tail } =
      readPacket sampleTables
        { construct 0 [] with serialIn := 0xFC :: sampleSettingsResponse.tail } ∧
    ([0x00, 0x7f] ≠ [] → readPacket sampleTables { construct 0 [] with serialIn := [0x00, 0x7f] } =
      some (PacketType.RCVD_PKT_FAIL, { construct 0 [] with serialIn := [] })) :=
  readPacket_scan sampleTables (construct 0 []) [0x00, 0x7f] sampleSettingsResponse.tail
    (by decide) (by decide)

/-! ## The send gate -/

/-- Without wrap-around (`PACKET_SENT_INTERVAL_MS <= millis() < 2^32`) the gate is open
exactly when more than the interval has elapsed since `lastSend`. -/
theorem canSend_iff (K : Tables) (hp : State) (h1 : K.PACKET_SENT_INTERVAL_MS ≤ hp.millis)
    (h2 : hp.millis < 4294967296) :
    canSend K hp = true ↔ hp.lastSend + K.PACKET_SENT_INTERVAL_MS < hp.millis := by
  unfold canSend toU32
  rw [decide_eq_true_iff]
  omega

/-- C16: the send gate opens too early.  `canSend` computes
`millis() - PACKET_SENT_INTERVAL_MS` in `unsigned long`, which wraps around while
`millis()` is below the interval: at clock value 100 with `lastSend` 0 (the value after
construction) and an interval of 1000, only 100 ms have elapsed, the difference wraps to
`4294966396` and `canSend()` returns true; likewise 50 ms after a frame was written at
clock value 50. -/
theorem canSend_wraps :
    (construct 100 []).millis - (construct 100 []).lastSend <
      sampleTables.PACKET_SENT_INTERVAL_MS ∧
    toU32 (((construct 100 []).millis : Int) - (sampleTables.PACKET_SENT_INTERVAL_MS : Int)) =
      4294966396 ∧
    canSend sampleTables (construct 100 []) = true ∧
    (∃ hp, writePacket (construct 50 []) [0xfc] 1 = some hp ∧ hp.lastSend = 50 ∧
      canSend sampleTables (delay 50 hp) = true) := by
  refine ⟨by decide, by decide, by decide, _, rfl, by decide, by decide⟩

/-! ## Custom frames -/

/-- C15: `sendCustomPacket` does not hand over the payload followed by its checksum.
After `len += 2` the copy loop runs to `len - 1`, one step too far: for a payload of
`n = 2` bytes it reads `data[2]`, outside a 2-byte array.  When the caller's array is
longer, that byte lands in the last of the `n + 2` bytes to be sent, where the checksum
belongs, and the checksum is stored at `packet[len]`, outside the `len`-byte buffer.  The
checked embedding stops at the first of these accesses. -/
theorem sendCustomPacket_off_by_one :
    copyOffLoop [0x5a, 0x01] 1 3 0 [0xfc, 0, 0, 0] = none ∧
    sendCustomPacket sampleTables 0 (construct 2000 []) [0x5a, 0x01] 2 = none ∧
    copyOffLoop [0x5a, 0x01, 0x99] 1 3 0 [0xfc, 0, 0, 0] = some [0xfc, 0x5a, 0x01, 0x99] ∧
    checkSum [0xfc, 0x5a, 0x01, 0x99] 3 = some 0xa5 ∧
    writeAt [0xfc, 0x5a, 0x01, 0x99] 4 0xa5 = none ∧
    sendCustomPacket sampleTables 0 (construct 2000 []) [0x5a, 0x01, 0x99] 2 = none := by
  refine ⟨by decide, by decide, by decide, by decide, by decide, by decide⟩

/-! ## The operation `update` -/

theorem waitCanSend_open (K : Tables) (fuel : Nat) (hp : State) (h : canSend K hp = true) :
    waitCanSend K fuel hp = some hp := by
  cases fuel <;> simp [waitCanSend, h]

/-- The loop `while(!canSend()) { delay(10); }` ends: without wrap-around of the clock,
`fuel` rounds suffice when `10 * fuel` covers what is left of the interval. -/
theorem waitCanSend_total (K : Tables) :
    ∀ (fuel : Nat) (hp : State), K.PACKET_SENT_INTERVAL_MS ≤ hp.millis →
      hp.lastSend + K.PACKET_SENT_INTERVAL_MS + 10 < 4294967296 → hp.millis < 4294967296 →
      hp.lastSend + K.PACKET_SENT_INTERVAL_MS + 1 ≤ hp.millis + 10 * fuel →
      ∃ ms, waitCanSend K fuel hp = some { hp with millis := ms } ∧
        canSend K { hp with millis := ms } = true := by
  intro fuel
  induction fuel with
  | zero =>
    intro hp h1 _ h3 h4
    have hc : canSend K hp = true := (canSend_iff K hp h1 h3).mpr (by omega)
    exact ⟨hp.millis, waitCanSend_open K 0 hp hc, hc⟩
  | succ fuel ih =>
    intro hp h1 h2 h3 h4
    by_cases hc : canSend K hp = true
    · exact ⟨hp.millis, waitCanSend_open K _ hp hc, hc⟩
    · have hle : hp.millis ≤ hp.lastSend + K.PACKET_SENT_INTERVAL_MS := by
        by_contra hn
        exact hc ((canSend_iff K hp h1 h3).mpr (by omega))
      have hm : (delay 10 hp).millis = hp.millis + 10 := by
        simp only [delay, toU32]
        omega
      obtain ⟨ms, hw, hcs⟩ := ih (delay 10 hp) (by rw [hm]; omega) h2 (by rw [hm]; omega)
        (by rw [hm]; show hp.lastSend + _ + 1 ≤ _; omega)
      refine ⟨ms, ?_, hcs⟩
      rw [waitCanSend, if_neg hc, hw]
      rfl

theorem writeLoop_eq (packet : List Nat) :
    ∀ (n i : Nat) (out : List Nat), i + n ≤ packet.length →
      writeLoop packet n i out = some (out ++ (packet.drop i).take n) := by
  intro n
  induction n with
  | zero => intro i out _; simp [writeLoop]
  | succ n ih =>
    intro i out h
    have hi : i < packet.length := by omega
    rw [writeLoop, List.getElem?_eq_getElem hi]
    simp only []
    rw [ih (i + 1) _ (by omega), List.drop_eq_getElem_cons hi, List.take_succ_cons]
    simp

theorem writePacket_serialOut (hp hp' : State) (packet : List Nat) (length : Nat)
    (hl : length ≤ packet.length) (h : writePacket hp packet length = some hp') :
    hp'.serialOut = hp.serialOut ++ packet.take length := by
  unfold writePacket at h
  rw [writeLoop_eq packet length 0 hp.serialOut (by omega)] at h
  simp only [List.drop_zero, Option.some.injEq] at h
  rw [← h]

theorem delay_serialOut (ms : Nat) (hp : State) : (delay ms hp).serialOut = hp.serialOut :=
  rfl

theorem readPacket_serialOut (K : Tables) (hp hp' : State) (ty : PacketType)
    (h : readPacket K hp = some (ty, hp')) : hp'.serialOut = hp.serialOut := by
  obtain ⟨input, ms, hpR, hsame, hc⟩ := readPacket_cases K hp ty hp' h
  obtain ⟨-, -, -, -, -, -, -, -, -, r10, -⟩ := sameUpToReports_fields _ _ hsame
  have e : hpR.serialOut = hp.serialOut := r10
  rcases hc with ⟨-, s, rfl⟩ | ⟨-, t, rfl⟩ | ⟨-, rfl⟩
  · rw [(storeSettings_fields hpR s).2.2.2.2.1, e]
  · rw [(storeRoomTemp_fields hpR t).2.2.2.2.1, e]
  · exact e

/-- C17: `update()` reports success iff the one response that it reads after sending the
update frame is classified `UpdateAck`.  Once the gate has opened (`hp0`), the update
frame is built (`packet`) and written (`hp1`), and the response is read one second later
with classification `ty` (`hp2`): for `UpdateAck` the result of `update()` is `true`
together with the object after one `sync(RQST_PKT_SETTINGS)`; for `Settings`, `RoomTemp`
and `Fail` it is `false` together with the object as the read left it, so no sync is
performed and the update frame is the only frame sent. -/
theorem update_reports (K : Tables) (fuel : Nat) (hp hp0 : State) (packet : List Nat)
    (hp1 : State) (ty : PacketType) (hp2 : State)
    (hwait : waitCanSend K fuel hp = some hp0)
    (hpk : createPacket K zeroPacket hp0.wantedSettings = some packet)
    (hwr : writePacket hp0 packet PACKET_LEN = some hp1)
    (hrd : readPacket K (delay 1000 hp1) = some (ty, hp2)) :
    (ty = PacketType.RCVD_PKT_UPDATE_SUCCESS →
      update K fuel hp = (sync K hp2 K.RQST_PKT_SETTINGS).map (fun hp3 => (true, hp3))) ∧
    (ty ≠ PacketType.RCVD_PKT_UPDATE_SUCCESS → update K fuel hp = some (false, hp2)) ∧
    (∀ b hp', update K fuel hp = some (b, hp') →
      (b = true ↔ ty = PacketType.RCVD_PKT_UPDATE_SUCCESS)) ∧
    (PACKET_LEN ≤ packet.length →
      hp2.serialOut = hp0.serialOut ++ packet.take PACKET_LEN) := by
  have hu : update K fuel hp =
      if ty = PacketType.RCVD_PKT_UPDATE_SUCCESS then
        (sync K hp2 K.RQST_PKT_SETTINGS).map (fun hp3 => (true, hp3))
      else some (false, hp2) := by
    unfold update
    simp only [hwait, hpk, hwr, hrd]
    split
    · cases hs : sync K hp2 K.RQST_PKT_SETTINGS <;> rfl
    · rfl
  refine ⟨fun h => by rw [hu, if_pos h], fun h => by rw [hu, if_neg h], ?_, ?_⟩
  · intro b hp' hb
    rw [hu] at hb
    split at hb
    · rename_i hty
      cases hs : sync K hp2 K.RQST_PKT_SETTINGS with
      | none => rw [hs] at hb; exact Option.noConfusion hb
      | some hp3 =>
        rw [hs] at hb
        simp only [Option.map_some', Option.some.injEq, Prod.mk.injEq] at hb
        exact ⟨fun _ => hty, fun _ => hb.1.symm⟩
    · rename_i hty
      simp only [Option.some.injEq, Prod.mk.injEq] at hb
      constructor
      · intro hbt
        rw [hbt] at hb
        exact absurd hb.1 (by decide)
      · intro h
        exact absurd h hty
  · intro hl
    have h1 := readPacket_serialOut K _ hp2 ty hrd
    have h2 := writePacket_serialOut hp0 hp1 packet PACKET_LEN hl hwr
    rw [h1, delay_serialOut, h2]

/-- Instance of C17, the end-to-end scenario: the update acknowledgement makes `update()`
return `true`, and the sync that follows installs the snapshot as `currentSettings`. -/
theorem update_reports_witness :
    ∃ hp', update sampleTables 0 sampleSession = some (true, hp') ∧
      hp'.currentSettings = sampleSettings := by
  have h := (update_reports sampleTables 0 sampleSession sampleSession
    [0xfc, 0x41, 0x01, 0x30, 0x10, 0x01, 0x9f, 0x00, 0x01, 0x01, 0x0a, 0x00, 0x00, 0x00,
      0x00, 0x08, 0x00, 0x00, 0x00, 0x00, 0x00, 0xca]
    { sampleSession with
      lastSend := 2000
      serialOut := [0xfc, 0x41, 0x01, 0x30, 0x10, 0x01, 0x9f, 0x00, 0x01, 0x01, 0x0a, 0x00,
        0x00, 0x00, 0x00, 0x08, 0x00, 0x00, 0x00, 0x00, 0x00, 0xca] }
    PacketType.RCVD_PKT_UPDATE_SUCCESS
    { sampleSession with
      millis := 3100
      lastSend := 2000
      serialIn := sampleSettingsResponse
      serialOut := [0xfc, 0x41, 0x01, 0x30, 0x10, 0x01, 0x9f, 0x00, 0x01, 0x01, 0x0a, 0x00,
        0x00, 0x00, 0x00, 0x08, 0x00, 0x00, 0x00, 0x00, 0x00, 0xca] }
    (by decide) (by decide) (by decide) (by decide)).1 rfl
  refine ⟨{ sampleSession with
      millis := 3200
      lastSend := 3100
      infoMode := true
      currentSettings := sampleSettings
      serialIn := []
      serialOut := [0xfc, 0x41, 0x01, 0x30, 0x10, 0x01, 0x9f, 0x00, 0x01, 0x01, 0x0a, 0x00,
        0x00, 0x00, 0x00, 0x08, 0x00, 0x00, 0x00, 0x00, 0x00, 0xca,
        0xfc, 0x42, 0x01, 0x30, 0x10, 0x02, 0x00, 0x00, 0x00, 0x00, 0x00, 0x00, 0x00, 0x00,
        0x00, 0x00, 0x00, 0x00, 0x00, 0x00, 0x00, 0x7b] }, ?_, rfl⟩
  rw [h]
  decide

end HeatPump
